import Mathlib

/-!
# fms_parser/2023.go : the FMS score-report parser of TBA-uploader

A shallow embedding of `parseHTMLtoJSON2023` and of what it calls.

* Go `string` is `String`; every text function works on the character list, by
  structural recursion, so that the definitions evaluate.
* Go `int` is `Int`, kept inside the 64-bit range: `strconv.ParseInt(s, 10, 0)`
  rejects what does not fit, and `-` wraps (`wrapInt`).
* `map[string]interface{}` is `Fields`, an association list with unique keys;
  `interface{}` is `Value`.
* A `panic` inside the per-row closure is an `Option String` returned next to the
  state reached when it was raised: the deferred `recover` keeps every write
  made before the panic, and so does the model.
* The DOM is the ordered list of its `tr` elements, each one the list of the
  texts of its children.
* The tables of the Go library that depend on the Unicode version (the lower case
  of a rune above ASCII, the printable runes above Latin-1) are the class
  `UnicodeTables`: the parser is defined and every theorem proved for any tables,
  and the instances at the end are evaluated at the tables of Unicode 15.0.0.
-/

namespace FmsParser

set_option linter.unusedVariables false
set_option linter.unusedSectionVars false

deriving instance DecidableEq for Except

/-! ## The Unicode tables of the Go library -/

/-- The two tables of the Go library the parser reaches outside Latin-1: the lower
case of a rune (`unicode.ToLower`, through `strings.ToLower`) and whether a rune
is printable (`strconv.IsPrint`, through `strconv.Quote`). They follow the Unicode
version of the Go release, so the parser is defined, and every theorem proved,
for whatever tables are given. -/
class UnicodeTables where
  lower : Char → Char
  isPrint : Char → Bool

/-- The runes above U+007F with a simple lower-case mapping in Unicode 15.0.0, in
blocks headed by the last code point of the block: from `lo` to `hi` by steps of
`stride`, each rune mapped to itself plus `delta`. -/
def lowerRanges15 : List (Nat × List (Nat × Nat × Nat × Int)) :=
  [
    (0x18A,
     [
      (0xC0, 0xD6, 1, 32), (0xD8, 0xDE, 1, 32), (0x100, 0x12E, 2, 1), (0x130, 0x130, 1, -199),
      (0x132, 0x136, 2, 1), (0x139, 0x147, 2, 1), (0x14A, 0x176, 2, 1), (0x178, 0x178, 1, -121),
      (0x179, 0x17D, 2, 1), (0x181, 0x181, 1, 210), (0x182, 0x184, 2, 1), (0x186, 0x186, 1, 206),
      (0x187, 0x187, 1, 1), (0x189, 0x18A, 1, 205) ]),
    (0x1A4,
     [
      (0x18B, 0x18B, 1, 1), (0x18E, 0x18E, 1, 79), (0x18F, 0x18F, 1, 202),
      (0x190, 0x190, 1, 203), (0x191, 0x191, 1, 1), (0x193, 0x193, 1, 205),
      (0x194, 0x194, 1, 207), (0x196, 0x196, 1, 211), (0x197, 0x197, 1, 209),
      (0x198, 0x198, 1, 1), (0x19C, 0x19C, 1, 211), (0x19D, 0x19D, 1, 213),
      (0x19F, 0x19F, 1, 214), (0x1A0, 0x1A4, 2, 1) ]),
    (0x1C7,
     [
      (0x1A6, 0x1A6, 1, 218), (0x1A7, 0x1A7, 1, 1), (0x1A9, 0x1A9, 1, 218), (0x1AC, 0x1AC, 1, 1),
      (0x1AE, 0x1AE, 1, 218), (0x1AF, 0x1AF, 1, 1), (0x1B1, 0x1B2, 1, 217), (0x1B3, 0x1B5, 2, 1),
      (0x1B7, 0x1B7, 1, 219), (0x1B8, 0x1B8, 1, 1), (0x1BC, 0x1BC, 1, 1), (0x1C4, 0x1C4, 1, 2),
      (0x1C5, 0x1C5, 1, 1), (0x1C7, 0x1C7, 1, 2) ]),
    (0x23D,
     [
      (0x1C8, 0x1C8, 1, 1), (0x1CA, 0x1CA, 1, 2), (0x1CB, 0x1DB, 2, 1), (0x1DE, 0x1EE, 2, 1),
      (0x1F1, 0x1F1, 1, 2), (0x1F2, 0x1F4, 2, 1), (0x1F6, 0x1F6, 1, -97), (0x1F7, 0x1F7, 1, -56),
      (0x1F8, 0x21E, 2, 1), (0x220, 0x220, 1, -130), (0x222, 0x232, 2, 1),
      (0x23A, 0x23A, 1, 10795), (0x23B, 0x23B, 1, 1), (0x23D, 0x23D, 1, -163) ]),
    (0x3A1,
     [
      (0x23E, 0x23E, 1, 10792), (0x241, 0x241, 1, 1), (0x243, 0x243, 1, -195),
      (0x244, 0x244, 1, 69), (0x245, 0x245, 1, 71), (0x246, 0x24E, 2, 1), (0x370, 0x372, 2, 1),
      (0x376, 0x376, 1, 1), (0x37F, 0x37F, 1, 116), (0x386, 0x386, 1, 38), (0x388, 0x38A, 1, 37),
      (0x38C, 0x38C, 1, 64), (0x38E, 0x38F, 1, 63), (0x391, 0x3A1, 1, 32) ]),
    (0x4CD,
     [
      (0x3A3, 0x3AB, 1, 32), (0x3CF, 0x3CF, 1, 8), (0x3D8, 0x3EE, 2, 1), (0x3F4, 0x3F4, 1, -60),
      (0x3F7, 0x3F7, 1, 1), (0x3F9, 0x3F9, 1, -7), (0x3FA, 0x3FA, 1, 1), (0x3FD, 0x3FF, 1, -130),
      (0x400, 0x40F, 1, 80), (0x410, 0x42F, 1, 32), (0x460, 0x480, 2, 1), (0x48A, 0x4BE, 2, 1),
      (0x4C0, 0x4C0, 1, 15), (0x4C1, 0x4CD, 2, 1) ]),
    (0x1F1D,
     [
      (0x4D0, 0x52E, 2, 1), (0x531, 0x556, 1, 48), (0x10A0, 0x10C5, 1, 7264),
      (0x10C7, 0x10C7, 1, 7264), (0x10CD, 0x10CD, 1, 7264), (0x13A0, 0x13EF, 1, 38864),
      (0x13F0, 0x13F5, 1, 8), (0x1C90, 0x1CBA, 1, -3008), (0x1CBD, 0x1CBF, 1, -3008),
      (0x1E00, 0x1E94, 2, 1), (0x1E9E, 0x1E9E, 1, -7615), (0x1EA0, 0x1EFE, 2, 1),
      (0x1F08, 0x1F0F, 1, -8), (0x1F18, 0x1F1D, 1, -8) ]),
    (0x1FD9,
     [
      (0x1F28, 0x1F2F, 1, -8), (0x1F38, 0x1F3F, 1, -8), (0x1F48, 0x1F4D, 1, -8),
      (0x1F59, 0x1F5F, 2, -8), (0x1F68, 0x1F6F, 1, -8), (0x1F88, 0x1F8F, 1, -8),
      (0x1F98, 0x1F9F, 1, -8), (0x1FA8, 0x1FAF, 1, -8), (0x1FB8, 0x1FB9, 1, -8),
      (0x1FBA, 0x1FBB, 1, -74), (0x1FBC, 0x1FBC, 1, -9), (0x1FC8, 0x1FCB, 1, -86),
      (0x1FCC, 0x1FCC, 1, -9), (0x1FD8, 0x1FD9, 1, -8) ]),
    (0x24CF,
     [
      (0x1FDA, 0x1FDB, 1, -100), (0x1FE8, 0x1FE9, 1, -8), (0x1FEA, 0x1FEB, 1, -112),
      (0x1FEC, 0x1FEC, 1, -7), (0x1FF8, 0x1FF9, 1, -128), (0x1FFA, 0x1FFB, 1, -126),
      (0x1FFC, 0x1FFC, 1, -9), (0x2126, 0x2126, 1, -7517), (0x212A, 0x212A, 1, -8383),
      (0x212B, 0x212B, 1, -8262), (0x2132, 0x2132, 1, 28), (0x2160, 0x216F, 1, 16),
      (0x2183, 0x2183, 1, 1), (0x24B6, 0x24CF, 1, 26) ]),
    (0x2CE2,
     [
      (0x2C00, 0x2C2F, 1, 48), (0x2C60, 0x2C60, 1, 1), (0x2C62, 0x2C62, 1, -10743),
      (0x2C63, 0x2C63, 1, -3814), (0x2C64, 0x2C64, 1, -10727), (0x2C67, 0x2C6B, 2, 1),
      (0x2C6D, 0x2C6D, 1, -10780), (0x2C6E, 0x2C6E, 1, -10749), (0x2C6F, 0x2C6F, 1, -10783),
      (0x2C70, 0x2C70, 1, -10782), (0x2C72, 0x2C72, 1, 1), (0x2C75, 0x2C75, 1, 1),
      (0x2C7E, 0x2C7F, 1, -10815), (0x2C80, 0x2CE2, 2, 1) ]),
    (0xA7AA,
     [
      (0x2CEB, 0x2CED, 2, 1), (0x2CF2, 0x2CF2, 1, 1), (0xA640, 0xA66C, 2, 1),
      (0xA680, 0xA69A, 2, 1), (0xA722, 0xA72E, 2, 1), (0xA732, 0xA76E, 2, 1),
      (0xA779, 0xA77B, 2, 1), (0xA77D, 0xA77D, 1, -35332), (0xA77E, 0xA786, 2, 1),
      (0xA78B, 0xA78B, 1, 1), (0xA78D, 0xA78D, 1, -42280), (0xA790, 0xA792, 2, 1),
      (0xA796, 0xA7A8, 2, 1), (0xA7AA, 0xA7AA, 1, -42308) ]),
    (0xA7D0,
     [
      (0xA7AB, 0xA7AB, 1, -42319), (0xA7AC, 0xA7AC, 1, -42315), (0xA7AD, 0xA7AD, 1, -42305),
      (0xA7AE, 0xA7AE, 1, -42308), (0xA7B0, 0xA7B0, 1, -42258), (0xA7B1, 0xA7B1, 1, -42282),
      (0xA7B2, 0xA7B2, 1, -42261), (0xA7B3, 0xA7B3, 1, 928), (0xA7B4, 0xA7C2, 2, 1),
      (0xA7C4, 0xA7C4, 1, -48), (0xA7C5, 0xA7C5, 1, -42307), (0xA7C6, 0xA7C6, 1, -35384),
      (0xA7C7, 0xA7C9, 2, 1), (0xA7D0, 0xA7D0, 1, 1) ]),
    (0x1E921,
     [
      (0xA7D6, 0xA7D8, 2, 1), (0xA7F5, 0xA7F5, 1, 1), (0xFF21, 0xFF3A, 1, 32),
      (0x10400, 0x10427, 1, 40), (0x104B0, 0x104D3, 1, 40), (0x10570, 0x1057A, 1, 39),
      (0x1057C, 0x1058A, 1, 39), (0x1058C, 0x10592, 1, 39), (0x10594, 0x10595, 1, 39),
      (0x10C80, 0x10CB2, 1, 64), (0x118A0, 0x118BF, 1, 32), (0x16E40, 0x16E5F, 1, 32),
      (0x1E900, 0x1E921, 1, 34) ]) ]

/-- The printable runes of Unicode 15.0.0 above U+00FF, as Go defines them (the
categories L, M, N, P and S), in blocks headed by the last code point of the
block. -/
def printRanges15 : List (Nat × List (Nat × Nat)) :=
  [
    (0x98C,
     [
      (0x100, 0x377), (0x37A, 0x37F), (0x384, 0x38A), (0x38C, 0x38C), (0x38E, 0x3A1),
      (0x3A3, 0x52F), (0x531, 0x556), (0x559, 0x58A), (0x58D, 0x58F), (0x591, 0x5C7),
      (0x5D0, 0x5EA), (0x5EF, 0x5F4), (0x606, 0x61B), (0x61D, 0x6DC), (0x6DE, 0x70D),
      (0x710, 0x74A), (0x74D, 0x7B1), (0x7C0, 0x7FA), (0x7FD, 0x82D), (0x830, 0x83E),
      (0x840, 0x85B), (0x85E, 0x85E), (0x860, 0x86A), (0x870, 0x88E), (0x898, 0x8E1),
      (0x8E3, 0x983), (0x985, 0x98C) ]),
    (0xA5E,
     [
      (0x98F, 0x990), (0x993, 0x9A8), (0x9AA, 0x9B0), (0x9B2, 0x9B2), (0x9B6, 0x9B9),
      (0x9BC, 0x9C4), (0x9C7, 0x9C8), (0x9CB, 0x9CE), (0x9D7, 0x9D7), (0x9DC, 0x9DD),
      (0x9DF, 0x9E3), (0x9E6, 0x9FE), (0xA01, 0xA03), (0xA05, 0xA0A), (0xA0F, 0xA10),
      (0xA13, 0xA28), (0xA2A, 0xA30), (0xA32, 0xA33), (0xA35, 0xA36), (0xA38, 0xA39),
      (0xA3C, 0xA3C), (0xA3E, 0xA42), (0xA47, 0xA48), (0xA4B, 0xA4D), (0xA51, 0xA51),
      (0xA59, 0xA5C), (0xA5E, 0xA5E) ]),
    (0xB5D,
     [
      (0xA66, 0xA76), (0xA81, 0xA83), (0xA85, 0xA8D), (0xA8F, 0xA91), (0xA93, 0xAA8),
      (0xAAA, 0xAB0), (0xAB2, 0xAB3), (0xAB5, 0xAB9), (0xABC, 0xAC5), (0xAC7, 0xAC9),
      (0xACB, 0xACD), (0xAD0, 0xAD0), (0xAE0, 0xAE3), (0xAE6, 0xAF1), (0xAF9, 0xAFF),
      (0xB01, 0xB03), (0xB05, 0xB0C), (0xB0F, 0xB10), (0xB13, 0xB28), (0xB2A, 0xB30),
      (0xB32, 0xB33), (0xB35, 0xB39), (0xB3C, 0xB44), (0xB47, 0xB48), (0xB4B, 0xB4D),
      (0xB55, 0xB57), (0xB5C, 0xB5D) ]),
    (0xC5A,
     [
      (0xB5F, 0xB63), (0xB66, 0xB77), (0xB82, 0xB83), (0xB85, 0xB8A), (0xB8E, 0xB90),
      (0xB92, 0xB95), (0xB99, 0xB9A), (0xB9C, 0xB9C), (0xB9E, 0xB9F), (0xBA3, 0xBA4),
      (0xBA8, 0xBAA), (0xBAE, 0xBB9), (0xBBE, 0xBC2), (0xBC6, 0xBC8), (0xBCA, 0xBCD),
      (0xBD0, 0xBD0), (0xBD7, 0xBD7), (0xBE6, 0xBFA), (0xC00, 0xC0C), (0xC0E, 0xC10),
      (0xC12, 0xC28), (0xC2A, 0xC39), (0xC3C, 0xC44), (0xC46, 0xC48), (0xC4A, 0xC4D),
      (0xC55, 0xC56), (0xC58, 0xC5A) ]),
    (0xDBB,
     [
      (0xC5D, 0xC5D), (0xC60, 0xC63), (0xC66, 0xC6F), (0xC77, 0xC8C), (0xC8E, 0xC90),
      (0xC92, 0xCA8), (0xCAA, 0xCB3), (0xCB5, 0xCB9), (0xCBC, 0xCC4), (0xCC6, 0xCC8),
      (0xCCA, 0xCCD), (0xCD5, 0xCD6), (0xCDD, 0xCDE), (0xCE0, 0xCE3), (0xCE6, 0xCEF),
      (0xCF1, 0xCF3), (0xD00, 0xD0C), (0xD0E, 0xD10), (0xD12, 0xD44), (0xD46, 0xD48),
      (0xD4A, 0xD4F), (0xD54, 0xD63), (0xD66, 0xD7F), (0xD81, 0xD83), (0xD85, 0xD96),
      (0xD9A, 0xDB1), (0xDB3, 0xDBB) ]),
    (0xFDA,
     [
      (0xDBD, 0xDBD), (0xDC0, 0xDC6), (0xDCA, 0xDCA), (0xDCF, 0xDD4), (0xDD6, 0xDD6),
      (0xDD8, 0xDDF), (0xDE6, 0xDEF), (0xDF2, 0xDF4), (0xE01, 0xE3A), (0xE3F, 0xE5B),
      (0xE81, 0xE82), (0xE84, 0xE84), (0xE86, 0xE8A), (0xE8C, 0xEA3), (0xEA5, 0xEA5),
      (0xEA7, 0xEBD), (0xEC0, 0xEC4), (0xEC6, 0xEC6), (0xEC8, 0xECE), (0xED0, 0xED9),
      (0xEDC, 0xEDF), (0xF00, 0xF47), (0xF49, 0xF6C), (0xF71, 0xF97), (0xF99, 0xFBC),
      (0xFBE, 0xFCC), (0xFCE, 0xFDA) ]),
    (0x1715,
     [
      (0x1000, 0x10C5), (0x10C7, 0x10C7), (0x10CD, 0x10CD), (0x10D0, 0x1248), (0x124A, 0x124D),
      (0x1250, 0x1256), (0x1258, 0x1258), (0x125A, 0x125D), (0x1260, 0x1288), (0x128A, 0x128D),
      (0x1290, 0x12B0), (0x12B2, 0x12B5), (0x12B8, 0x12BE), (0x12C0, 0x12C0), (0x12C2, 0x12C5),
      (0x12C8, 0x12D6), (0x12D8, 0x1310), (0x1312, 0x1315), (0x1318, 0x135A), (0x135D, 0x137C),
      (0x1380, 0x1399), (0x13A0, 0x13F5), (0x13F8, 0x13FD), (0x1400, 0x167F), (0x1681, 0x169C),
      (0x16A0, 0x16F8), (0x1700, 0x1715) ]),
    (0x1A99,
     [
      (0x171F, 0x1736), (0x1740, 0x1753), (0x1760, 0x176C), (0x176E, 0x1770), (0x1772, 0x1773),
      (0x1780, 0x17DD), (0x17E0, 0x17E9), (0x17F0, 0x17F9), (0x1800, 0x180D), (0x180F, 0x1819),
      (0x1820, 0x1878), (0x1880, 0x18AA), (0x18B0, 0x18F5), (0x1900, 0x191E), (0x1920, 0x192B),
      (0x1930, 0x193B), (0x1940, 0x1940), (0x1944, 0x196D), (0x1970, 0x1974), (0x1980, 0x19AB),
      (0x19B0, 0x19C9), (0x19D0, 0x19DA), (0x19DE, 0x1A1B), (0x1A1E, 0x1A5E), (0x1A60, 0x1A7C),
      (0x1A7F, 0x1A89), (0x1A90, 0x1A99) ]),
    (0x1FFE,
     [
      (0x1AA0, 0x1AAD), (0x1AB0, 0x1ACE), (0x1B00, 0x1B4C), (0x1B50, 0x1B7E), (0x1B80, 0x1BF3),
      (0x1BFC, 0x1C37), (0x1C3B, 0x1C49), (0x1C4D, 0x1C88), (0x1C90, 0x1CBA), (0x1CBD, 0x1CC7),
      (0x1CD0, 0x1CFA), (0x1D00, 0x1F15), (0x1F18, 0x1F1D), (0x1F20, 0x1F45), (0x1F48, 0x1F4D),
      (0x1F50, 0x1F57), (0x1F59, 0x1F59), (0x1F5B, 0x1F5B), (0x1F5D, 0x1F5D), (0x1F5F, 0x1F7D),
      (0x1F80, 0x1FB4), (0x1FB6, 0x1FC4), (0x1FC6, 0x1FD3), (0x1FD6, 0x1FDB), (0x1FDD, 0x1FEF),
      (0x1FF2, 0x1FF4), (0x1FF6, 0x1FFE) ]),
    (0x2DDE,
     [
      (0x2010, 0x2027), (0x2030, 0x205E), (0x2070, 0x2071), (0x2074, 0x208E), (0x2090, 0x209C),
      (0x20A0, 0x20C0), (0x20D0, 0x20F0), (0x2100, 0x218B), (0x2190, 0x2426), (0x2440, 0x244A),
      (0x2460, 0x2B73), (0x2B76, 0x2B95), (0x2B97, 0x2CF3), (0x2CF9, 0x2D25), (0x2D27, 0x2D27),
      (0x2D2D, 0x2D2D), (0x2D30, 0x2D67), (0x2D6F, 0x2D70), (0x2D7F, 0x2D96), (0x2DA0, 0x2DA6),
      (0x2DA8, 0x2DAE), (0x2DB0, 0x2DB6), (0x2DB8, 0x2DBE), (0x2DC0, 0x2DC6), (0x2DC8, 0x2DCE),
      (0x2DD0, 0x2DD6), (0x2DD8, 0x2DDE) ]),
    (0xA97C,
     [
      (0x2DE0, 0x2E5D), (0x2E80, 0x2E99), (0x2E9B, 0x2EF3), (0x2F00, 0x2FD5), (0x2FF0, 0x2FFB),
      (0x3001, 0x303F), (0x3041, 0x3096), (0x3099, 0x30FF), (0x3105, 0x312F), (0x3131, 0x318E),
      (0x3190, 0x31E3), (0x31F0, 0x321E), (0x3220, 0xA48C), (0xA490, 0xA4C6), (0xA4D0, 0xA62B),
      (0xA640, 0xA6F7), (0xA700, 0xA7CA), (0xA7D0, 0xA7D1), (0xA7D3, 0xA7D3), (0xA7D5, 0xA7D9),
      (0xA7F2, 0xA82C), (0xA830, 0xA839), (0xA840, 0xA877), (0xA880, 0xA8C5), (0xA8CE, 0xA8D9),
      (0xA8E0, 0xA953), (0xA95F, 0xA97C) ]),
    (0xFB41,
     [
      (0xA980, 0xA9CD), (0xA9CF, 0xA9D9), (0xA9DE, 0xA9FE), (0xAA00, 0xAA36), (0xAA40, 0xAA4D),
      (0xAA50, 0xAA59), (0xAA5C, 0xAAC2), (0xAADB, 0xAAF6), (0xAB01, 0xAB06), (0xAB09, 0xAB0E),
      (0xAB11, 0xAB16), (0xAB20, 0xAB26), (0xAB28, 0xAB2E), (0xAB30, 0xAB6B), (0xAB70, 0xABED),
      (0xABF0, 0xABF9), (0xAC00, 0xD7A3), (0xD7B0, 0xD7C6), (0xD7CB, 0xD7FB), (0xF900, 0xFA6D),
      (0xFA70, 0xFAD9), (0xFB00, 0xFB06), (0xFB13, 0xFB17), (0xFB1D, 0xFB36), (0xFB38, 0xFB3C),
      (0xFB3E, 0xFB3E), (0xFB40, 0xFB41) ]),
    (0x10102,
     [
      (0xFB43, 0xFB44), (0xFB46, 0xFBC2), (0xFBD3, 0xFD8F), (0xFD92, 0xFDC7), (0xFDCF, 0xFDCF),
      (0xFDF0, 0xFE19), (0xFE20, 0xFE52), (0xFE54, 0xFE66), (0xFE68, 0xFE6B), (0xFE70, 0xFE74),
      (0xFE76, 0xFEFC), (0xFF01, 0xFFBE), (0xFFC2, 0xFFC7), (0xFFCA, 0xFFCF), (0xFFD2, 0xFFD7),
      (0xFFDA, 0xFFDC), (0xFFE0, 0xFFE6), (0xFFE8, 0xFFEE), (0xFFFC, 0xFFFD), (0x10000, 0x1000B),
      (0x1000D, 0x10026), (0x10028, 0x1003A), (0x1003C, 0x1003D), (0x1003F, 0x1004D),
      (0x10050, 0x1005D), (0x10080, 0x100FA), (0x10100, 0x10102) ]),
    (0x105B9,
     [
      (0x10107, 0x10133), (0x10137, 0x1018E), (0x10190, 0x1019C), (0x101A0, 0x101A0),
      (0x101D0, 0x101FD), (0x10280, 0x1029C), (0x102A0, 0x102D0), (0x102E0, 0x102FB),
      (0x10300, 0x10323), (0x1032D, 0x1034A), (0x10350, 0x1037A), (0x10380, 0x1039D),
      (0x1039F, 0x103C3), (0x103C8, 0x103D5), (0x10400, 0x1049D), (0x104A0, 0x104A9),
      (0x104B0, 0x104D3), (0x104D8, 0x104FB), (0x10500, 0x10527), (0x10530, 0x10563),
      (0x1056F, 0x1057A), (0x1057C, 0x1058A), (0x1058C, 0x10592), (0x10594, 0x10595),
      (0x10597, 0x105A1), (0x105A3, 0x105B1), (0x105B3, 0x105B9) ]),
    (0x10A35,
     [
      (0x105BB, 0x105BC), (0x10600, 0x10736), (0x10740, 0x10755), (0x10760, 0x10767),
      (0x10780, 0x10785), (0x10787, 0x107B0), (0x107B2, 0x107BA), (0x10800, 0x10805),
      (0x10808, 0x10808), (0x1080A, 0x10835), (0x10837, 0x10838), (0x1083C, 0x1083C),
      (0x1083F, 0x10855), (0x10857, 0x1089E), (0x108A7, 0x108AF), (0x108E0, 0x108F2),
      (0x108F4, 0x108F5), (0x108FB, 0x1091B), (0x1091F, 0x10939), (0x1093F, 0x1093F),
      (0x10980, 0x109B7), (0x109BC, 0x109CF), (0x109D2, 0x10A03), (0x10A05, 0x10A06),
      (0x10A0C, 0x10A13), (0x10A15, 0x10A17), (0x10A19, 0x10A35) ]),
    (0x1104D,
     [
      (0x10A38, 0x10A3A), (0x10A3F, 0x10A48), (0x10A50, 0x10A58), (0x10A60, 0x10A9F),
      (0x10AC0, 0x10AE6), (0x10AEB, 0x10AF6), (0x10B00, 0x10B35), (0x10B39, 0x10B55),
      (0x10B58, 0x10B72), (0x10B78, 0x10B91), (0x10B99, 0x10B9C), (0x10BA9, 0x10BAF),
      (0x10C00, 0x10C48), (0x10C80, 0x10CB2), (0x10CC0, 0x10CF2), (0x10CFA, 0x10D27),
      (0x10D30, 0x10D39), (0x10E60, 0x10E7E), (0x10E80, 0x10EA9), (0x10EAB, 0x10EAD),
      (0x10EB0, 0x10EB1), (0x10EFD, 0x10F27), (0x10F30, 0x10F59), (0x10F70, 0x10F89),
      (0x10FB0, 0x10FCB), (0x10FE0, 0x10FF6), (0x11000, 0x1104D) ]),
    (0x11344,
     [
      (0x11052, 0x11075), (0x1107F, 0x110BC), (0x110BE, 0x110C2), (0x110D0, 0x110E8),
      (0x110F0, 0x110F9), (0x11100, 0x11134), (0x11136, 0x11147), (0x11150, 0x11176),
      (0x11180, 0x111DF), (0x111E1, 0x111F4), (0x11200, 0x11211), (0x11213, 0x11241),
      (0x11280, 0x11286), (0x11288, 0x11288), (0x1128A, 0x1128D), (0x1128F, 0x1129D),
      (0x1129F, 0x112A9), (0x112B0, 0x112EA), (0x112F0, 0x112F9), (0x11300, 0x11303),
      (0x11305, 0x1130C), (0x1130F, 0x11310), (0x11313, 0x11328), (0x1132A, 0x11330),
      (0x11332, 0x11333), (0x11335, 0x11339), (0x1133B, 0x11344) ]),
    (0x11916,
     [
      (0x11347, 0x11348), (0x1134B, 0x1134D), (0x11350, 0x11350), (0x11357, 0x11357),
      (0x1135D, 0x11363), (0x11366, 0x1136C), (0x11370, 0x11374), (0x11400, 0x1145B),
      (0x1145D, 0x11461), (0x11480, 0x114C7), (0x114D0, 0x114D9), (0x11580, 0x115B5),
      (0x115B8, 0x115DD), (0x11600, 0x11644), (0x11650, 0x11659), (0x11660, 0x1166C),
      (0x11680, 0x116B9), (0x116C0, 0x116C9), (0x11700, 0x1171A), (0x1171D, 0x1172B),
      (0x11730, 0x11746), (0x11800, 0x1183B), (0x118A0, 0x118F2), (0x118FF, 0x11906),
      (0x11909, 0x11909), (0x1190C, 0x11913), (0x11915, 0x11916) ]),
    (0x11D68,
     [
      (0x11918, 0x11935), (0x11937, 0x11938), (0x1193B, 0x11946), (0x11950, 0x11959),
      (0x119A0, 0x119A7), (0x119AA, 0x119D7), (0x119DA, 0x119E4), (0x11A00, 0x11A47),
      (0x11A50, 0x11AA2), (0x11AB0, 0x11AF8), (0x11B00, 0x11B09), (0x11C00, 0x11C08),
      (0x11C0A, 0x11C36), (0x11C38, 0x11C45), (0x11C50, 0x11C6C), (0x11C70, 0x11C8F),
      (0x11C92, 0x11CA7), (0x11CA9, 0x11CB6), (0x11D00, 0x11D06), (0x11D08, 0x11D09),
      (0x11D0B, 0x11D36), (0x11D3A, 0x11D3A), (0x11D3C, 0x11D3D), (0x11D3F, 0x11D47),
      (0x11D50, 0x11D59), (0x11D60, 0x11D65), (0x11D67, 0x11D68) ]),
    (0x16B59,
     [
      (0x11D6A, 0x11D8E), (0x11D90, 0x11D91), (0x11D93, 0x11D98), (0x11DA0, 0x11DA9),
      (0x11EE0, 0x11EF8), (0x11F00, 0x11F10), (0x11F12, 0x11F3A), (0x11F3E, 0x11F59),
      (0x11FB0, 0x11FB0), (0x11FC0, 0x11FF1), (0x11FFF, 0x12399), (0x12400, 0x1246E),
      (0x12470, 0x12474), (0x12480, 0x12543), (0x12F90, 0x12FF2), (0x13000, 0x1342F),
      (0x13440, 0x13455), (0x14400, 0x14646), (0x16800, 0x16A38), (0x16A40, 0x16A5E),
      (0x16A60, 0x16A69), (0x16A6E, 0x16ABE), (0x16AC0, 0x16AC9), (0x16AD0, 0x16AED),
      (0x16AF0, 0x16AF5), (0x16B00, 0x16B45), (0x16B50, 0x16B59) ]),
    (0x1CF2D,
     [
      (0x16B5B, 0x16B61), (0x16B63, 0x16B77), (0x16B7D, 0x16B8F), (0x16E40, 0x16E9A),
      (0x16F00, 0x16F4A), (0x16F4F, 0x16F87), (0x16F8F, 0x16F9F), (0x16FE0, 0x16FE4),
      (0x16FF0, 0x16FF1), (0x17000, 0x187F7), (0x18800, 0x18CD5), (0x18D00, 0x18D08),
      (0x1AFF0, 0x1AFF3), (0x1AFF5, 0x1AFFB), (0x1AFFD, 0x1AFFE), (0x1B000, 0x1B122),
      (0x1B132, 0x1B132), (0x1B150, 0x1B152), (0x1B155, 0x1B155), (0x1B164, 0x1B167),
      (0x1B170, 0x1B2FB), (0x1BC00, 0x1BC6A), (0x1BC70, 0x1BC7C), (0x1BC80, 0x1BC88),
      (0x1BC90, 0x1BC99), (0x1BC9C, 0x1BC9F), (0x1CF00, 0x1CF2D) ]),
    (0x1D544,
     [
      (0x1CF30, 0x1CF46), (0x1CF50, 0x1CFC3), (0x1D000, 0x1D0F5), (0x1D100, 0x1D126),
      (0x1D129, 0x1D172), (0x1D17B, 0x1D1EA), (0x1D200, 0x1D245), (0x1D2C0, 0x1D2D3),
      (0x1D2E0, 0x1D2F3), (0x1D300, 0x1D356), (0x1D360, 0x1D378), (0x1D400, 0x1D454),
      (0x1D456, 0x1D49C), (0x1D49E, 0x1D49F), (0x1D4A2, 0x1D4A2), (0x1D4A5, 0x1D4A6),
      (0x1D4A9, 0x1D4AC), (0x1D4AE, 0x1D4B9), (0x1D4BB, 0x1D4BB), (0x1D4BD, 0x1D4C3),
      (0x1D4C5, 0x1D505), (0x1D507, 0x1D50A), (0x1D50D, 0x1D514), (0x1D516, 0x1D51C),
      (0x1D51E, 0x1D539), (0x1D53B, 0x1D53E), (0x1D540, 0x1D544) ]),
    (0x1E7EE,
     [
      (0x1D546, 0x1D546), (0x1D54A, 0x1D550), (0x1D552, 0x1D6A5), (0x1D6A8, 0x1D7CB),
      (0x1D7CE, 0x1DA8B), (0x1DA9B, 0x1DA9F), (0x1DAA1, 0x1DAAF), (0x1DF00, 0x1DF1E),
      (0x1DF25, 0x1DF2A), (0x1E000, 0x1E006), (0x1E008, 0x1E018), (0x1E01B, 0x1E021),
      (0x1E023, 0x1E024), (0x1E026, 0x1E02A), (0x1E030, 0x1E06D), (0x1E08F, 0x1E08F),
      (0x1E100, 0x1E12C), (0x1E130, 0x1E13D), (0x1E140, 0x1E149), (0x1E14E, 0x1E14F),
      (0x1E290, 0x1E2AE), (0x1E2C0, 0x1E2F9), (0x1E2FF, 0x1E2FF), (0x1E4D0, 0x1E4F9),
      (0x1E7E0, 0x1E7E6), (0x1E7E8, 0x1E7EB), (0x1E7ED, 0x1E7EE) ]),
    (0x1EE5B,
     [
      (0x1E7F0, 0x1E7FE), (0x1E800, 0x1E8C4), (0x1E8C7, 0x1E8D6), (0x1E900, 0x1E94B),
      (0x1E950, 0x1E959), (0x1E95E, 0x1E95F), (0x1EC71, 0x1ECB4), (0x1ED01, 0x1ED3D),
      (0x1EE00, 0x1EE03), (0x1EE05, 0x1EE1F), (0x1EE21, 0x1EE22), (0x1EE24, 0x1EE24),
      (0x1EE27, 0x1EE27), (0x1EE29, 0x1EE32), (0x1EE34, 0x1EE37), (0x1EE39, 0x1EE39),
      (0x1EE3B, 0x1EE3B), (0x1EE42, 0x1EE42), (0x1EE47, 0x1EE47), (0x1EE49, 0x1EE49),
      (0x1EE4B, 0x1EE4B), (0x1EE4D, 0x1EE4F), (0x1EE51, 0x1EE52), (0x1EE54, 0x1EE54),
      (0x1EE57, 0x1EE57), (0x1EE59, 0x1EE59), (0x1EE5B, 0x1EE5B) ]),
    (0x1F265,
     [
      (0x1EE5D, 0x1EE5D), (0x1EE5F, 0x1EE5F), (0x1EE61, 0x1EE62), (0x1EE64, 0x1EE64),
      (0x1EE67, 0x1EE6A), (0x1EE6C, 0x1EE72), (0x1EE74, 0x1EE77), (0x1EE79, 0x1EE7C),
      (0x1EE7E, 0x1EE7E), (0x1EE80, 0x1EE89), (0x1EE8B, 0x1EE9B), (0x1EEA1, 0x1EEA3),
      (0x1EEA5, 0x1EEA9), (0x1EEAB, 0x1EEBB), (0x1EEF0, 0x1EEF1), (0x1F000, 0x1F02B),
      (0x1F030, 0x1F093), (0x1F0A0, 0x1F0AE), (0x1F0B1, 0x1F0BF), (0x1F0C1, 0x1F0CF),
      (0x1F0D1, 0x1F0F5), (0x1F100, 0x1F1AD), (0x1F1E6, 0x1F202), (0x1F210, 0x1F23B),
      (0x1F240, 0x1F248), (0x1F250, 0x1F251), (0x1F260, 0x1F265) ]),
    (0x2B739,
     [
      (0x1F300, 0x1F6D7), (0x1F6DC, 0x1F6EC), (0x1F6F0, 0x1F6FC), (0x1F700, 0x1F776),
      (0x1F77B, 0x1F7D9), (0x1F7E0, 0x1F7EB), (0x1F7F0, 0x1F7F0), (0x1F800, 0x1F80B),
      (0x1F810, 0x1F847), (0x1F850, 0x1F859), (0x1F860, 0x1F887), (0x1F890, 0x1F8AD),
      (0x1F8B0, 0x1F8B1), (0x1F900, 0x1FA53), (0x1FA60, 0x1FA6D), (0x1FA70, 0x1FA7C),
      (0x1FA80, 0x1FA88), (0x1FA90, 0x1FABD), (0x1FABF, 0x1FAC5), (0x1FACE, 0x1FADB),
      (0x1FAE0, 0x1FAE8), (0x1FAF0, 0x1FAF8), (0x1FB00, 0x1FB92), (0x1FB94, 0x1FBCA),
      (0x1FBF0, 0x1FBF9), (0x20000, 0x2A6DF), (0x2A700, 0x2B739) ]),
    (0xE01EF,
     [
      (0x2B740, 0x2B81D), (0x2B820, 0x2CEA1), (0x2CEB0, 0x2EBE0), (0x2F800, 0x2FA1D),
      (0x30000, 0x3134A), (0x31350, 0x323AF), (0xE0100, 0xE01EF) ]) ]

/-- The lower case of the code point `n` by the ranges of one block. -/
def lowerOf : List (Nat × Nat × Nat × Int) → Nat → Nat
  | [], n => n
  | (lo, hi, stride, delta) :: rest, n =>
    if lo ≤ n ∧ n ≤ hi ∧ (n - lo) % stride = 0 then ((n : Int) + delta).toNat
    else lowerOf rest n

/-- The lower case of the code point `n` by a table of blocks. -/
def lowerIn : List (Nat × List (Nat × Nat × Nat × Int)) → Nat → Nat
  | [], n => n
  | (limit, ranges) :: rest, n => if n ≤ limit then lowerOf ranges n else lowerIn rest n

/-- The code point `n` lies in one of the ranges of one block. -/
def inRanges : List (Nat × Nat) → Nat → Bool
  | [], _ => false
  | (lo, hi) :: rest, n => (decide (lo ≤ n) && decide (n ≤ hi)) || inRanges rest n

/-- The code point `n` lies in one of the ranges of a table of blocks. -/
def inBlocks : List (Nat × List (Nat × Nat)) → Nat → Bool
  | [], _ => false
  | (limit, ranges) :: rest, n => if n ≤ limit then inRanges ranges n else inBlocks rest n

/-- The tables of Unicode 15.0.0, the version of the Go releases from 1.21 on, at
which the instances at the end of the file are evaluated. -/
instance unicode15 : UnicodeTables where
  lower c := Char.ofNat (lowerIn lowerRanges15 c.toNat)
  isPrint c := inBlocks printRanges15 c.toNat

section Parser

variable [UnicodeTables]

/-! ## Text -/

/-- Go `unicode.IsSpace`: the Latin-1 spaces and the runes with the Unicode
White_Space property. -/
def isSpace (c : Char) : Bool :=
  let n := c.toNat
  (9 ≤ n && n ≤ 13) || n == 0x20 || n == 0x85 || n == 0xA0 || n == 0x1680 ||
  (0x2000 ≤ n && n ≤ 0x200A) || n == 0x2028 || n == 0x2029 || n == 0x202F ||
  n == 0x205F || n == 0x3000

/-- Go `strings.TrimSpace`: drops the leading and the trailing white space. -/
def TrimSpace (s : String) : String :=
  ⟨((s.data.dropWhile isSpace).reverse.dropWhile isSpace).reverse⟩

/-- Go `unicode.ToLower` on one rune: in ASCII `A`..`Z` move to `a`..`z`, above
ASCII the rune goes through the lower-case table. -/
def toLowerRune (c : Char) : Char :=
  if c.toNat ≤ 0x7F then
    (if 65 ≤ c.toNat ∧ c.toNat ≤ 90 then Char.ofNat (c.toNat + 32) else c)
  else UnicodeTables.lower c

/-- Go `strings.ToLower`. -/
def ToLower (s : String) : String := ⟨s.data.map toLowerRune⟩

/-- One hexadecimal digit, lower case. -/
def hexDigit (n : Nat) : Char :=
  if n < 10 then Char.ofNat (48 + n) else Char.ofNat (87 + n)

/-- Go `strconv.IsPrint`: the fast test on Latin-1, the table above it. -/
def IsPrint (c : Char) : Bool :=
  let n := c.toNat
  if n ≤ 0xFF then (0x20 ≤ n && n ≤ 0x7E) || (0xA1 ≤ n && n ≤ 0xFF && n != 0xAD)
  else UnicodeTables.isPrint c

/-- The escape `strconv.Quote` writes for one rune. -/
def quoteRune (c : Char) : List Char :=
  if c = '"' ∨ c = '\\' then ['\\', c]
  else if IsPrint c then [c]
  else if c.toNat = 7 then ['\\', 'a']
  else if c.toNat = 8 then ['\\', 'b']
  else if c.toNat = 12 then ['\\', 'f']
  else if c.toNat = 10 then ['\\', 'n']
  else if c.toNat = 13 then ['\\', 'r']
  else if c.toNat = 9 then ['\\', 't']
  else if c.toNat = 11 then ['\\', 'v']
  else if c.toNat < 32 ∨ c.toNat = 0x7F then
    ['\\', 'x', hexDigit (c.toNat / 16), hexDigit (c.toNat % 16)]
  else if c.toNat < 0x10000 then
    ['\\', 'u', hexDigit (c.toNat / 4096 % 16), hexDigit (c.toNat / 256 % 16),
      hexDigit (c.toNat / 16 % 16), hexDigit (c.toNat % 16)]
  else
    ['\\', 'U', hexDigit (c.toNat / 268435456 % 16), hexDigit (c.toNat / 16777216 % 16),
      hexDigit (c.toNat / 1048576 % 16), hexDigit (c.toNat / 65536 % 16),
      hexDigit (c.toNat / 4096 % 16), hexDigit (c.toNat / 256 % 16),
      hexDigit (c.toNat / 16 % 16), hexDigit (c.toNat % 16)]

/-- Go `strconv.Quote`: the text between double quotes, rune by rune escaped. -/
def Quote (s : String) : String :=
  ⟨'"' :: (s.data.flatMap quoteRune ++ ['"'])⟩

/-- Go `strings.Join`. -/
def Join : List String → String → String
  | [], _ => ""
  | [a], _ => a
  | a :: b :: rest, sep => a ++ sep ++ Join (b :: rest) sep

/-- The text `a` occurs inside the text `b`. -/
def occursIn (a b : String) : Prop := a.data <:+: b.data

instance (a b : String) : Decidable (occursIn a b) := by
  unfold occursIn; infer_instance

/-! ## Integers -/

/-- The two kinds of error of `strconv.ParseInt`. -/
inductive NumErr where
  | syntax_
  | range
  deriving DecidableEq, Repr

/-- The loop of `strconv.ParseUint(s, 10, 64)`: `n` is the value read so far. A
byte that is not a decimal digit is a syntax error; a value that leaves 64 bits
is a range error, raised at the digit where it happens. -/
def parseUintLoop : List Char → Nat → Except NumErr Nat
  | [], n => .ok n
  | c :: cs, n =>
    if 48 ≤ c.toNat ∧ c.toNat ≤ 57 then
      if n ≥ (2 ^ 64 - 1) / 10 + 1 then .error .range
      else if n * 10 + (c.toNat - 48) > 2 ^ 64 - 1 then .error .range
      else parseUintLoop cs (n * 10 + (c.toNat - 48))
    else .error .syntax_

/-- Go `strconv.ParseUint(s, 10, 64)`. -/
def ParseUint (s : List Char) : Except NumErr Nat :=
  match s with
  | [] => .error .syntax_
  | _ => parseUintLoop s 0

/-- Go `strconv.ParseInt(s, 10, 0)` with a 64-bit `int`: an optional sign, then
decimal digits, the value inside `[-2^63, 2^63 - 1]`. -/
def ParseInt (s : String) : Except NumErr Int :=
  match s.data with
  | [] => .error .syntax_
  | c :: cs =>
    let neg := decide (c = '-')
    let digits := if c = '+' ∨ c = '-' then cs else c :: cs
    match ParseUint digits with
    | .error e => .error e
    | .ok un =>
      if !neg && un ≥ 2 ^ 63 then .error .range
      else if neg && un > 2 ^ 63 then .error .range
      else .ok (if neg then -(un : Int) else (un : Int))

/-- The text of a `*strconv.NumError` raised by `ParseInt` on `s`. -/
def numErrorText (s : String) (e : NumErr) : String :=
  "strconv.ParseInt: parsing " ++ Quote s ++ ": " ++
    (match e with
     | .syntax_ => "invalid syntax"
     | .range => "value out of range")

/-- Go `int` arithmetic keeps the low 64 bits, read as a signed number. -/
def wrapInt (n : Int) : Int := (n + 2 ^ 63) % 2 ^ 64 - 2 ^ 63

/-- Go `a - b` on `int`. -/
def subInt (a b : Int) : Int := wrapInt (a - b)

/-! ## Values and maps -/

/-- What an `interface{}` holds in this parser. -/
inductive Value where
  | int (n : Int)
  | bool (b : Bool)
  | str (s : String)
  | strs (l : List String)
  deriving DecidableEq, Repr

/-- A `map[string]interface{}`: an association list with unique keys. -/
abbrev Fields := List (String × Value)

/-- The lookup `m[k]`, `none` when the key is absent. -/
def mapGet : Fields → String → Option Value
  | [], _ => none
  | (k', v) :: m, k => if k' = k then some v else mapGet m k

/-- The map without the key `k`. -/
def mapErase : Fields → String → Fields
  | [], _ => []
  | (k', v) :: m, k => if k' = k then mapErase m k else (k', v) :: mapErase m k

/-- The assignment `m[k] = v`: the old entry of `k`, if any, is replaced. -/
def mapSet (m : Fields) (k : String) (v : Value) : Fields :=
  (k, v) :: mapErase m k

/-- One value for each side: the maps keyed by `"blue"` and `"red"`. -/
structure Sides (α : Type) where
  blue : α
  red : α
  deriving DecidableEq, Repr

/-! ## The data of 2023.go -/

/-- The score components of one side, read from the table. -/
structure fmsScoreInfo2023 where
  auto : Int
  teleop : Int
  fouls : Int
  total : Int
  deriving DecidableEq, Repr

/-- The zero value `fmsScoreInfo2023{}`. -/
def makeFmsScoreInfo2023 : fmsScoreInfo2023 := ⟨0, 0, 0, 0⟩

/-- What the supplemental document says about one side. -/
structure extraMatchAllianceInfo2023 where
  Dqs : List String
  Surrogates : List String
  G405Penalty : Bool
  H111Penalty : Bool
  deriving DecidableEq, Repr

/-- Empty lists, and the zero value `false` of the two penalties. -/
def makeExtraMatchAllianceInfo2023 : extraMatchAllianceInfo2023 :=
  { Dqs := [], Surrogates := [], G405Penalty := false, H111Penalty := false }

/-- Fills `adjustPoints`, unless a row has set it: the total minus the three
known components, in Go `int` arithmetic. -/
def addManualFields2023 (breakdown : Fields) (info : fmsScoreInfo2023)
    (extra : extraMatchAllianceInfo2023) (playoff : Bool) : Fields :=
  match mapGet breakdown "adjustPoints" with
  | some _ => breakdown
  | none =>
    mapSet breakdown "adjustPoints"
      (.int (subInt (subInt (subInt info.total info.auto) info.teleop) info.fouls))

/-- FMS names (lower case) to API names of the basic integer fields. -/
def simpleFields2023 : List (String × String) :=
  [ ("coop game piece count", "coopGamePieceCount"),
    ("mobility points", "autoMobilityPoints"),
    ("endgame park points", "endGameParkPoints"),
    ("link points", "linkPoints"),
    ("adjustments", "adjustPoints") ]

/-- FMS names (lower case) to API name suffixes; the match phase is prepended. -/
def simpleMatchPhaseFields2023 : List (String × String) :=
  [ ("game piece count", "GamePieceCount"),
    ("game piece points", "GamePiecePoints") ]

/-- The badge names and the API fields of the bonus ranking points. -/
def RP_BADGE_NAMES_2023 : List (String × String) :=
  [ ("Cargo Bonus Ranking Point Achieved", "cargoBonusRankingPoint"),
    ("Hangar Bonus Ranking Point Achieved", "hangarBonusRankingPoint") ]

/-- The table of default breakdown values declared by 2023.go. -/
def DEFAULT_BREAKDOWN_VALUES_2023 : Fields :=
  [ ("adjustPoints", .int 0),
    ("autoCargoLowerBlue", .int 0),
    ("autoCargoLowerFar", .int 0),
    ("autoCargoLowerNear", .int 0),
    ("autoCargoLowerRed", .int 0),
    ("autoCargoPoints", .int 0),
    ("autoCargoTotal", .int 0),
    ("autoCargoUpperBlue", .int 0),
    ("autoCargoUpperFar", .int 0),
    ("autoCargoUpperNear", .int 0),
    ("autoCargoUpperRed", .int 0),
    ("autoPoints", .int 0),
    ("autoTaxiPoints", .int 0),
    ("cargoBonusRankingPoint", .bool false),
    ("endgamePoints", .int 0),
    ("endgameRobot1", .str "None"),
    ("endgameRobot2", .str "None"),
    ("endgameRobot3", .str "None"),
    ("foulCount", .int 0),
    ("foulPoints", .int 0),
    ("hangarBonusRankingPoint", .bool false),
    ("matchCargoTotal", .int 0),
    ("quintetAchieved", .bool false),
    ("rp", .int 0),
    ("taxiRobot1", .str "No"),
    ("taxiRobot2", .str "No"),
    ("taxiRobot3", .str "No"),
    ("techFoulCount", .int 0),
    ("teleopCargoLowerBlue", .int 0),
    ("teleopCargoLowerFar", .int 0),
    ("teleopCargoLowerNear", .int 0),
    ("teleopCargoLowerRed", .int 0),
    ("teleopCargoPoints", .int 0),
    ("teleopCargoTotal", .int 0),
    ("teleopCargoUpperBlue", .int 0),
    ("teleopCargoUpperFar", .int 0),
    ("teleopCargoUpperNear", .int 0),
    ("teleopCargoUpperRed", .int 0),
    ("teleopPoints", .int 0),
    ("totalPoints", .int 0) ]

/-- The lookup `table[k]` in one of the dispatch tables. -/
def tableGet : List (String × String) → String → Option String
  | [], _ => none
  | (k', v) :: t, k => if k' = k then some v else tableGet t k

/-! ## The helpers of the package that 2023.go calls -/

/-- The loop of Go `strings.Split` for a separator that is not empty: `acc` is
the piece being read (reversed), `skip` counts the runes of a separator just
met that are still to be passed over. -/
def splitLoop (sep : List Char) : List Char → List Char → Nat → List String
  | [], acc, _ => [⟨acc.reverse⟩]
  | _ :: cs, acc, skip + 1 => splitLoop sep cs acc skip
  | c :: cs, acc, 0 =>
    if sep.isPrefixOf (c :: cs) then ⟨acc.reverse⟩ :: splitLoop sep cs [] (sep.length - 1)
    else splitLoop sep cs (c :: acc) 0

/-- Go `strings.Split`, for a separator that is not empty. -/
def Split (s sep : String) : List String := splitLoop sep.data s.data [] 0

/-- Modelled from the spec: `split_and_strip` is not among the sources. Spec 4.4:
"split on a given delimiter, trim each token, drop empty leading/trailing
artifacts; never fails (empty input yields an empty list)". -/
def split_and_strip (text separator : String) : List String :=
  let parts := (Split text separator).map TrimSpace
  ((parts.dropWhile (fun t => t = "")).reverse.dropWhile (fun t => t = "")).reverse

/-- How a Go value is stored in an `interface{}`. -/
class Boxed (α : Type) where
  box : α → Value

instance : Boxed Int := ⟨Value.int⟩

instance : Boxed Bool := ⟨Value.bool⟩

instance : Boxed String := ⟨Value.str⟩

/-- Modelled from the spec: `identity_fn` is not among the sources; by its name
and its use it returns its argument. -/
def identity_fn {α : Type} (x : α) : α := x

/-- Modelled from the spec: `assignBreakdownAllianceFields` is not among the
sources. Spec 4.2 and 8: a direct field is written on both sides, each side with
the value of its own cell ("both sides' canonical field equal the parsed integer
of their respective cell text"). -/
def assignBreakdownAllianceFields {α β : Type} [Boxed β] (breakdown : Sides Fields)
    (api_field : String) (fn : α → β) (values : Sides α) : Sides Fields :=
  { blue := mapSet breakdown.blue api_field (Boxed.box (fn values.blue)),
    red := mapSet breakdown.red api_field (Boxed.box (fn values.red)) }

/-- Modelled from the spec: `assignBreakdownAllianceFieldsConst` is not among the
sources. Spec 4.6: the playoff override "forces" the field to one constant "for
both sides, regardless of whether a row supplied a value". -/
def assignBreakdownAllianceFieldsConst {β : Type} [Boxed β] (breakdown : Sides Fields)
    (api_field : String) (value : β) : Sides Fields :=
  { blue := mapSet breakdown.blue api_field (Boxed.box value),
    red := mapSet breakdown.red api_field (Boxed.box value) }

/-- The values of one side of a multi-field row: token `i` goes through `fn` and
is paired with field `i`. A field without a token fails; the spec gives no text
for that failure, the model uses the one of Go's runtime for an index past the
end. `i` is the position reached and `n` the number of tokens of the cell. -/
def multipleFieldValues (fn : String → String → Except String Int) (alliance : String) :
    List String → List String → Nat → Nat → Except String (List (String × Value))
  | [], _, _, _ => .ok []
  | _ :: _, [], i, n =>
    .error ("runtime error: index out of range [" ++ toString i ++ "] with length " ++
      toString n)
  | f :: fs, t :: ts, i, n =>
    match fn t alliance with
    | .error r => .error r
    | .ok v =>
      match multipleFieldValues fn alliance fs ts (i + 1) n with
      | .error r => .error r
      | .ok rest => .ok ((f, Value.int v) :: rest)

/-- Writes of a list of fields into one map, in order. -/
def mapSetAll (m : Fields) : List (String × Value) → Fields
  | [] => m
  | (k, v) :: rest => mapSetAll (mapSet m k v) rest

/-- Modelled from the spec: `assignBreakdownAllianceMultipleFields` is not among
the sources. Spec 4.2: "the row's cell text is split on a delimiter (bullet
character) into as many tokens as there are target field names, each token
parsed as an integer and assigned positionally"; spec 4.3: "never partially —
either both sides get a value or the row fails entirely". So every token of the
blue cell, then every token of the red cell, goes through `fn`, and the fields
are written only when all of them went through. The result is the breakdown
and the panic, if any. -/
def assignBreakdownAllianceMultipleFields (breakdown : Sides Fields)
    (api_fields : List String) (fn : String → String → Except String Int)
    (values : Sides (List String)) : Sides Fields × Option String :=
  match multipleFieldValues fn "blue" api_fields values.blue 0 values.blue.length with
  | .error r => (breakdown, some r)
  | .ok blue =>
    match multipleFieldValues fn "red" api_fields values.red 0 values.red.length with
    | .error r => (breakdown, some r)
    | .ok red =>
      ({ blue := mapSetAll breakdown.blue blue, red := mapSetAll breakdown.red red }, none)

/-- The per-robot fields of one side: robot `i` (from 1) is written under the
prefix followed by `i`. -/
def robotFields (m : Fields) ( api_field_prefix : String) (fn : String → String) :
    List String → Nat → Fields
  | [], _ => m
  | v :: rest, i =>
    robotFields (mapSet m ( api_field_prefix ++ toString i) (Value.str (fn v)))
      api_field_prefix fn rest (i + 1)

/-- Modelled from the spec: `assignBreakdownRobotFields` is not among the
sources. Spec 4.2: "derived multi-field writes with a phase-derived name"; spec
3: "per-robot endgame state fields". Each token of a side's cell is written on
that side under the prefix followed by the robot's number. -/
def assignBreakdownRobotFields (breakdown : Sides Fields) ( api_field_prefix : String)
    (fn : String → String) (values : Sides (List String)) : Sides Fields :=
  { blue := robotFields breakdown.blue api_field_prefix fn values.blue 1,
    red := robotFields breakdown.red api_field_prefix fn values.red 1 }

/-- The roster after a "teams" row: the three slots, filled from the tokens in
order; a slot without a token keeps what it held. -/
def fillTeams : List String → List String → List String
  | [], _ => []
  | slot :: slots, [] => slot :: slots
  | _ :: slots, t :: ts => t :: fillTeams slots ts

/-- The roster `alliance["teams"]`, empty when the key holds no list. -/
def teamsOf (alliance : Fields) : List String :=
  match mapGet alliance "teams" with
  | some (Value.strs l) => l
  | _ => []

/-- Modelled from the spec: `assignTbaTeams` is not among the sources. Spec 4.3:
the "roster row sets AllianceInfo rosters"; spec 3: an "ordered list of exactly 3
participant identifiers". -/
def assignTbaTeams (alliances : Sides Fields) (teams : Sides (List String)) : Sides Fields :=
  { blue := mapSet alliances.blue "teams" (Value.strs (fillTeams (teamsOf alliances.blue) teams.blue)),
    red := mapSet alliances.red "teams" (Value.strs (fillTeams (teamsOf alliances.red) teams.red)) }

/-! ## parseHTMLtoJSON2023 -/

/-- The closure `checkParseInt`: the parsed integer, or the panic text. -/
def checkParseInt (s desc : String) : Except String Int :=
  match ParseInt s with
  | .ok n => .ok n
  | .error err => .error ("parse int " ++ desc ++ " failed: " ++ numErrorText s err)

/-- The closure `validateMatchPhase`: panics when no phase is active. -/
def validateMatchPhase (match_phase desc : String) : Except String Unit :=
  if match_phase = "" then .error ("no active match phase: " ++ desc) else .ok ()

/-- The closure `matchPhaseWithEndGame`. -/
def matchPhaseWithEndGame (match_phase : String) : Except String String :=
  match validateMatchPhase match_phase match_phase with
  | .error r => .error r
  | .ok _ => if match_phase = "teleop" then .ok "endGame" else .ok match_phase

/-- The closure `parseIntWrapper` of one row. -/
def parseIntWrapper (row_name : String) (s alliance : String) : Except String Int :=
  checkParseInt s (alliance ++ " " ++ row_name)

/-- What the row closure reads and writes, the list of errors apart: the two
breakdowns, the two alliance records, the score components and the phase. -/
structure RowState where
  breakdown : Sides Fields
  alliances : Sides Fields
  scoreInfo : Sides fmsScoreInfo2023
  match_phase : String
  deriving DecidableEq, Repr

/-- The shape the integer branches share: `checkParseInt` on the blue text, then
on the red text, then the writes `k` of the branch. A panic of either call ends
the branch before any of its writes. -/
def parseBoth (st : RowState) (blue_text blue_desc red_text red_desc : String)
    (k : Int → Int → RowState) : RowState × Option String :=
  match checkParseInt blue_text blue_desc with
  | .error r => (st, some r)
  | .ok blue =>
    match checkParseInt red_text red_desc with
    | .error r => (st, some r)
    | .ok red => (k blue red, none)

/-- The chain of branches of the row closure ("Handle each data row"), for a row
of label `row_name` and trimmed cell texts `blue_text` and `red_text`: the state
when the branch ends and the panic that ended it, if any. -/
def handleRow (st : RowState) (row_name blue_text red_text : String) :
    RowState × Option String :=
  match tableGet simpleFields2023 row_name with
  | some api_field =>
    parseBoth st blue_text ("blue " ++ api_field) red_text ("red " ++ api_field)
      (fun blue red =>
        { st with
          breakdown :=
            (assignBreakdownAllianceFields st.breakdown api_field (identity_fn : Int → Int)
              ⟨blue, red⟩) })
  | none =>
  match tableGet simpleMatchPhaseFields2023 row_name with
  | some api_field_suffix =>
    let api_field := st.match_phase ++ api_field_suffix
    parseBoth st blue_text ("blue " ++ api_field) red_text ("red " ++ api_field)
      (fun blue red =>
        { st with
          breakdown :=
            (assignBreakdownAllianceFields st.breakdown api_field (identity_fn : Int → Int)
              ⟨blue, red⟩) })
  | none =>
  if row_name = "teams" then
    let blue_teams := split_and_strip blue_text "\n"
    let red_teams := split_and_strip red_text "\n"
    ({ st with alliances := assignTbaTeams st.alliances ⟨blue_teams, red_teams⟩ }, none)
  else if row_name = "final score" then
    parseBoth st blue_text "blue final score" red_text "red final score"
      (fun blue_score red_score =>
        { st with
          breakdown :=
            { blue := mapSet st.breakdown.blue "totalPoints" (.int blue_score),
              red := mapSet st.breakdown.red "totalPoints" (.int red_score) },
          alliances :=
            { blue := mapSet st.alliances.blue "score" (.int blue_score),
              red := mapSet st.alliances.red "score" (.int red_score) },
          scoreInfo :=
            { blue := { st.scoreInfo.blue with total := blue_score },
              red := { st.scoreInfo.red with total := red_score } } })
  else if row_name = "ranking points" then
    parseBoth st blue_text "blue ranking points" red_text "red ranking points"
      (fun blue_rp red_rp =>
        { st with
          breakdown :=
            { blue := mapSet st.breakdown.blue "rp" (.int blue_rp),
              red := mapSet st.breakdown.red "rp" (.int red_rp) } })
  else if row_name = "autonomous points" then
    parseBoth st blue_text ("blue " ++ row_name) red_text ("red " ++ row_name)
      (fun blue_points red_points =>
        { st with
          breakdown :=
            (assignBreakdownAllianceFields st.breakdown "autoPoints"
              (identity_fn : Int → Int) ⟨blue_points, red_points⟩),
          scoreInfo :=
            { blue := { st.scoreInfo.blue with auto := blue_points },
              red := { st.scoreInfo.red with auto := red_points } },
          match_phase := "teleop" })
  else if row_name = "teleop points" then
    parseBoth st blue_text ("blue " ++ row_name) red_text ("red " ++ row_name)
      (fun blue_points red_points =>
        { st with
          breakdown :=
            (assignBreakdownAllianceFields st.breakdown "teleopPoints"
              (identity_fn : Int → Int) ⟨blue_points, red_points⟩),
          scoreInfo :=
            { blue := { st.scoreInfo.blue with teleop := blue_points },
              red := { st.scoreInfo.red with teleop := red_points } },
          match_phase := "" })
  else if row_name = "foul points" then
    parseBoth st blue_text ("blue " ++ row_name) red_text ("red " ++ row_name)
      (fun blue_points red_points =>
        { st with
          breakdown :=
            (assignBreakdownAllianceFields st.breakdown "foulPoints"
              (identity_fn : Int → Int) ⟨blue_points, red_points⟩),
          scoreInfo :=
            { blue := { st.scoreInfo.blue with fouls := blue_points },
              red := { st.scoreInfo.red with fouls := red_points } } })
  else if row_name = "fouls/techs committed" then
    match assignBreakdownAllianceMultipleFields st.breakdown ["foulCount", "techFoulCount"]
        (parseIntWrapper row_name)
        ⟨split_and_strip blue_text "•", split_and_strip red_text "•"⟩ with
    | (breakdown, r) => ({ st with breakdown := breakdown }, r)
  else if row_name = "charge station" then
    match matchPhaseWithEndGame st.match_phase with
    | .error r => (st, some r)
    | .ok phase =>
      let api_field_prefix := phase ++ "ChargeStationRobot"
      ({ st with
          breakdown :=
            (assignBreakdownRobotFields st.breakdown api_field_prefix
              (identity_fn : String → String)
              ⟨split_and_strip blue_text "\n", split_and_strip red_text "\n"⟩) }, none)
  else
    ({ st with
        breakdown :=
          { blue := mapSet st.breakdown.blue ("!" ++ row_name) (.str blue_text),
            red := mapSet st.breakdown.red ("!" ++ row_name) (.str red_text) } }, none)

/-- The body of the closure given to `dom.Find("tr").Each`, on one `tr` whose
children have the texts `columns`: the state when the body ends and the panic
that ended it, if any. -/
def processRow (st : RowState) (columns : List String) : RowState × Option String :=
  match columns with
  | [c0, c1, c2] =>
    let row_name := ToLower (TrimSpace c0)
    if row_name = "" ∨ row_name = "match score item" then (st, none)
    else
      let st1 := if row_name = "mobility" then { st with match_phase := "auto" } else st
      let blue_text := TrimSpace c1
      let red_text := TrimSpace c2
      handleRow st1 row_name blue_text red_text
  | _ => (st, none)

/-- The closure given to `Each`, with its deferred `recover`: a panic of the body
is appended to `parse_errors`, and the loop goes on from the state the body
left. -/
def eachRow (acc : RowState × List String) (columns : List String) :
    RowState × List String :=
  match processRow acc.1 columns with
  | (st, none) => (st, acc.2)
  | (st, some r) => (st, acc.2 ++ [r])

/-- The supplemental document (`.extrajson`) once decoded: a side it does not
name keeps the empty record. Reading the file and decoding it are outside the
parser's core; a document that does not decode ends the call before any row is
read. -/
structure ExtraDoc where
  blue : Option extraMatchAllianceInfo2023
  red : Option extraMatchAllianceInfo2023
  deriving DecidableEq, Repr

/-- The map `extra_info` after the optional document has been merged in. -/
def loadExtraInfo (extra_raw : Option ExtraDoc) : Sides extraMatchAllianceInfo2023 :=
  match extra_raw with
  | none => ⟨makeExtraMatchAllianceInfo2023, makeExtraMatchAllianceInfo2023⟩
  | some doc =>
    ⟨doc.blue.getD makeExtraMatchAllianceInfo2023, doc.red.getD makeExtraMatchAllianceInfo2023⟩

/-- The alliance record of one side before the first row. -/
def initAlliance (extra : extraMatchAllianceInfo2023) : Fields :=
  [ ("teams", .strs ["", "", ""]),
    ("surrogates", .strs extra.Surrogates),
    ("dqs", .strs extra.Dqs),
    ("score", .int (-1)) ]

/-- The state before the first row. -/
def initState (extra_info : Sides extraMatchAllianceInfo2023) : RowState :=
  { breakdown := ⟨[], []⟩,
    alliances := ⟨initAlliance extra_info.blue, initAlliance extra_info.red⟩,
    scoreInfo := ⟨makeFmsScoreInfo2023, makeFmsScoreInfo2023⟩,
    match_phase := "" }

/-- The loop over the rows, from a state and a list of errors. -/
def runRows (acc : RowState × List String) (dom : List (List String)) :
    RowState × List String :=
  dom.foldl eachRow acc

/-- The playoff override: `rp` is set to 0 and every field of
`RP_BADGE_NAMES_2023` to `false`, on both sides. -/
def playoffOverride (breakdown : Sides Fields) : Sides Fields :=
  (RP_BADGE_NAMES_2023.map Prod.snd).foldl
    (fun b field => assignBreakdownAllianceFieldsConst b field false)
    (assignBreakdownAllianceFieldsConst breakdown "rp" (0 : Int))

/-- The record `all_json`. -/
structure AllJson where
  alliances : Sides Fields
  score_breakdown : Sides Fields
  deriving DecidableEq, Repr

/-- What the call returns: the record (`nil` is `none`) and the error. -/
structure Result where
  json : Option AllJson
  err : Option String
  deriving DecidableEq, Repr

/-- The tail of `parseHTMLtoJSON2023`, after the loop over the rows. -/
def finish (st : RowState) (parse_errors : List String)
    (extra_info : Sides extraMatchAllianceInfo2023) (playoff : Bool) : Result :=
  let breakdown := if playoff then playoffOverride st.breakdown else st.breakdown
  let breakdown : Sides Fields :=
    { blue := addManualFields2023 breakdown.blue st.scoreInfo.blue extra_info.blue playoff,
      red := addManualFields2023 breakdown.red st.scoreInfo.red extra_info.red playoff }
  if parse_errors.length > 0 then
    { json := none,
      err := some ("Parse error (" ++ toString parse_errors.length ++ "):\n" ++
        Join parse_errors "\n") }
  else
    { json := some { alliances := st.alliances, score_breakdown := breakdown },
      err := none }

/-- The parser: `dom` is the list of the `tr` elements of the report in document
order, `extra_raw` the supplemental document when there is one. -/
def parseHTMLtoJSON2023 (dom : List (List String)) (extra_raw : Option ExtraDoc)
    (playoff : Bool) : Result :=
  let extra_info := loadExtraInfo extra_raw
  let acc := runRows (initState extra_info, []) dom
  finish acc.1 acc.2 extra_info playoff

/-! ## Notions the statements use -/

/-- The two sides. -/
inductive Side where
  | blue
  | red
  deriving DecidableEq, Repr

/-- The entry of a side. -/
def Sides.get {α : Type} (s : Sides α) : Side → α
  | .blue => s.blue
  | .red => s.red

/-- The state the loop reaches from `st` over the rows `dom`. -/
def runState (st : RowState) (dom : List (List String)) : RowState :=
  (runRows (st, []) dom).1

/-- The state a call reaches after the rows `dom`. -/
def stateAfter (extra_raw : Option ExtraDoc) (dom : List (List String)) : RowState :=
  runState (initState (loadExtraInfo extra_raw)) dom

/-- The rows that fail, each with the panic it raised, in table order; `st` is
the state in which the first row is processed. -/
def rowFailures (st : RowState) : List (List String) → List (List String × String)
  | [] => []
  | row :: rest =>
    match (processRow st row).2 with
    | none => rowFailures (processRow st row).1 rest
    | some r => (row, r) :: rowFailures (processRow st row).1 rest

/-- The panic of row number `i` of the table (from 0), if that row fails: the row
is processed in the state the loop reaches after the rows before it. -/
def failureAt (st : RowState) (dom : List (List String)) (i : Nat) : Option String :=
  (processRow (runState st (dom.take i)) (dom.getD i [])).2

/-- The panics of the failing rows, by increasing row number. -/
def failureMessages (st : RowState) (dom : List (List String)) : List String :=
  (List.range dom.length).filterMap (failureAt st dom)

/-- The table without its failing rows. -/
def okRows (st : RowState) : List (List String) → List (List String)
  | [] => []
  | row :: rest =>
    match (processRow st row).2 with
    | none => row :: okRows (processRow st row).1 rest
    | some _ => okRows (processRow st row).1 rest

/-- Some row of the table changes what the breakdown of `side` holds under the
key `k`. -/
def rowsWrote (side : Side) (k : String) (st : RowState) : List (List String) → Bool
  | [] => false
  | row :: rest =>
    decide (mapGet ((processRow st row).1.breakdown.get side) k ≠
      mapGet (st.breakdown.get side) k) ||
    rowsWrote side k (processRow st row).1 rest

/-- The normalized label of a row of three cells. -/
def rowLabel (columns : List String) : Option String :=
  match columns with
  | [c0, _, _] => some (ToLower (TrimSpace c0))
  | _ => none

/-- The trimmed cell text of a side in a row of three cells. -/
def rowCell (side : Side) (columns : List String) : Option String :=
  match columns, side with
  | [_, c1, _], .blue => some (TrimSpace c1)
  | [_, _, c2], .red => some (TrimSpace c2)
  | _, _ => none

/-- The trimmed cell text of a side in the last row of the table that has the
label `label`. -/
def lastCell (label : String) (side : Side) : List (List String) → Option String
  | [] => none
  | row :: rest =>
    match lastCell label side rest with
    | some c => some c
    | none => if rowLabel row = some label then rowCell side row else none

/-- The integer `v` is what a cell text stands for: the default `dflt` when there
is no cell, the integer `ParseInt` reads from the text otherwise. -/
def cellIs (c : Option String) (dflt v : Int) : Prop :=
  match c with
  | none => v = dflt
  | some text => ParseInt text = .ok v

/-- The context the panic of an integer row names after the side: the API field
for a direct field, the phase followed by the suffix for a phase-suffixed field,
the row's label for the five special rows read as one integer a side. -/
def intContext (match_phase row_name : String) : Option String :=
  match tableGet simpleFields2023 row_name with
  | some api_field => some api_field
  | none =>
    match tableGet simpleMatchPhaseFields2023 row_name with
    | some api_field_suffix => some (match_phase ++ api_field_suffix)
    | none =>
      if row_name = "final score" ∨ row_name = "ranking points" ∨
          row_name = "autonomous points" ∨ row_name = "teleop points" ∨
          row_name = "foul points" then some row_name
      else none

/-- The panic of `checkParseInt` on the text `text` that `ParseInt` rejects with
`e`, when the description is the side, a blank and the context. -/
def parseIntMessage (side ctx text : String) (e : NumErr) : String :=
  "parse int " ++ (side ++ " " ++ ctx) ++ " failed: " ++ numErrorText text e

/-- What the rows read and write of the state, the alliance records apart. -/
def coreOf (st : RowState) : Sides Fields × Sides fmsScoreInfo2023 × String :=
  (st.breakdown, st.scoreInfo, st.match_phase)

/-- The row carries one of the three labels that move the phase. -/
def isSentinel (columns : List String) : Bool :=
  decide (rowLabel columns = some "mobility") ||
  decide (rowLabel columns = some "autonomous points") ||
  decide (rowLabel columns = some "teleop points")

/-- Every rune of the text is written by `Quote` as itself. -/
def plainText (s : String) : Bool :=
  s.data.all (fun c => decide (c ≠ '"') && decide (c ≠ '\\') && IsPrint c)

/-! ## Maps -/

theorem mapGet_mapErase_ne (m : Fields) (k k' : String) (h : k' ≠ k) :
    mapGet (mapErase m k) k' = mapGet m k' := by
  induction m with
  | nil => rfl
  | cons e m ih =>
    obtain ⟨a, v⟩ := e
    by_cases ha : a = k
    · have h1 : ¬ k = k' := fun h' => h h'.symm
      subst ha
      simp [mapErase, mapGet, h1, ih]
    · by_cases hk : a = k'
      · subst hk
        simp [mapErase, mapGet, ha]
      · simp [mapErase, mapGet, ha, hk, ih]

theorem mapGet_mapSet_self (m : Fields) (k : String) (v : Value) :
    mapGet (mapSet m k v) k = some v := by
  simp [mapSet, mapGet]

theorem mapGet_mapSet_ne (m : Fields) (k k' : String) (v : Value) (h : k' ≠ k) :
    mapGet (mapSet m k v) k' = mapGet m k' := by
  have : ¬ k = k' := fun h' => h h'.symm
  simp [mapSet, mapGet, this, mapGet_mapErase_ne m k k' h]

/-! ## A failing row -/

theorem parseBoth_fail_state (st : RowState) (bt bd rt rd : String) (k : Int → Int → RowState)
    (r : String) (h : (parseBoth st bt bd rt rd k).2 = some r) :
    (parseBoth st bt bd rt rd k).1 = st := by
  unfold parseBoth at h ⊢
  split
  · rfl
  · split
    · rfl
    · rename_i h1 _ _ h2
      simp [h1, h2] at h

theorem multi_fail_keeps (b : Sides Fields) (fs : List String)
    (fn : String → String → Except String Int) (vs : Sides (List String)) (r : String)
    (h : (assignBreakdownAllianceMultipleFields b fs fn vs).2 = some r) :
    (assignBreakdownAllianceMultipleFields b fs fn vs).1 = b := by
  unfold assignBreakdownAllianceMultipleFields at h ⊢
  split
  · rfl
  · split
    · rfl
    · rename_i h1 _ _ h2
      simp [h1, h2] at h

theorem handleRow_fail_state (st : RowState) (row_name blue_text red_text r : String)
    (h : (handleRow st row_name blue_text red_text).2 = some r) :
    (handleRow st row_name blue_text red_text).1 = st := by
  revert h
  unfold handleRow
  repeat' split
  all_goals intro h
  all_goals first
    | exact parseBoth_fail_state _ _ _ _ _ _ r h
    | (simp at h; done)
    | rfl
    | skip
  rename_i hm
  have h2 := multi_fail_keeps _ _ _ _ r (by rw [hm]; exact h)
  rw [hm] at h2
  simp only at h2
  simp [h2]

theorem handleRow_mobility (st : RowState) (bt rt : String) :
    (handleRow st "mobility" bt rt).2 = none := by
  unfold handleRow
  simp [tableGet, simpleFields2023, simpleMatchPhaseFields2023]

theorem processRow_fail_state (st : RowState) (columns : List String) (r : String)
    (h : (processRow st columns).2 = some r) : (processRow st columns).1 = st := by
  revert h
  unfold processRow
  split
  · rename_i c0 c1 c2
    simp only
    split
    · intro h; rfl
    · by_cases hm : ToLower (TrimSpace c0) = "mobility"
      · rw [hm]
        intro h
        rw [handleRow_mobility] at h
        simp at h
      · simp only [hm, if_false]
        exact handleRow_fail_state _ _ _ _ r
  · intro h; rfl

/-! ## The loop -/

theorem runRows_cons (acc : RowState × List String) (row : List String)
    (rest : List (List String)) :
    runRows acc (row :: rest) = runRows (eachRow acc row) rest := rfl

theorem eachRow_fst (st : RowState) (errs : List String) (row : List String) :
    (eachRow (st, errs) row).1 = (processRow st row).1 := by
  unfold eachRow
  split <;> rename_i h <;> simp only [] at h <;> rw [h]

theorem eachRow_snd (st : RowState) (errs : List String) (row : List String) :
    (eachRow (st, errs) row).2 = errs ++ (processRow st row).2.toList := by
  unfold eachRow
  split <;> rename_i h <;> simp only [] at h <;> rw [h] <;> simp

theorem runRows_fst (st : RowState) (errs : List String) (dom : List (List String)) :
    (runRows (st, errs) dom).1 = runState st dom := by
  induction dom generalizing st errs with
  | nil => rfl
  | cons row rest ih =>
    unfold runState
    rw [runRows_cons, runRows_cons]
    have e1 : eachRow (st, errs) row = ((processRow st row).1, (eachRow (st, errs) row).2) := by
      rw [← eachRow_fst st errs row]
    have e2 : eachRow (st, []) row = ((processRow st row).1, (eachRow (st, []) row).2) := by
      rw [← eachRow_fst st [] row]
    rw [e1, e2, ih, ih]

theorem runState_nil (st : RowState) : runState st [] = st := rfl

theorem runState_cons (st : RowState) (row : List String) (rest : List (List String)) :
    runState st (row :: rest) = runState (processRow st row).1 rest := by
  unfold runState
  rw [runRows_cons]
  have e2 : eachRow (st, []) row = ((processRow st row).1, (eachRow (st, []) row).2) := by
    rw [← eachRow_fst st [] row]
  rw [e2, runRows_fst]
  rfl

theorem runState_append (st : RowState) (pre post : List (List String)) :
    runState st (pre ++ post) = runState (runState st pre) post := by
  induction pre generalizing st with
  | nil => rfl
  | cons row rest ih => rw [List.cons_append, runState_cons, runState_cons, ih]

theorem rowFailures_cons (st : RowState) (row : List String) (rest : List (List String)) :
    rowFailures st (row :: rest) =
      (match (processRow st row).2 with
       | none => rowFailures (processRow st row).1 rest
       | some r => (row, r) :: rowFailures (processRow st row).1 rest) := rfl

theorem okRows_cons (st : RowState) (row : List String) (rest : List (List String)) :
    okRows st (row :: rest) =
      (match (processRow st row).2 with
       | none => row :: okRows (processRow st row).1 rest
       | some _ => okRows (processRow st row).1 rest) := rfl

theorem runRows_snd (st : RowState) (errs : List String) (dom : List (List String)) :
    (runRows (st, errs) dom).2 = errs ++ (rowFailures st dom).map Prod.snd := by
  induction dom generalizing st errs with
  | nil => simp [runRows, rowFailures]
  | cons row rest ih =>
    rw [runRows_cons]
    have e1 : eachRow (st, errs) row = ((processRow st row).1, (eachRow (st, errs) row).2) := by
      rw [← eachRow_fst st errs row]
    rw [e1, ih, eachRow_snd, rowFailures_cons]
    cases h : (processRow st row).2 <;> simp

theorem rowFailures_ne_nil_iff (st : RowState) (dom : List (List String)) :
    rowFailures st dom ≠ [] ↔
      ∃ pre row post, dom = pre ++ row :: post ∧ (processRow (runState st pre) row).2 ≠ none := by
  induction dom generalizing st with
  | nil => simp [rowFailures]
  | cons row rest ih =>
    constructor
    · intro h
      cases hp : (processRow st row).2 with
      | some r =>
        exact ⟨[], row, rest, rfl, by rw [runState_nil, hp]; simp⟩
      | none =>
        rw [rowFailures_cons, hp] at h
        simp only at h
        obtain ⟨pre, row', post, hd, hf⟩ := (ih _).1 h
        exact ⟨row :: pre, row', post, by rw [hd]; rfl, by rw [runState_cons]; exact hf⟩
    · rintro ⟨pre, row', post, hd, hf⟩
      cases pre with
      | nil =>
        simp only [List.nil_append, List.cons.injEq] at hd
        obtain ⟨h1, _⟩ := hd
        subst h1
        rw [runState_nil] at hf
        rw [rowFailures_cons]
        cases hp : (processRow st row).2 with
        | none => exact absurd hp hf
        | some r => simp
      | cons a pre' =>
        simp only [List.cons_append, List.cons.injEq] at hd
        obtain ⟨h1, h2⟩ := hd
        subst h1
        rw [runState_cons] at hf
        have := (ih (processRow st row).1).2 ⟨pre', row', post, h2, hf⟩
        rw [rowFailures_cons]
        cases hp : (processRow st row).2 with
        | none => simpa using this
        | some r => simp

/-! ## The tail of the call -/

theorem addManual_adjust (b : Fields) (info : fmsScoreInfo2023)
    (extra : extraMatchAllianceInfo2023) (playoff : Bool) :
    mapGet (addManualFields2023 b info extra playoff) "adjustPoints" =
      (match mapGet b "adjustPoints" with
       | some v => some v
       | none =>
         some (.int (subInt (subInt (subInt info.total info.auto) info.teleop) info.fouls))) := by
  unfold addManualFields2023
  cases h : mapGet b "adjustPoints" with
  | none => simp [mapGet_mapSet_self]
  | some v => simp [h]

theorem addManual_other (b : Fields) (info : fmsScoreInfo2023)
    (extra : extraMatchAllianceInfo2023) (playoff : Bool) (k : String)
    (hk : k ≠ "adjustPoints") :
    mapGet (addManualFields2023 b info extra playoff) k = mapGet b k := by
  unfold addManualFields2023
  cases h : mapGet b "adjustPoints" with
  | none => simp [mapGet_mapSet_ne _ _ _ _ hk]
  | some v => simp

theorem playoffOverride_eq (b : Sides Fields) :
    playoffOverride b =
      { blue := mapSet (mapSet (mapSet b.blue "rp" (.int 0)) "cargoBonusRankingPoint"
          (.bool false)) "hangarBonusRankingPoint" (.bool false),
        red := mapSet (mapSet (mapSet b.red "rp" (.int 0)) "cargoBonusRankingPoint"
          (.bool false)) "hangarBonusRankingPoint" (.bool false) } := rfl

theorem playoffOverride_other (b : Sides Fields) (side : Side) (k : String)
    (h1 : k ≠ "rp") (h2 : k ≠ "cargoBonusRankingPoint") (h3 : k ≠ "hangarBonusRankingPoint") :
    mapGet ((playoffOverride b).get side) k = mapGet (b.get side) k := by
  rw [playoffOverride_eq]
  cases side <;>
    simp [Sides.get, mapGet_mapSet_ne _ _ _ _ h1, mapGet_mapSet_ne _ _ _ _ h2,
      mapGet_mapSet_ne _ _ _ _ h3]

theorem parse_unfold (dom : List (List String)) (extra_raw : Option ExtraDoc) (playoff : Bool) :
    parseHTMLtoJSON2023 dom extra_raw playoff =
      finish (stateAfter extra_raw dom)
        ((rowFailures (initState (loadExtraInfo extra_raw)) dom).map Prod.snd)
        (loadExtraInfo extra_raw) playoff := by
  unfold parseHTMLtoJSON2023
  simp only [runRows_fst, runRows_snd, List.nil_append]
  rfl

theorem finish_json (st : RowState) (errs : List String)
    (extra_info : Sides extraMatchAllianceInfo2023) (playoff : Bool) (j : AllJson)
    (h : (finish st errs extra_info playoff).json = some j) :
    errs = [] ∧ j.alliances = st.alliances ∧
    ∀ side : Side, j.score_breakdown.get side =
      addManualFields2023 ((if playoff then playoffOverride st.breakdown else st.breakdown).get side)
        (st.scoreInfo.get side) (extra_info.get side) playoff := by
  unfold finish at h
  cases errs with
  | cons e es => simp at h
  | nil =>
    simp at h
    subst h
    refine ⟨rfl, rfl, ?_⟩
    intro side
    cases side <;> rfl

theorem finish_err (st : RowState) (errs : List String)
    (extra_info : Sides extraMatchAllianceInfo2023) (playoff : Bool) :
    (finish st errs extra_info playoff).err =
      (if errs = [] then none
       else some ("Parse error (" ++ toString errs.length ++ "):\n" ++ Join errs "\n")) := by
  unfold finish
  cases errs with
  | cons e es => simp
  | nil => simp

theorem rowsWrote_false (side : Side) (k : String) (st : RowState) (dom : List (List String))
    (h : rowsWrote side k st dom = false) :
    mapGet ((runState st dom).breakdown.get side) k = mapGet (st.breakdown.get side) k := by
  induction dom generalizing st with
  | nil => rfl
  | cons row rest ih =>
    unfold rowsWrote at h
    simp only [Bool.or_eq_false_iff, decide_eq_false_iff_not, not_not] at h
    rw [runState_cons, ih _ h.2, h.1]

/-- C1, as the code has it: the breakdown a call returns always holds adjustPoints,
and no default is laid over it: a key other than adjustPoints (and, in playoff mode,
other than rp and the two bonus fields) that no row wrote is absent from the
breakdown, whatever DEFAULT_BREAKDOWN_VALUES_2023 holds for it. -/
theorem breakdown_has_no_defaults (dom : List (List String)) (extra_raw : Option ExtraDoc)
    (playoff : Bool) (j : AllJson) (side : Side)
    (h : (parseHTMLtoJSON2023 dom extra_raw playoff).json = some j) :
    (∃ v, mapGet (j.score_breakdown.get side) "adjustPoints" = some v) ∧
    ∀ k : String, k ≠ "adjustPoints" →
      (playoff = true →
        k ≠ "rp" ∧ k ≠ "cargoBonusRankingPoint" ∧ k ≠ "hangarBonusRankingPoint") →
      rowsWrote side k (initState (loadExtraInfo extra_raw)) dom = false →
      mapGet (j.score_breakdown.get side) k = none := by
  rw [parse_unfold] at h
  obtain ⟨_, _, hb⟩ := finish_json _ _ _ _ _ h
  constructor
  · rw [hb side, addManual_adjust]
    split
    · exact ⟨_, rfl⟩
    · exact ⟨_, rfl⟩
  · intro k hk hp hw
    rw [hb side, addManual_other _ _ _ _ _ hk]
    have h0 : mapGet ((stateAfter extra_raw dom).breakdown.get side) k = none := by
      unfold stateAfter
      rw [rowsWrote_false side k _ dom hw]
      cases side <;> rfl
    cases playoff with
    | false => simpa using h0
    | true =>
      obtain ⟨h1, h2, h3⟩ := hp rfl
      simp only [if_true]
      rw [playoffOverride_other _ _ _ h1 h2 h3]
      exact h0

/-- C2: the call returns an error exactly when some row of the table fails in the
state in which the loop reaches it; with an error the record is nil; without a
failing row the error is nil and the record holds the alliances and the
score_breakdown sections built from the final state. -/
theorem error_iff_some_row_failed (dom : List (List String)) (extra_raw : Option ExtraDoc)
    (playoff : Bool) :
    ((parseHTMLtoJSON2023 dom extra_raw playoff).err ≠ none ↔
      ∃ pre row post, dom = pre ++ row :: post ∧
        (processRow (stateAfter extra_raw pre) row).2 ≠ none) ∧
    ((parseHTMLtoJSON2023 dom extra_raw playoff).err ≠ none →
      (parseHTMLtoJSON2023 dom extra_raw playoff).json = none) ∧
    ((¬ ∃ pre row post, dom = pre ++ row :: post ∧
        (processRow (stateAfter extra_raw pre) row).2 ≠ none) →
      (parseHTMLtoJSON2023 dom extra_raw playoff).err = none ∧
      ∃ j, (parseHTMLtoJSON2023 dom extra_raw playoff).json = some j ∧
        j.alliances = (stateAfter extra_raw dom).alliances ∧
        ∀ side : Side, j.score_breakdown.get side =
          addManualFields2023
            ((if playoff then playoffOverride (stateAfter extra_raw dom).breakdown
              else (stateAfter extra_raw dom).breakdown).get side)
            ((stateAfter extra_raw dom).scoreInfo.get side)
            ((loadExtraInfo extra_raw).get side) playoff) := by
  have key : (parseHTMLtoJSON2023 dom extra_raw playoff).err ≠ none ↔
      rowFailures (initState (loadExtraInfo extra_raw)) dom ≠ [] := by
    rw [parse_unfold, finish_err]
    cases h : rowFailures (initState (loadExtraInfo extra_raw)) dom <;> simp
  refine ⟨?_, ?_, ?_⟩
  · rw [key, rowFailures_ne_nil_iff]
    rfl
  · intro h
    rw [key] at h
    rw [parse_unfold]
    unfold finish
    cases hf : rowFailures (initState (loadExtraInfo extra_raw)) dom with
    | nil => exact absurd hf h
    | cons e es => simp
  · intro h
    have hnil : rowFailures (initState (loadExtraInfo extra_raw)) dom = [] := by
      by_contra hne
      exact h ((rowFailures_ne_nil_iff _ _).1 hne)
    have herr : (parseHTMLtoJSON2023 dom extra_raw playoff).err = none := by
      by_contra hne
      exact (key.1 hne) hnil
    refine ⟨herr, ?_⟩
    have hj : ∃ j, (parseHTMLtoJSON2023 dom extra_raw playoff).json = some j := by
      rw [parse_unfold, hnil]
      unfold finish
      simp
    obtain ⟨j, hj⟩ := hj
    refine ⟨j, hj, ?_⟩
    rw [parse_unfold] at hj
    obtain ⟨_, ha, hb⟩ := finish_json _ _ _ _ _ hj
    exact ⟨ha, hb⟩

/-- C6: a row whose processing fails leaves both breakdown maps, both alliance
records, the score components of both sides and the match phase as they were
before the row; the loop goes on from that same state with the one error
appended. -/
theorem failed_row_writes_nothing (st : RowState) (errs : List String)
    (columns : List String) (r : String) (h : (processRow st columns).2 = some r) :
    (processRow st columns).1 = st ∧ eachRow (st, errs) columns = (st, errs ++ [r]) := by
  have h1 := processRow_fail_state st columns r h
  refine ⟨h1, ?_⟩
  have e1 := eachRow_fst st errs columns
  have e2 := eachRow_snd st errs columns
  rw [h1] at e1
  rw [h] at e2
  exact Prod.ext e1 (by simpa using e2)

theorem failureAt_zero (st : RowState) (row : List String) (rest : List (List String)) :
    failureAt st (row :: rest) 0 = (processRow st row).2 := rfl

theorem failureAt_succ (st : RowState) (row : List String) (rest : List (List String))
    (i : Nat) :
    failureAt st (row :: rest) (i + 1) = failureAt (processRow st row).1 rest i := by
  unfold failureAt
  rw [List.take_succ_cons, runState_cons]
  rfl

theorem failureMessages_cons (st : RowState) (row : List String) (rest : List (List String)) :
    failureMessages st (row :: rest) =
      (processRow st row).2.toList ++ failureMessages (processRow st row).1 rest := by
  unfold failureMessages
  rw [List.length_cons, List.range_succ_eq_map, List.filterMap_cons, failureAt_zero,
    List.filterMap_map]
  have hf : (failureAt st (row :: rest) ∘ Nat.succ) = failureAt (processRow st row).1 rest := by
    funext i
    exact failureAt_succ st row rest i
  rw [hf]
  cases (processRow st row).2 <;> simp

theorem rowFailures_messages (st : RowState) (dom : List (List String)) :
    (rowFailures st dom).map Prod.snd = failureMessages st dom := by
  induction dom generalizing st with
  | nil => rfl
  | cons row rest ih =>
    rw [rowFailures_cons, failureMessages_cons, ← ih]
    cases (processRow st row).2 <;> simp

theorem okRows_run (st : RowState) (dom : List (List String)) :
    runState st (okRows st dom) = runState st dom ∧ rowFailures st (okRows st dom) = [] := by
  induction dom generalizing st with
  | nil => exact ⟨rfl, rfl⟩
  | cons row rest ih =>
    rw [okRows_cons]
    cases hp : (processRow st row).2 with
    | none =>
      simp only
      rw [runState_cons, runState_cons, rowFailures_cons, hp]
      exact ih _
    | some r =>
      simp only
      rw [runState_cons, processRow_fail_state st row r hp]
      exact ih st

/-- C8: deleting every failing row of a table leaves a table that parses without
error and that drives the loop to the same final state as the whole table, so the
failing rows altered nothing of what the other rows did; and after a failing row
the loop goes on over the rest of the table from the state it had before that
row. -/
theorem failing_rows_are_isolated (dom : List (List String)) (extra_raw : Option ExtraDoc)
    (playoff : Bool) :
    (parseHTMLtoJSON2023 (okRows (initState (loadExtraInfo extra_raw)) dom) extra_raw
        playoff).err = none ∧
    stateAfter extra_raw (okRows (initState (loadExtraInfo extra_raw)) dom) =
        stateAfter extra_raw dom ∧
    (∀ pre row post r, dom = pre ++ row :: post →
      (processRow (stateAfter extra_raw pre) row).2 = some r →
      stateAfter extra_raw dom = runState (stateAfter extra_raw pre) post) := by
  obtain ⟨h1, h2⟩ := okRows_run (initState (loadExtraInfo extra_raw)) dom
  refine ⟨?_, h1, ?_⟩
  · rw [parse_unfold, finish_err, h2]
    simp
  · intro pre row post r hd hf
    subst hd
    unfold stateAfter at hf ⊢
    rw [runState_append, runState_cons, processRow_fail_state _ row r hf]

/-! ## One row -/

theorem checkParseInt_ok (s desc : String) (n : Int) :
    checkParseInt s desc = .ok n ↔ ParseInt s = .ok n := by
  unfold checkParseInt
  cases h : ParseInt s <;> simp

theorem checkParseInt_error (s desc r : String) :
    checkParseInt s desc = .error r ↔
      ∃ e, ParseInt s = .error e ∧ r = "parse int " ++ desc ++ " failed: " ++ numErrorText s e := by
  unfold checkParseInt
  cases h : ParseInt s <;> simp [eq_comm]

theorem processRow_three (st : RowState) (c0 c1 c2 : String) :
    processRow st [c0, c1, c2] =
      (if ToLower (TrimSpace c0) = "" ∨ ToLower (TrimSpace c0) = "match score item" then
        (st, none)
      else
        handleRow
          (if ToLower (TrimSpace c0) = "mobility" then { st with match_phase := "auto" } else st)
          (ToLower (TrimSpace c0)) (TrimSpace c1) (TrimSpace c2)) := rfl

theorem processRow_not_three (st : RowState) (columns : List String)
    (h : rowLabel columns = none) : processRow st columns = (st, none) := by
  unfold processRow
  split
  · simp [rowLabel] at h
  · rfl

theorem mapSetAll_frame (m : Fields) (l : List (String × Value)) (k : String)
    (h : ∀ e ∈ l, e.1 ≠ k) : mapGet (mapSetAll m l) k = mapGet m k := by
  induction l generalizing m with
  | nil => rfl
  | cons e l ih =>
    obtain ⟨a, v⟩ := e
    unfold mapSetAll
    rw [ih _ (fun e he => h e (List.mem_cons_of_mem _ he))]
    exact mapGet_mapSet_ne _ _ _ _ (fun hk => h (a, v) (List.mem_cons_self _ _) hk.symm)

theorem multipleFieldValues_keys (fn : String → String → Except String Int) (alliance : String)
    (fs ts : List String) (i n : Nat) (l : List (String × Value))
    (h : multipleFieldValues fn alliance fs ts i n = .ok l) : ∀ e ∈ l, e.1 ∈ fs := by
  induction fs generalizing ts i l with
  | nil =>
    unfold multipleFieldValues at h
    simp at h
    subst h
    simp
  | cons f fs ih =>
    cases ts with
    | nil => simp [multipleFieldValues] at h
    | cons t ts =>
      unfold multipleFieldValues at h
      split at h
      · simp at h
      · split at h
        · simp at h
        · rename_i rest hrest
          simp at h
          subst h
          intro e he
          simp only [List.mem_cons] at he
          rcases he with he | he
          · subst he; simp
          · exact List.mem_cons_of_mem _ (ih _ _ _ hrest e he)

theorem robotFields_frame (m : Fields) (pre : String) (fn : String → String)
    (vs : List String) (i : Nat) (k : String)
    (h : ∀ n : Nat, k ≠ pre ++ toString n) :
    mapGet (robotFields m pre fn vs i) k = mapGet m k := by
  induction vs generalizing m i with
  | nil => rfl
  | cons v vs ih =>
    unfold robotFields
    rw [ih, mapGet_mapSet_ne _ _ _ _ (h i)]

theorem sides_set_frame (b : Sides Fields) (key : String) (v1 v2 : Value) (side : Side)
    (k : String) (h : k ≠ key) :
    mapGet (Sides.get ({ blue := mapSet b.blue key v1, red := mapSet b.red key v2 } : Sides Fields)
      side) k = mapGet (b.get side) k := by
  cases side <;> simp [Sides.get, mapGet_mapSet_ne _ _ _ _ h]

theorem handleRow_breakdown_frame (st : RowState) (l bt rt : String) (side : Side)
    (k : String) :
    mapGet ((handleRow st l bt rt).1.breakdown.get side) k = mapGet (st.breakdown.get side) k ∨
    tableGet simpleFields2023 l = some k ∨
    (∃ suf, tableGet simpleMatchPhaseFields2023 l = some suf ∧ k = st.match_phase ++ suf) ∨
    (l = "final score" ∧ k = "totalPoints") ∨
    (l = "ranking points" ∧ k = "rp") ∨
    (l = "autonomous points" ∧ k = "autoPoints") ∨
    (l = "teleop points" ∧ k = "teleopPoints") ∨
    (l = "foul points" ∧ k = "foulPoints") ∨
    (l = "fouls/techs committed" ∧ (k = "foulCount" ∨ k = "techFoulCount")) ∨
    (l = "charge station" ∧ ∃ p : String, ∃ n : Nat, k = p ++ "ChargeStationRobot" ++ toString n) ∨
    k = "!" ++ l := by
  unfold handleRow parseBoth
  split
  · rename_i api hapi
    by_cases hk : k = api
    · right; left; rw [hapi, hk]
    · left
      repeat' split
      all_goals first
        | rfl
        | exact sides_set_frame _ _ _ _ _ _ hk
  split
  · rename_i suf hsuf
    by_cases hk : k = st.match_phase ++ suf
    · right; right; left; exact ⟨suf, hsuf, hk⟩
    · left
      simp only []
      repeat' split
      all_goals first
        | rfl
        | exact sides_set_frame _ _ _ _ _ _ hk
  split
  · left; rfl
  split
  · rename_i hl
    by_cases hk : k = "totalPoints"
    · right; right; right; left; exact ⟨hl, hk⟩
    · left
      repeat' split
      all_goals first
        | rfl
        | exact sides_set_frame _ _ _ _ _ _ hk
  split
  · rename_i hl
    by_cases hk : k = "rp"
    · right; right; right; right; left; exact ⟨hl, hk⟩
    · left
      repeat' split
      all_goals first
        | rfl
        | exact sides_set_frame _ _ _ _ _ _ hk
  split
  · rename_i hl
    by_cases hk : k = "autoPoints"
    · right; right; right; right; right; left; exact ⟨hl, hk⟩
    · left
      repeat' split
      all_goals first
        | rfl
        | exact sides_set_frame _ _ _ _ _ _ hk
  split
  · rename_i hl
    by_cases hk : k = "teleopPoints"
    · right; right; right; right; right; right; left; exact ⟨hl, hk⟩
    · left
      repeat' split
      all_goals first
        | rfl
        | exact sides_set_frame _ _ _ _ _ _ hk
  split
  · rename_i hl
    by_cases hk : k = "foulPoints"
    · right; right; right; right; right; right; right; left; exact ⟨hl, hk⟩
    · left
      repeat' split
      all_goals first
        | rfl
        | exact sides_set_frame _ _ _ _ _ _ hk
  split
  · rename_i hl
    by_cases hk : k = "foulCount" ∨ k = "techFoulCount"
    · right; right; right; right; right; right; right; right; left; exact ⟨hl, hk⟩
    · left
      have hk1 : ∀ e : String × Value, e.1 ∈ ["foulCount", "techFoulCount"] → e.1 ≠ k := by
        intro e he hek
        simp only [List.mem_cons, List.mem_singleton, List.not_mem_nil, or_false] at he
        rw [hek] at he
        exact hk he
      split
      rename_i bd r hm
      unfold assignBreakdownAllianceMultipleFields at hm
      split at hm
      · simp only [Prod.mk.injEq] at hm
        rw [← hm.1]
      · split at hm
        · simp only [Prod.mk.injEq] at hm
          rw [← hm.1]
        · rename_i lb hlb _ lr hlr
          simp only [Prod.mk.injEq] at hm
          rw [← hm.1]
          cases side
          · exact mapSetAll_frame _ _ _
              (fun e he => hk1 e (multipleFieldValues_keys _ _ _ _ _ _ _ hlb e he))
          · exact mapSetAll_frame _ _ _
              (fun e he => hk1 e (multipleFieldValues_keys _ _ _ _ _ _ _ hlr e he))
  split
  · rename_i hl
    split
    · left; rfl
    · rename_i phase _
      by_cases hk : ∃ n : Nat, k = (phase ++ "ChargeStationRobot") ++ toString n
      · right; right; right; right; right; right; right; right; right; left
        obtain ⟨n, hn⟩ := hk
        exact ⟨hl, phase, n, hn⟩
      · left
        have hk2 : ∀ n : Nat, k ≠ (phase ++ "ChargeStationRobot") ++ toString n :=
          fun n hn => hk ⟨n, hn⟩
        cases side
        · exact robotFields_frame _ _ _ _ _ _ hk2
        · exact robotFields_frame _ _ _ _ _ _ hk2
  · by_cases hk : k = "!" ++ l
    · right; right; right; right; right; right; right; right; right; right; exact hk
    · left
      exact sides_set_frame _ _ _ _ _ _ hk

theorem handleRow_final_score (st : RowState) (bt rt : String) :
    handleRow st "final score" bt rt =
      parseBoth st bt "blue final score" rt "red final score"
        (fun blue_score red_score =>
          { st with
            breakdown :=
              { blue := mapSet st.breakdown.blue "totalPoints" (.int blue_score),
                red := mapSet st.breakdown.red "totalPoints" (.int red_score) },
            alliances :=
              { blue := mapSet st.alliances.blue "score" (.int blue_score),
                red := mapSet st.alliances.red "score" (.int red_score) },
            scoreInfo :=
              { blue := { st.scoreInfo.blue with total := blue_score },
                red := { st.scoreInfo.red with total := red_score } } }) := rfl

theorem handleRow_ranking_points (st : RowState) (bt rt : String) :
    handleRow st "ranking points" bt rt =
      parseBoth st bt "blue ranking points" rt "red ranking points"
        (fun blue_rp red_rp =>
          { st with
            breakdown :=
              { blue := mapSet st.breakdown.blue "rp" (.int blue_rp),
                red := mapSet st.breakdown.red "rp" (.int red_rp) } }) := rfl

theorem handleRow_autonomous_points (st : RowState) (bt rt : String) :
    handleRow st "autonomous points" bt rt =
      parseBoth st bt "blue autonomous points" rt "red autonomous points"
        (fun blue_points red_points =>
          { st with
            breakdown :=
              { blue := mapSet st.breakdown.blue "autoPoints" (.int blue_points),
                red := mapSet st.breakdown.red "autoPoints" (.int red_points) },
            scoreInfo :=
              { blue := { st.scoreInfo.blue with auto := blue_points },
                red := { st.scoreInfo.red with auto := red_points } },
            match_phase := "teleop" }) := rfl

theorem handleRow_teleop_points (st : RowState) (bt rt : String) :
    handleRow st "teleop points" bt rt =
      parseBoth st bt "blue teleop points" rt "red teleop points"
        (fun blue_points red_points =>
          { st with
            breakdown :=
              { blue := mapSet st.breakdown.blue "teleopPoints" (.int blue_points),
                red := mapSet st.breakdown.red "teleopPoints" (.int red_points) },
            scoreInfo :=
              { blue := { st.scoreInfo.blue with teleop := blue_points },
                red := { st.scoreInfo.red with teleop := red_points } },
            match_phase := "" }) := rfl

theorem handleRow_foul_points (st : RowState) (bt rt : String) :
    handleRow st "foul points" bt rt =
      parseBoth st bt "blue foul points" rt "red foul points"
        (fun blue_points red_points =>
          { st with
            breakdown :=
              { blue := mapSet st.breakdown.blue "foulPoints" (.int blue_points),
                red := mapSet st.breakdown.red "foulPoints" (.int red_points) },
            scoreInfo :=
              { blue := { st.scoreInfo.blue with fouls := blue_points },
                red := { st.scoreInfo.red with fouls := red_points } } }) := rfl

theorem handleRow_simple (st : RowState) (l bt rt api : String)
    (h : tableGet simpleFields2023 l = some api) :
    handleRow st l bt rt =
      parseBoth st bt ("blue " ++ api) rt ("red " ++ api)
        (fun blue red =>
          { st with
            breakdown :=
              { blue := mapSet st.breakdown.blue api (.int blue),
                red := mapSet st.breakdown.red api (.int red) } }) := by
  unfold handleRow
  rw [h]
  rfl

theorem tableGet_phase_cases (l suf : String)
    (h : tableGet simpleMatchPhaseFields2023 l = some suf) :
    (l = "game piece count" ∧ suf = "GamePieceCount") ∨
    (l = "game piece points" ∧ suf = "GamePiecePoints") := by
  simp only [simpleMatchPhaseFields2023, tableGet] at h
  split at h
  · rename_i hl
    left
    exact ⟨hl.symm, by simpa using h.symm⟩
  · split at h
    · rename_i hl
      right
      exact ⟨hl.symm, by simpa using h.symm⟩
    · simp at h

theorem tableGet_simple_cases (l api : String)
    (h : tableGet simpleFields2023 l = some api) :
    (l = "coop game piece count" ∧ api = "coopGamePieceCount") ∨
    (l = "mobility points" ∧ api = "autoMobilityPoints") ∨
    (l = "endgame park points" ∧ api = "endGameParkPoints") ∨
    (l = "link points" ∧ api = "linkPoints") ∨
    (l = "adjustments" ∧ api = "adjustPoints") := by
  simp only [simpleFields2023, tableGet] at h
  split at h
  · rename_i hl
    left
    exact ⟨hl.symm, by simpa using h.symm⟩
  · split at h
    · rename_i hl
      right; left
      exact ⟨hl.symm, by simpa using h.symm⟩
    · split at h
      · rename_i hl
        right; right; left
        exact ⟨hl.symm, by simpa using h.symm⟩
      · split at h
        · rename_i hl
          right; right; right; left
          exact ⟨hl.symm, by simpa using h.symm⟩
        · split at h
          · rename_i hl
            right; right; right; right
            exact ⟨hl.symm, by simpa using h.symm⟩
          · simp at h

theorem handleRow_phase_field (st : RowState) (l bt rt suf : String)
    (h : tableGet simpleMatchPhaseFields2023 l = some suf) :
    handleRow st l bt rt =
      parseBoth st bt ("blue " ++ (st.match_phase ++ suf)) rt ("red " ++ (st.match_phase ++ suf))
        (fun blue red =>
          { st with
            breakdown :=
              { blue := mapSet st.breakdown.blue (st.match_phase ++ suf) (.int blue),
                red := mapSet st.breakdown.red (st.match_phase ++ suf) (.int red) } }) := by
  have h0 : tableGet simpleFields2023 l = none := by
    rcases tableGet_phase_cases l suf h with ⟨hl, _⟩ | ⟨hl, _⟩ <;> rw [hl] <;> rfl
  unfold handleRow
  rw [h0, h]
  rfl

theorem parseBoth_ok (st : RowState) (bt bd rt rd : String) (k : Int → Int → RowState)
    (b r : Int) (hb : ParseInt bt = .ok b) (hr : ParseInt rt = .ok r) :
    parseBoth st bt bd rt rd k = (k b r, none) := by
  unfold parseBoth
  rw [(checkParseInt_ok bt bd b).2 hb, (checkParseInt_ok rt rd r).2 hr]

theorem parseBoth_none (st : RowState) (bt bd rt rd : String) (k : Int → Int → RowState)
    (h : (parseBoth st bt bd rt rd k).2 = none) :
    ∃ b r, ParseInt bt = .ok b ∧ ParseInt rt = .ok r ∧
      parseBoth st bt bd rt rd k = (k b r, none) := by
  unfold parseBoth at h ⊢
  split at h
  · simp at h
  · rename_i b hb
    split at h
    · simp at h
    · rename_i r hr
      exact ⟨b, r, (checkParseInt_ok _ _ _).1 hb, (checkParseInt_ok _ _ _).1 hr, rfl⟩

theorem handleRow_meta_frame (st : RowState) (l bt rt : String) :
    (l ≠ "final score" → ∀ side : Side,
      ((handleRow st l bt rt).1.scoreInfo.get side).total = (st.scoreInfo.get side).total) ∧
    (l ≠ "autonomous points" → ∀ side : Side,
      ((handleRow st l bt rt).1.scoreInfo.get side).auto = (st.scoreInfo.get side).auto) ∧
    (l ≠ "teleop points" → ∀ side : Side,
      ((handleRow st l bt rt).1.scoreInfo.get side).teleop = (st.scoreInfo.get side).teleop) ∧
    (l ≠ "foul points" → ∀ side : Side,
      ((handleRow st l bt rt).1.scoreInfo.get side).fouls = (st.scoreInfo.get side).fouls) ∧
    (l ≠ "autonomous points" → l ≠ "teleop points" →
      (handleRow st l bt rt).1.match_phase = st.match_phase) ∧
    (l ≠ "teams" → l ≠ "final score" → (handleRow st l bt rt).1.alliances = st.alliances) := by
  generalize hx : handleRow st l bt rt = x
  revert hx
  unfold handleRow parseBoth
  simp only []
  repeat' split
  all_goals intro hx
  all_goals subst hx
  all_goals refine ⟨fun h1 side => ?_, fun h2 side => ?_, fun h3 side => ?_, fun h4 side => ?_,
    fun h5 h6 => ?_, fun h7 h8 => ?_⟩
  all_goals first
    | rfl
    | (cases side <;> rfl)
    | contradiction

/-- C10: in playoff mode, a call that returns a record returns, on each side,
rp = 0 and false under every field of RP_BADGE_NAMES_2023, that is
cargoBonusRankingPoint and hangarBonusRankingPoint, whatever the rows wrote. -/
theorem playoff_forces_rp_and_badges (dom : List (List String)) (extra_raw : Option ExtraDoc)
    (j : AllJson) (side : Side)
    (h : (parseHTMLtoJSON2023 dom extra_raw true).json = some j) :
    mapGet (j.score_breakdown.get side) "rp" = some (.int 0) ∧
    mapGet (j.score_breakdown.get side) "cargoBonusRankingPoint" = some (.bool false) ∧
    mapGet (j.score_breakdown.get side) "hangarBonusRankingPoint" = some (.bool false) ∧
    ∀ e ∈ RP_BADGE_NAMES_2023, mapGet (j.score_breakdown.get side) e.2 = some (.bool false) := by
  rw [parse_unfold] at h
  obtain ⟨_, _, hb⟩ := finish_json _ _ _ _ _ h
  have h1 : mapGet (j.score_breakdown.get side) "rp" = some (.int 0) := by
    rw [hb side, addManual_other _ _ _ _ _ (by decide)]
    simp only [if_true]
    rw [playoffOverride_eq]
    cases side <;>
      simp only [Sides.get] <;>
      rw [mapGet_mapSet_ne _ _ _ _ (by decide), mapGet_mapSet_ne _ _ _ _ (by decide),
        mapGet_mapSet_self]
  have h2 : mapGet (j.score_breakdown.get side) "cargoBonusRankingPoint" =
      some (.bool false) := by
    rw [hb side, addManual_other _ _ _ _ _ (by decide)]
    simp only [if_true]
    rw [playoffOverride_eq]
    cases side <;>
      simp only [Sides.get] <;>
      rw [mapGet_mapSet_ne _ _ _ _ (by decide), mapGet_mapSet_self]
  have h3 : mapGet (j.score_breakdown.get side) "hangarBonusRankingPoint" =
      some (.bool false) := by
    rw [hb side, addManual_other _ _ _ _ _ (by decide)]
    simp only [if_true]
    rw [playoffOverride_eq]
    cases side <;>
      simp only [Sides.get] <;>
      rw [mapGet_mapSet_self]
  refine ⟨h1, h2, h3, ?_⟩
  intro e he
  simp only [RP_BADGE_NAMES_2023, List.mem_cons, List.mem_singleton, List.not_mem_nil,
    or_false] at he
  rcases he with he | he <;> subst he
  · exact h2
  · exact h3

theorem processRow_handle (st : RowState) (c0 c1 c2 : String)
    (h1 : ToLower (TrimSpace c0) ≠ "") (h2 : ToLower (TrimSpace c0) ≠ "match score item")
    (h3 : ToLower (TrimSpace c0) ≠ "mobility") :
    processRow st [c0, c1, c2] =
      handleRow st (ToLower (TrimSpace c0)) (TrimSpace c1) (TrimSpace c2) := by
  rw [processRow_three]
  simp [h1, h2, h3]

/-- C3: a row whose normalized label is a key of simpleFields2023, one of the five
direct fields, and whose two trimmed cell texts parse as integers is processed
without error and leaves, under the mapped API field name, the blue integer in the
blue breakdown and the red integer in the red breakdown. -/
theorem direct_field_row_writes_both_sides (st : RowState) (c0 c1 c2 api_field : String)
    (blue red : Int)
    (hl : tableGet simpleFields2023 (ToLower (TrimSpace c0)) = some api_field)
    (hb : ParseInt (TrimSpace c1) = .ok blue) (hr : ParseInt (TrimSpace c2) = .ok red) :
    (ToLower (TrimSpace c0), api_field) ∈
      [("coop game piece count", "coopGamePieceCount"), ("mobility points", "autoMobilityPoints"),
        ("endgame park points", "endGameParkPoints"), ("link points", "linkPoints"),
        ("adjustments", "adjustPoints")] ∧
    (processRow st [c0, c1, c2]).2 = none ∧
    mapGet (processRow st [c0, c1, c2]).1.breakdown.blue api_field = some (.int blue) ∧
    mapGet (processRow st [c0, c1, c2]).1.breakdown.red api_field = some (.int red) := by
  have hc := tableGet_simple_cases _ _ hl
  have hne : ToLower (TrimSpace c0) ≠ "" ∧ ToLower (TrimSpace c0) ≠ "match score item" ∧
      ToLower (TrimSpace c0) ≠ "mobility" := by
    rcases hc with ⟨h, _⟩ | ⟨h, _⟩ | ⟨h, _⟩ | ⟨h, _⟩ | ⟨h, _⟩ <;> rw [h] <;> decide
  rw [processRow_handle st c0 c1 c2 hne.1 hne.2.1 hne.2.2, handleRow_simple _ _ _ _ _ hl,
    parseBoth_ok _ _ _ _ _ _ blue red hb hr]
  refine ⟨?_, rfl, mapGet_mapSet_self _ _ _, mapGet_mapSet_self _ _ _⟩
  rcases hc with ⟨h, h'⟩ | ⟨h, h'⟩ | ⟨h, h'⟩ | ⟨h, h'⟩ | ⟨h, h'⟩ <;> rw [h, h'] <;> decide

theorem rowLabel_some (row : List String) (l : String) (h : rowLabel row = some l) :
    ∃ c0 c1 c2, row = [c0, c1, c2] ∧ l = ToLower (TrimSpace c0) := by
  unfold rowLabel at h
  split at h
  · rename_i c0 c1 c2
    exact ⟨c0, c1, c2, rfl, by simpa using h.symm⟩
  · simp at h

theorem processRow_three_cases (st : RowState) (c0 c1 c2 : String) :
    ((ToLower (TrimSpace c0) = "" ∨ ToLower (TrimSpace c0) = "match score item") ∧
      processRow st [c0, c1, c2] = (st, none)) ∨
    (ToLower (TrimSpace c0) ≠ "" ∧ ToLower (TrimSpace c0) ≠ "match score item" ∧
      ∃ st1 : RowState, st1.breakdown = st.breakdown ∧ st1.alliances = st.alliances ∧
        st1.scoreInfo = st.scoreInfo ∧
        st1.match_phase =
          (if ToLower (TrimSpace c0) = "mobility" then "auto" else st.match_phase) ∧
        processRow st [c0, c1, c2] =
          handleRow st1 (ToLower (TrimSpace c0)) (TrimSpace c1) (TrimSpace c2)) := by
  rw [processRow_three]
  by_cases h : ToLower (TrimSpace c0) = "" ∨ ToLower (TrimSpace c0) = "match score item"
  · left
    exact ⟨h, by simp [h]⟩
  · right
    have h1 : ToLower (TrimSpace c0) ≠ "" := fun h' => h (Or.inl h')
    have h2 : ToLower (TrimSpace c0) ≠ "match score item" := fun h' => h (Or.inr h')
    refine ⟨h1, h2, ?_⟩
    by_cases hm : ToLower (TrimSpace c0) = "mobility"
    · exact ⟨{ st with match_phase := "auto" }, rfl, rfl, rfl, by simp [hm], by simp [hm]⟩
    · exact ⟨st, rfl, rfl, rfl, by simp [hm], by simp [h, hm]⟩

theorem adjust_ne_phase_suffix (p suf : String)
    (h : suf = "GamePieceCount" ∨ suf = "GamePiecePoints") : "adjustPoints" ≠ p ++ suf := by
  intro he
  have hl := congrArg String.length he
  rw [String.length_append] at hl
  rcases h with h | h <;> subst h
  · have h1 : "adjustPoints".length = 12 := by decide
    have h2 : "GamePieceCount".length = 14 := by decide
    omega
  · have h1 : "adjustPoints".length = 12 := by decide
    have h2 : "GamePiecePoints".length = 15 := by decide
    omega

theorem adjust_ne_robot (p : String) (n : Nat) :
    "adjustPoints" ≠ p ++ "ChargeStationRobot" ++ toString n := by
  intro he
  have hl := congrArg String.length he
  rw [String.length_append, String.length_append] at hl
  have h1 : "adjustPoints".length = 12 := by decide
  have h2 : "ChargeStationRobot".length = 18 := by decide
  omega

theorem adjust_ne_bang (l : String) : "adjustPoints" ≠ "!" ++ l := by
  intro he
  have hd := congrArg String.data he
  rw [String.data_append] at hd
  have h1 : "adjustPoints".data = 'a' :: "djustPoints".data := by decide
  have h2 : "!".data = ['!'] := by decide
  rw [h1, h2] at hd
  simp at hd

theorem handleRow_adjust_frame (st : RowState) (l bt rt : String) (side : Side)
    (hl : l ≠ "adjustments") :
    mapGet ((handleRow st l bt rt).1.breakdown.get side) "adjustPoints" =
      mapGet (st.breakdown.get side) "adjustPoints" := by
  rcases handleRow_breakdown_frame st l bt rt side "adjustPoints" with
    h | h | ⟨suf, hs, h⟩ | ⟨_, h⟩ | ⟨_, h⟩ | ⟨_, h⟩ | ⟨_, h⟩ | ⟨_, h⟩ | ⟨_, h⟩ | ⟨_, p, n, h⟩ | h
  · exact h
  · rcases tableGet_simple_cases _ _ h with ⟨h1, h2⟩ | ⟨h1, h2⟩ | ⟨h1, h2⟩ | ⟨h1, h2⟩ | ⟨h1, h2⟩
    · exact absurd h2 (by decide)
    · exact absurd h2 (by decide)
    · exact absurd h2 (by decide)
    · exact absurd h2 (by decide)
    · exact absurd h1 hl
  · refine absurd h (adjust_ne_phase_suffix _ _ ?_)
    rcases tableGet_phase_cases _ _ hs with ⟨_, h2⟩ | ⟨_, h2⟩
    · exact Or.inl h2
    · exact Or.inr h2
  · exact absurd h (by decide)
  · exact absurd h (by decide)
  · exact absurd h (by decide)
  · exact absurd h (by decide)
  · exact absurd h (by decide)
  · rcases h with h | h <;> exact absurd h (by decide)
  · exact absurd h (adjust_ne_robot p n)
  · exact absurd h (adjust_ne_bang l)

/-! ## The last row of a label -/

theorem rowFailures_nil_cons (st : RowState) (row : List String) (rest : List (List String))
    (h : rowFailures st (row :: rest) = []) :
    (processRow st row).2 = none ∧ rowFailures (processRow st row).1 rest = [] := by
  rw [rowFailures_cons] at h
  cases hp : (processRow st row).2 with
  | none => rw [hp] at h; exact ⟨rfl, h⟩
  | some r => rw [hp] at h; simp at h

theorem last_writer {α : Type} (f : RowState → α) (L : String) (side : Side)
    (R : String → α → Prop)
    (hno : ∀ st row, (processRow st row).2 = none → rowLabel row ≠ some L →
      f (processRow st row).1 = f st)
    (hyes : ∀ st row, (processRow st row).2 = none → rowLabel row = some L →
      ∃ c, rowCell side row = some c ∧ R c (f (processRow st row).1))
    (st : RowState) (dom : List (List String)) (h : rowFailures st dom = []) :
    (lastCell L side dom = none → f (runState st dom) = f st) ∧
    (∀ c, lastCell L side dom = some c → R c (f (runState st dom))) := by
  induction dom generalizing st with
  | nil =>
    refine ⟨fun _ => rfl, ?_⟩
    intro c hc
    simp [lastCell] at hc
  | cons row rest ih =>
    obtain ⟨h1, h2⟩ := rowFailures_nil_cons st row rest h
    obtain ⟨ih1, ih2⟩ := ih (processRow st row).1 h2
    rw [runState_cons]
    unfold lastCell
    cases hl : lastCell L side rest with
    | some c' =>
      simp only
      refine ⟨fun hc => by simp at hc, ?_⟩
      intro c hc
      simp only [Option.some.injEq] at hc
      subst hc
      exact ih2 _ hl
    | none =>
      simp only
      by_cases hrow : rowLabel row = some L
      · simp only [hrow, if_true]
        obtain ⟨c, hc, hR⟩ := hyes st row h1 hrow
        refine ⟨fun hn => by rw [hc] at hn; simp at hn, ?_⟩
        intro c' hc'
        rw [hc] at hc'
        simp only [Option.some.injEq] at hc'
        subst hc'
        rw [ih1 hl]
        exact hR
      · simp only [hrow, if_false]
        refine ⟨fun _ => by rw [ih1 hl]; exact hno st row h1 hrow, ?_⟩
        intro c hc
        simp at hc

theorem rowCell_three (side : Side) (c0 c1 c2 : String) :
    rowCell side [c0, c1, c2] =
      some (Sides.get (⟨TrimSpace c1, TrimSpace c2⟩ : Sides String) side) := by
  cases side <;> rfl

theorem rowLabel_three (c0 c1 c2 : String) :
    rowLabel [c0, c1, c2] = some (ToLower (TrimSpace c0)) := rfl

/-- What a row does to a view `f` of the state that the phase does not enter,
when the view changes only in the branch of the label `L`. -/
theorem processRow_view {α : Type} (f : RowState → α) (L : String) (side : Side)
    (R : String → α → Prop) (hL1 : L ≠ "") (hL2 : L ≠ "match score item")
    (hphase : ∀ st st1 : RowState, st1.breakdown = st.breakdown →
      st1.scoreInfo = st.scoreInfo → f st1 = f st)
    (hframe : ∀ st l bt rt, l ≠ L → f (handleRow st l bt rt).1 = f st)
    (hbranch : ∀ st bt rt, (handleRow st L bt rt).2 = none →
      R (Sides.get (⟨bt, rt⟩ : Sides String) side) (f (handleRow st L bt rt).1)) :
    (∀ st row, (processRow st row).2 = none → rowLabel row ≠ some L →
      f (processRow st row).1 = f st) ∧
    (∀ st row, (processRow st row).2 = none → rowLabel row = some L →
      ∃ c, rowCell side row = some c ∧ R c (f (processRow st row).1)) := by
  constructor
  · intro st row _ hl
    cases hrl : rowLabel row with
    | none => rw [processRow_not_three st row hrl]
    | some l =>
      obtain ⟨c0, c1, c2, hrow, hl'⟩ := rowLabel_some row l hrl
      subst hrow
      rcases processRow_three_cases st c0 c1 c2 with ⟨_, hp⟩ | ⟨_, _, st1, hb, _, hs, _, hp⟩
      · rw [hp]
      · rw [hp, hframe, hphase st st1 hb hs]
        intro heq
        apply hl
        rw [rowLabel_three, heq]
  · intro st row hok hl
    obtain ⟨c0, c1, c2, hrow, hl'⟩ := rowLabel_some row L hl
    subst hrow
    refine ⟨_, rowCell_three side c0 c1 c2, ?_⟩
    rcases processRow_three_cases st c0 c1 c2 with ⟨hskip, _⟩ | ⟨_, _, st1, _, _, _, _, hp⟩
    · rcases hskip with h | h
      · exact absurd (hl'.trans h) hL1
      · exact absurd (hl'.trans h) hL2
    · rw [hp] at hok ⊢
      rw [← hl'] at hok ⊢
      exact hbranch st1 _ _ hok

theorem run_total (st : RowState) (dom : List (List String)) (side : Side)
    (h : rowFailures st dom = []) :
    cellIs (lastCell "final score" side dom) (st.scoreInfo.get side).total
      ((runState st dom).scoreInfo.get side).total := by
  have hv := processRow_view (fun s => (s.scoreInfo.get side).total) "final score" side
    (fun c v => ParseInt c = .ok v) (by decide) (by decide)
    (fun st st1 _ hs => by simp only [hs])
    (fun st l bt rt hl => (handleRow_meta_frame st l bt rt).1 hl side)
    (fun st bt rt hok => by
      obtain ⟨b, r, hb, hr, he⟩ := parseBoth_none _ _ _ _ _ _ (by
        rw [← handleRow_final_score]; exact hok)
      rw [handleRow_final_score, he]
      cases side
      · exact hb
      · exact hr)
  have hw := last_writer (fun s => (s.scoreInfo.get side).total) "final score" side
    (fun c v => ParseInt c = .ok v) hv.1 hv.2 st dom h
  unfold cellIs
  cases hc : lastCell "final score" side dom with
  | none => exact hw.1 hc
  | some c => exact hw.2 c hc

theorem run_auto (st : RowState) (dom : List (List String)) (side : Side)
    (h : rowFailures st dom = []) :
    cellIs (lastCell "autonomous points" side dom) (st.scoreInfo.get side).auto
      ((runState st dom).scoreInfo.get side).auto := by
  have hv := processRow_view (fun s => (s.scoreInfo.get side).auto) "autonomous points" side
    (fun c v => ParseInt c = .ok v) (by decide) (by decide)
    (fun st st1 _ hs => by simp only [hs])
    (fun st l bt rt hl => (handleRow_meta_frame st l bt rt).2.1 hl side)
    (fun st bt rt hok => by
      obtain ⟨b, r, hb, hr, he⟩ := parseBoth_none _ _ _ _ _ _ (by
        rw [← handleRow_autonomous_points]; exact hok)
      rw [handleRow_autonomous_points, he]
      cases side
      · exact hb
      · exact hr)
  have hw := last_writer (fun s => (s.scoreInfo.get side).auto) "autonomous points" side
    (fun c v => ParseInt c = .ok v) hv.1 hv.2 st dom h
  unfold cellIs
  cases hc : lastCell "autonomous points" side dom with
  | none => exact hw.1 hc
  | some c => exact hw.2 c hc

theorem run_teleop (st : RowState) (dom : List (List String)) (side : Side)
    (h : rowFailures st dom = []) :
    cellIs (lastCell "teleop points" side dom) (st.scoreInfo.get side).teleop
      ((runState st dom).scoreInfo.get side).teleop := by
  have hv := processRow_view (fun s => (s.scoreInfo.get side).teleop) "teleop points" side
    (fun c v => ParseInt c = .ok v) (by decide) (by decide)
    (fun st st1 _ hs => by simp only [hs])
    (fun st l bt rt hl => (handleRow_meta_frame st l bt rt).2.2.1 hl side)
    (fun st bt rt hok => by
      obtain ⟨b, r, hb, hr, he⟩ := parseBoth_none _ _ _ _ _ _ (by
        rw [← handleRow_teleop_points]; exact hok)
      rw [handleRow_teleop_points, he]
      cases side
      · exact hb
      · exact hr)
  have hw := last_writer (fun s => (s.scoreInfo.get side).teleop) "teleop points" side
    (fun c v => ParseInt c = .ok v) hv.1 hv.2 st dom h
  unfold cellIs
  cases hc : lastCell "teleop points" side dom with
  | none => exact hw.1 hc
  | some c => exact hw.2 c hc

theorem run_fouls (st : RowState) (dom : List (List String)) (side : Side)
    (h : rowFailures st dom = []) :
    cellIs (lastCell "foul points" side dom) (st.scoreInfo.get side).fouls
      ((runState st dom).scoreInfo.get side).fouls := by
  have hv := processRow_view (fun s => (s.scoreInfo.get side).fouls) "foul points" side
    (fun c v => ParseInt c = .ok v) (by decide) (by decide)
    (fun st st1 _ hs => by simp only [hs])
    (fun st l bt rt hl => (handleRow_meta_frame st l bt rt).2.2.2.1 hl side)
    (fun st bt rt hok => by
      obtain ⟨b, r, hb, hr, he⟩ := parseBoth_none _ _ _ _ _ _ (by
        rw [← handleRow_foul_points]; exact hok)
      rw [handleRow_foul_points, he]
      cases side
      · exact hb
      · exact hr)
  have hw := last_writer (fun s => (s.scoreInfo.get side).fouls) "foul points" side
    (fun c v => ParseInt c = .ok v) hv.1 hv.2 st dom h
  unfold cellIs
  cases hc : lastCell "foul points" side dom with
  | none => exact hw.1 hc
  | some c => exact hw.2 c hc

theorem run_adjust (st : RowState) (dom : List (List String)) (side : Side)
    (h : rowFailures st dom = []) :
    (lastCell "adjustments" side dom = none →
      mapGet ((runState st dom).breakdown.get side) "adjustPoints" =
        mapGet (st.breakdown.get side) "adjustPoints") ∧
    (∀ c, lastCell "adjustments" side dom = some c →
      ∃ v, ParseInt c = .ok v ∧
        mapGet ((runState st dom).breakdown.get side) "adjustPoints" = some (.int v)) := by
  have hv := processRow_view (fun s => mapGet (s.breakdown.get side) "adjustPoints")
    "adjustments" side
    (fun c x => ∃ v, ParseInt c = .ok v ∧ x = some (.int v)) (by decide) (by decide)
    (fun st st1 hb _ => by simp only [hb])
    (fun st l bt rt hl => handleRow_adjust_frame st l bt rt side hl)
    (fun st bt rt hok => by
      have heq := handleRow_simple st "adjustments" bt rt "adjustPoints" (by decide)
      obtain ⟨b, r, hb, hr, he⟩ := parseBoth_none _ _ _ _ _ _ (by
        rw [← heq]; exact hok)
      rw [heq, he]
      cases side
      · exact ⟨b, hb, mapGet_mapSet_self _ _ _⟩
      · exact ⟨r, hr, mapGet_mapSet_self _ _ _⟩)
  exact last_writer (fun s => mapGet (s.breakdown.get side) "adjustPoints") "adjustments" side
    (fun c x => ∃ v, ParseInt c = .ok v ∧ x = some (.int v)) hv.1 hv.2 st dom h

theorem wrapInt_of_fits (n : Int) (h1 : -2 ^ 63 ≤ n) (h2 : n < 2 ^ 63) : wrapInt n = n := by
  unfold wrapInt
  omega

theorem subInt_chain (t a te f : Int) :
    subInt (subInt (subInt t a) te) f = wrapInt (t - a - te - f) := by
  unfold subInt wrapInt
  omega

/-- C5: in a table that parses without error, for each side, let total, auto,
teleop and fouls be the integers of the side's cell in the last "final score",
"autonomous points", "teleop points" and "foul points" rows, 0 for a row that is
absent. Without an "adjustments" row, adjustPoints is total - auto - teleop - fouls
as Go computes it on int, which is that difference itself, negative or not,
whenever it fits in an int. With an "adjustments" row, adjustPoints is the integer
of the side's cell in the last such row, and the formula is not applied. -/
theorem adjustPoints_resolved (dom : List (List String)) (extra_raw : Option ExtraDoc)
    (playoff : Bool) (j : AllJson) (side : Side)
    (h : (parseHTMLtoJSON2023 dom extra_raw playoff).json = some j) :
    ∃ total auto teleop fouls : Int,
      cellIs (lastCell "final score" side dom) 0 total ∧
      cellIs (lastCell "autonomous points" side dom) 0 auto ∧
      cellIs (lastCell "teleop points" side dom) 0 teleop ∧
      cellIs (lastCell "foul points" side dom) 0 fouls ∧
      (lastCell "adjustments" side dom = none →
        mapGet (j.score_breakdown.get side) "adjustPoints" =
          some (.int (subInt (subInt (subInt total auto) teleop) fouls)) ∧
        (-2 ^ 63 ≤ total - auto - teleop - fouls → total - auto - teleop - fouls < 2 ^ 63 →
          mapGet (j.score_breakdown.get side) "adjustPoints" =
            some (.int (total - auto - teleop - fouls)))) ∧
      (∀ c, lastCell "adjustments" side dom = some c →
        ∃ v, ParseInt c = .ok v ∧
          mapGet (j.score_breakdown.get side) "adjustPoints" = some (.int v)) := by
  rw [parse_unfold] at h
  obtain ⟨herrs, _, hb⟩ := finish_json _ _ _ _ _ h
  have hnil : rowFailures (initState (loadExtraInfo extra_raw)) dom = [] := by
    simpa using herrs
  have h0 : ∀ k : String, mapGet ((initState (loadExtraInfo extra_raw)).breakdown.get side) k
      = none := by
    intro k
    cases side <;> rfl
  have hs0 : (initState (loadExtraInfo extra_raw)).scoreInfo.get side = ⟨0, 0, 0, 0⟩ := by
    cases side <;> rfl
  have ht := run_total _ dom side hnil
  have ha := run_auto _ dom side hnil
  have hte := run_teleop _ dom side hnil
  have hf := run_fouls _ dom side hnil
  obtain ⟨hadj1, hadj2⟩ := run_adjust _ dom side hnil
  rw [hs0] at ht ha hte hf
  have hov : mapGet ((if playoff = true then playoffOverride (stateAfter extra_raw dom).breakdown
      else (stateAfter extra_raw dom).breakdown).get side) "adjustPoints" =
      mapGet ((stateAfter extra_raw dom).breakdown.get side) "adjustPoints" := by
    cases playoff with
    | false => simp
    | true =>
      simp only [if_true]
      exact playoffOverride_other _ _ _ (by decide) (by decide) (by decide)
  refine ⟨_, _, _, _, ht, ha, hte, hf, ?_, ?_⟩
  · intro hnone
    have hval : mapGet (j.score_breakdown.get side) "adjustPoints" =
        some (.int (subInt (subInt (subInt
          ((stateAfter extra_raw dom).scoreInfo.get side).total
          ((stateAfter extra_raw dom).scoreInfo.get side).auto)
          ((stateAfter extra_raw dom).scoreInfo.get side).teleop)
          ((stateAfter extra_raw dom).scoreInfo.get side).fouls)) := by
      rw [hb side, addManual_adjust, hov]
      unfold stateAfter
      rw [hadj1 hnone, h0]
    refine ⟨hval, ?_⟩
    intro h1 h2
    rw [hval, subInt_chain]
    exact congrArg (fun x => some (Value.int x)) (wrapInt_of_fits _ h1 h2)
  · intro c hc
    obtain ⟨v, hv, hm⟩ := hadj2 c hc
    refine ⟨v, hv, ?_⟩
    rw [hb side, addManual_adjust, hov]
    unfold stateAfter
    rw [hm]

/-! ## The phase -/

theorem processRow_phase_other (st : RowState) (row : List String)
    (h : isSentinel row = false) : (processRow st row).1.match_phase = st.match_phase := by
  unfold isSentinel at h
  simp only [Bool.or_eq_false_iff, decide_eq_false_iff_not] at h
  obtain ⟨⟨hm, ha⟩, ht⟩ := h
  cases hrl : rowLabel row with
  | none => rw [processRow_not_three st row hrl]
  | some l =>
    obtain ⟨c0, c1, c2, hrow, hl⟩ := rowLabel_some row l hrl
    subst hrow
    rw [rowLabel_three] at hm ha ht
    simp only [Option.some.injEq] at hm ha ht
    rcases processRow_three_cases st c0 c1 c2 with ⟨_, hp⟩ | ⟨_, _, st1, _, _, _, hph, hp⟩
    · rw [hp]
    · rw [hp, (handleRow_meta_frame st1 _ _ _).2.2.2.2.1 ha ht, hph]
      simp [hm]

theorem runState_phase_other (st : RowState) (rows : List (List String))
    (h : ∀ r ∈ rows, isSentinel r = false) :
    (runState st rows).match_phase = st.match_phase := by
  induction rows generalizing st with
  | nil => rfl
  | cons row rest ih =>
    rw [runState_cons, ih _ (fun r hr => h r (List.mem_cons_of_mem _ hr)),
      processRow_phase_other st row (h row (List.mem_cons_self _ _))]

theorem processRow_mobility (st : RowState) (c0 c1 c2 : String)
    (h : ToLower (TrimSpace c0) = "mobility") :
    (processRow st [c0, c1, c2]).1.match_phase = "auto" := by
  rcases processRow_three_cases st c0 c1 c2 with ⟨hs, _⟩ | ⟨_, _, st1, _, _, _, hph, hp⟩
  · rw [h] at hs
    exact absurd hs (by decide)
  · rw [hp, h, (handleRow_meta_frame st1 _ _ _).2.2.2.2.1 (by decide) (by decide), hph]
    simp [h]

theorem processRow_autonomous_ok (st : RowState) (c0 c1 c2 : String) (b r : Int)
    (h : ToLower (TrimSpace c0) = "autonomous points")
    (hb : ParseInt (TrimSpace c1) = .ok b) (hr : ParseInt (TrimSpace c2) = .ok r) :
    (processRow st [c0, c1, c2]).2 = none ∧
    (processRow st [c0, c1, c2]).1.match_phase = "teleop" := by
  rw [processRow_handle st c0 c1 c2 (by rw [h]; decide) (by rw [h]; decide)
    (by rw [h]; decide), h, handleRow_autonomous_points, parseBoth_ok _ _ _ _ _ _ b r hb hr]
  exact ⟨rfl, rfl⟩

theorem processRow_teleop_ok (st : RowState) (c0 c1 c2 : String) (b r : Int)
    (h : ToLower (TrimSpace c0) = "teleop points")
    (hb : ParseInt (TrimSpace c1) = .ok b) (hr : ParseInt (TrimSpace c2) = .ok r) :
    (processRow st [c0, c1, c2]).2 = none ∧
    (processRow st [c0, c1, c2]).1.match_phase = "" := by
  rw [processRow_handle st c0 c1 c2 (by rw [h]; decide) (by rw [h]; decide)
    (by rw [h]; decide), h, handleRow_teleop_points, parseBoth_ok _ _ _ _ _ _ b r hb hr]
  exact ⟨rfl, rfl⟩

theorem parseBoth_set_frame (st : RowState) (bt bd rt rd key : String) (side : Side)
    (k : String) (hk : k ≠ key) :
    mapGet ((parseBoth st bt bd rt rd
        (fun blue red =>
          { st with
            breakdown :=
              { blue := mapSet st.breakdown.blue key (.int blue),
                red := mapSet st.breakdown.red key (.int red) } })).1.breakdown.get side) k =
      mapGet (st.breakdown.get side) k := by
  unfold parseBoth
  repeat' split
  all_goals first
    | rfl
    | exact sides_set_frame _ _ _ _ _ _ hk

theorem processRow_phase_field (st : RowState) (c0 c1 c2 suf : String)
    (h : tableGet simpleMatchPhaseFields2023 (ToLower (TrimSpace c0)) = some suf) :
    (∀ (side : Side) (k : String), k ≠ st.match_phase ++ suf →
      mapGet ((processRow st [c0, c1, c2]).1.breakdown.get side) k =
        mapGet (st.breakdown.get side) k) ∧
    (∀ b r : Int, ParseInt (TrimSpace c1) = .ok b → ParseInt (TrimSpace c2) = .ok r →
      (processRow st [c0, c1, c2]).2 = none ∧
      mapGet (processRow st [c0, c1, c2]).1.breakdown.blue (st.match_phase ++ suf) =
        some (.int b) ∧
      mapGet (processRow st [c0, c1, c2]).1.breakdown.red (st.match_phase ++ suf) =
        some (.int r)) := by
  have hne : ToLower (TrimSpace c0) ≠ "" ∧ ToLower (TrimSpace c0) ≠ "match score item" ∧
      ToLower (TrimSpace c0) ≠ "mobility" := by
    rcases tableGet_phase_cases _ _ h with ⟨h', _⟩ | ⟨h', _⟩ <;> rw [h'] <;> decide
  rw [processRow_handle st c0 c1 c2 hne.1 hne.2.1 hne.2.2, handleRow_phase_field _ _ _ _ _ h]
  constructor
  · intro side k hk
    exact parseBoth_set_frame _ _ _ _ _ _ _ _ hk
  · intro b r hb hr
    rw [parseBoth_ok _ _ _ _ _ _ b r hb hr]
    exact ⟨rfl, mapGet_mapSet_self _ _ _, mapGet_mapSet_self _ _ _⟩

/-- C4: in a table that holds, in this order, a "mobility" row, an "autonomous
points" row with integer cells and a "teleop points" row with integer cells, with
no row of one of these three labels between them, the phase is Auto from the
"mobility" row up to the "autonomous points" row, Teleop from that one up to the
"teleop points" row and None ("") after it; up to the "mobility" row it is None
when no row of one of the three labels comes before that row either; and a
"game piece count" or "game piece points" row between "mobility" and "autonomous
points" writes nothing but the key "auto" followed by its suffix, a row of these
between "autonomous points" and "teleop points" nothing but the key "teleop"
followed by its suffix, each with the integers of its cells when they parse. -/
theorem phase_sequence (extra_raw : Option ExtraDoc) (pre mid1 mid2 : List (List String))
    (m0 m1 m2 a0 a1 a2 t0 t1 t2 : String) (ab ar tb tr : Int)
    (hmid1 : ∀ r ∈ mid1, isSentinel r = false)
    (hmid2 : ∀ r ∈ mid2, isSentinel r = false)
    (hm : ToLower (TrimSpace m0) = "mobility")
    (ha : ToLower (TrimSpace a0) = "autonomous points")
    (hab : ParseInt (TrimSpace a1) = .ok ab) (har : ParseInt (TrimSpace a2) = .ok ar)
    (ht : ToLower (TrimSpace t0) = "teleop points")
    (htb : ParseInt (TrimSpace t1) = .ok tb) (htr : ParseInt (TrimSpace t2) = .ok tr) :
    ((∀ r ∈ pre, isSentinel r = false) →
      ∀ p, p <+: pre → (stateAfter extra_raw p).match_phase = "") ∧
    (∀ p, p <+: mid1 →
      (stateAfter extra_raw (pre ++ [m0, m1, m2] :: p)).match_phase = "auto") ∧
    (∀ p, p <+: mid2 →
      (stateAfter extra_raw (pre ++ [m0, m1, m2] :: (mid1 ++ [a0, a1, a2] :: p))).match_phase =
        "teleop") ∧
    (stateAfter extra_raw
      (pre ++ [m0, m1, m2] :: (mid1 ++ [a0, a1, a2] :: (mid2 ++ [[t0, t1, t2]])))).match_phase =
        "" ∧
    (∀ p q c0 c1 c2 suf, mid1 = p ++ [c0, c1, c2] :: q →
      tableGet simpleMatchPhaseFields2023 (ToLower (TrimSpace c0)) = some suf →
      (∀ (side : Side) (k : String), k ≠ "auto" ++ suf →
        mapGet ((processRow (stateAfter extra_raw (pre ++ [m0, m1, m2] :: p))
            [c0, c1, c2]).1.breakdown.get side) k =
          mapGet ((stateAfter extra_raw (pre ++ [m0, m1, m2] :: p)).breakdown.get side) k) ∧
      (∀ b r : Int, ParseInt (TrimSpace c1) = .ok b → ParseInt (TrimSpace c2) = .ok r →
        (processRow (stateAfter extra_raw (pre ++ [m0, m1, m2] :: p)) [c0, c1, c2]).2 = none ∧
        mapGet (processRow (stateAfter extra_raw (pre ++ [m0, m1, m2] :: p))
            [c0, c1, c2]).1.breakdown.blue ("auto" ++ suf) = some (.int b) ∧
        mapGet (processRow (stateAfter extra_raw (pre ++ [m0, m1, m2] :: p))
            [c0, c1, c2]).1.breakdown.red ("auto" ++ suf) = some (.int r))) ∧
    (∀ p q c0 c1 c2 suf, mid2 = p ++ [c0, c1, c2] :: q →
      tableGet simpleMatchPhaseFields2023 (ToLower (TrimSpace c0)) = some suf →
      (∀ (side : Side) (k : String), k ≠ "teleop" ++ suf →
        mapGet ((processRow
            (stateAfter extra_raw (pre ++ [m0, m1, m2] :: (mid1 ++ [a0, a1, a2] :: p)))
            [c0, c1, c2]).1.breakdown.get side) k =
          mapGet ((stateAfter extra_raw
            (pre ++ [m0, m1, m2] :: (mid1 ++ [a0, a1, a2] :: p))).breakdown.get side) k) ∧
      (∀ b r : Int, ParseInt (TrimSpace c1) = .ok b → ParseInt (TrimSpace c2) = .ok r →
        (processRow (stateAfter extra_raw (pre ++ [m0, m1, m2] :: (mid1 ++ [a0, a1, a2] :: p)))
          [c0, c1, c2]).2 = none ∧
        mapGet (processRow
            (stateAfter extra_raw (pre ++ [m0, m1, m2] :: (mid1 ++ [a0, a1, a2] :: p)))
            [c0, c1, c2]).1.breakdown.blue ("teleop" ++ suf) = some (.int b) ∧
        mapGet (processRow
            (stateAfter extra_raw (pre ++ [m0, m1, m2] :: (mid1 ++ [a0, a1, a2] :: p)))
            [c0, c1, c2]).1.breakdown.red ("teleop" ++ suf) = some (.int r))) := by
  have sub : ∀ (p l : List (List String)), p <+: l → (∀ r ∈ l, isSentinel r = false) →
      ∀ r ∈ p, isSentinel r = false := fun p l hp hl r hr => hl r (hp.subset hr)
  have h1 : (∀ r ∈ pre, isSentinel r = false) →
      ∀ p, p <+: pre → (stateAfter extra_raw p).match_phase = "" := by
    intro hpre p hp
    unfold stateAfter
    rw [runState_phase_other _ p (sub p pre hp hpre)]
    rfl
  have h2 : ∀ p, p <+: mid1 →
      (stateAfter extra_raw (pre ++ [m0, m1, m2] :: p)).match_phase = "auto" := by
    intro p hp
    unfold stateAfter
    rw [runState_append, runState_cons, runState_phase_other _ p (sub p mid1 hp hmid1)]
    exact processRow_mobility _ _ _ _ hm
  have h3 : ∀ p, p <+: mid2 →
      (stateAfter extra_raw
        (pre ++ [m0, m1, m2] :: (mid1 ++ [a0, a1, a2] :: p))).match_phase = "teleop" := by
    intro p hp
    unfold stateAfter
    rw [runState_append, runState_cons, runState_append, runState_cons,
      runState_phase_other _ p (sub p mid2 hp hmid2)]
    exact (processRow_autonomous_ok _ _ _ _ ab ar ha hab har).2
  refine ⟨h1, h2, h3, ?_, ?_, ?_⟩
  · unfold stateAfter
    rw [runState_append, runState_cons, runState_append, runState_cons, runState_append,
      runState_cons, runState_nil]
    exact (processRow_teleop_ok _ _ _ _ tb tr ht htb htr).2
  · intro p q c0 c1 c2 suf hmid hs
    have hp : p <+: mid1 := ⟨_, hmid.symm⟩
    have := processRow_phase_field (stateAfter extra_raw (pre ++ [m0, m1, m2] :: p))
      c0 c1 c2 suf hs
    rw [h2 p hp] at this
    exact this
  · intro p q c0 c1 c2 suf hmid hs
    have hp : p <+: mid2 := ⟨_, hmid.symm⟩
    have := processRow_phase_field
      (stateAfter extra_raw (pre ++ [m0, m1, m2] :: (mid1 ++ [a0, a1, a2] :: p)))
      c0 c1 c2 suf hs
    rw [h3 p hp] at this
    exact this

/-! ## The text of a panic -/

theorem parseBoth_blue_error (st : RowState) (bt bd rt rd : String) (k : Int → Int → RowState)
    (e : NumErr) (h : ParseInt bt = .error e) :
    (parseBoth st bt bd rt rd k).2 =
      some ("parse int " ++ bd ++ " failed: " ++ numErrorText bt e) := by
  unfold parseBoth checkParseInt
  rw [h]

theorem parseBoth_red_error (st : RowState) (bt bd rt rd : String) (k : Int → Int → RowState)
    (b : Int) (e : NumErr) (hb : ParseInt bt = .ok b) (h : ParseInt rt = .error e) :
    (parseBoth st bt bd rt rd k).2 =
      some ("parse int " ++ rd ++ " failed: " ++ numErrorText rt e) := by
  unfold parseBoth checkParseInt
  rw [hb, h]

theorem occursIn_trans (a b c : String) (h1 : occursIn a b) (h2 : occursIn b c) :
    occursIn a c := by
  unfold occursIn at *
  exact List.IsInfix.trans h1 h2

theorem occursIn_left (x b : String) : occursIn x (x ++ b) := by
  unfold occursIn
  exact ⟨[], b.data, by simp [String.data_append]⟩

theorem occursIn_right (a x : String) : occursIn x (a ++ x) := by
  unfold occursIn
  exact ⟨a.data, [], by simp [String.data_append]⟩

theorem flatMap_quoteRune_plain (l : List Char)
    (h : l.all (fun c => decide (c ≠ '"') && decide (c ≠ '\\') && IsPrint c) = true) :
    l.flatMap quoteRune = l := by
  induction l with
  | nil => rfl
  | cons c cs ih =>
    simp only [List.all_cons, Bool.and_eq_true, decide_eq_true_eq] at h
    obtain ⟨⟨⟨h1, h2⟩, h3⟩, h4⟩ := h
    have hq : quoteRune c = [c] := by
      unfold quoteRune
      simp [h1, h2, h3]
    rw [List.flatMap_cons, hq, ih (by simpa using h4)]
    rfl

theorem occursIn_Quote (text : String) (h : plainText text = true) :
    occursIn text (Quote text) := by
  unfold occursIn Quote
  unfold plainText at h
  rw [flatMap_quoteRune_plain _ h]
  exact ⟨['"'], ['"'], by simp⟩

theorem message_names (side ctx text : String) (e : NumErr) :
    occursIn side ("parse int " ++ (side ++ " " ++ ctx) ++ " failed: " ++ numErrorText text e) ∧
    occursIn ctx ("parse int " ++ (side ++ " " ++ ctx) ++ " failed: " ++ numErrorText text e) ∧
    occursIn (Quote text)
      ("parse int " ++ (side ++ " " ++ ctx) ++ " failed: " ++ numErrorText text e) ∧
    (plainText text = true →
      occursIn text
        ("parse int " ++ (side ++ " " ++ ctx) ++ " failed: " ++ numErrorText text e)) := by
  have hq : occursIn (Quote text)
      ("parse int " ++ (side ++ " " ++ ctx) ++ " failed: " ++ numErrorText text e) := by
    unfold occursIn numErrorText
    refine ⟨("parse int " ++ (side ++ " " ++ ctx) ++ " failed: " ++
      "strconv.ParseInt: parsing ").data, (": " ++
        (match e with
         | .syntax_ => "invalid syntax"
         | .range => "value out of range")).data, ?_⟩
    simp [String.data_append]
  refine ⟨?_, ?_, hq, fun hp => occursIn_trans _ _ _ (occursIn_Quote text hp) hq⟩
  · unfold occursIn
    exact ⟨"parse int ".data,
      (" " ++ ctx ++ " failed: " ++ numErrorText text e).data, by simp [String.data_append]⟩
  · unfold occursIn
    exact ⟨("parse int " ++ side ++ " ").data,
      (" failed: " ++ numErrorText text e).data, by simp [String.data_append]⟩

theorem intContext_cases (p l ctx : String) (h : intContext p l = some ctx) :
    (tableGet simpleFields2023 l = some ctx) ∨
    (∃ suf, tableGet simpleMatchPhaseFields2023 l = some suf ∧ ctx = p ++ suf) ∨
    (ctx = l ∧ (l = "final score" ∨ l = "ranking points" ∨ l = "autonomous points" ∨
      l = "teleop points" ∨ l = "foul points")) := by
  unfold intContext at h
  split at h
  · rename_i api hapi
    left
    rw [hapi, h]
  · split at h
    · rename_i suf hsuf
      right; left
      exact ⟨suf, hsuf, by simpa using h.symm⟩
    · split at h
      · rename_i hl
        right; right
        exact ⟨by simpa using h.symm, hl⟩
      · simp at h

theorem handleRow_int_row (st : RowState) (l bt rt ctx : String)
    (h : intContext st.match_phase l = some ctx) :
    ∃ k, handleRow st l bt rt = parseBoth st bt ("blue " ++ ctx) rt ("red " ++ ctx) k := by
  rcases intContext_cases _ _ _ h with h1 | ⟨suf, h1, h2⟩ | ⟨h1, h2⟩
  · exact ⟨_, handleRow_simple st l bt rt ctx h1⟩
  · subst h2
    exact ⟨_, handleRow_phase_field st l bt rt suf h1⟩
  · subst h1
    rcases h2 with h2 | h2 | h2 | h2 | h2 <;> subst h2
    · exact ⟨_, handleRow_final_score st bt rt⟩
    · exact ⟨_, handleRow_ranking_points st bt rt⟩
    · exact ⟨_, handleRow_autonomous_points st bt rt⟩
    · exact ⟨_, handleRow_teleop_points st bt rt⟩
    · exact ⟨_, handleRow_foul_points st bt rt⟩

theorem intContext_label (p l ctx : String) (h : intContext p l = some ctx) :
    l ≠ "" ∧ l ≠ "match score item" ∧ l ≠ "mobility" := by
  refine ⟨?_, ?_, ?_⟩ <;> intro hl <;> subst hl <;>
    simp [intContext, tableGet, simpleFields2023, simpleMatchPhaseFields2023] at h

theorem parseIntWrapper_error (row_name s alliance : String) (e : NumErr)
    (h : ParseInt s = .error e) :
    parseIntWrapper row_name s alliance = .error (parseIntMessage alliance row_name s e) := by
  unfold parseIntWrapper checkParseInt parseIntMessage
  rw [h]

theorem parseIntWrapper_ok (row_name s alliance : String) (v : Int) (h : ParseInt s = .ok v) :
    parseIntWrapper row_name s alliance = .ok v := by
  unfold parseIntWrapper checkParseInt
  rw [h]

theorem multipleFieldValues_first_bad (row_name alliance f t : String) (fs ts : List String)
    (i n : Nat) (e : NumErr) (h : ParseInt t = .error e) :
    multipleFieldValues (parseIntWrapper row_name) alliance (f :: fs) (t :: ts) i n =
      .error (parseIntMessage alliance row_name t e) := by
  simp [multipleFieldValues, parseIntWrapper_error row_name t alliance e h]

theorem multipleFieldValues_second_bad (row_name alliance f0 f1 t0 t1 : String)
    (fs ts : List String) (i n : Nat) (v0 : Int) (e : NumErr) (h0 : ParseInt t0 = .ok v0)
    (h1 : ParseInt t1 = .error e) :
    multipleFieldValues (parseIntWrapper row_name) alliance (f0 :: f1 :: fs) (t0 :: t1 :: ts)
        i n =
      .error (parseIntMessage alliance row_name t1 e) := by
  simp [multipleFieldValues, parseIntWrapper_ok row_name t0 alliance v0 h0,
    parseIntWrapper_error row_name t1 alliance e h1]

theorem multipleFieldValues_both_ok (row_name alliance f0 f1 t0 t1 : String)
    (ts : List String) (i n : Nat) (v0 v1 : Int) (h0 : ParseInt t0 = .ok v0)
    (h1 : ParseInt t1 = .ok v1) :
    multipleFieldValues (parseIntWrapper row_name) alliance [f0, f1] (t0 :: t1 :: ts) i n =
      .ok [(f0, .int v0), (f1, .int v1)] := by
  simp [multipleFieldValues, parseIntWrapper_ok row_name t0 alliance v0 h0,
    parseIntWrapper_ok row_name t1 alliance v1 h1]

theorem handleRow_fouls_panic (st : RowState) (bt rt : String) :
    (handleRow st "fouls/techs committed" bt rt).2 =
      (assignBreakdownAllianceMultipleFields st.breakdown ["foulCount", "techFoulCount"]
        (parseIntWrapper "fouls/techs committed")
        ⟨split_and_strip bt "•", split_and_strip rt "•"⟩).2 := rfl

theorem handleRow_fouls_first_bad (st : RowState) (bt rt : String) :
    (∀ t0 rest e, split_and_strip bt "•" = t0 :: rest → ParseInt t0 = .error e →
      (handleRow st "fouls/techs committed" bt rt).2 =
        some (parseIntMessage "blue" "fouls/techs committed" t0 e)) ∧
    (∀ t0 t1 rest v0 e, split_and_strip bt "•" = t0 :: t1 :: rest → ParseInt t0 = .ok v0 →
      ParseInt t1 = .error e →
      (handleRow st "fouls/techs committed" bt rt).2 =
        some (parseIntMessage "blue" "fouls/techs committed" t1 e)) ∧
    (∀ t0 t1 rest v0 v1 u0 rest' e, split_and_strip bt "•" = t0 :: t1 :: rest →
      ParseInt t0 = .ok v0 → ParseInt t1 = .ok v1 →
      split_and_strip rt "•" = u0 :: rest' → ParseInt u0 = .error e →
      (handleRow st "fouls/techs committed" bt rt).2 =
        some (parseIntMessage "red" "fouls/techs committed" u0 e)) ∧
    (∀ t0 t1 rest v0 v1 u0 u1 rest' w0 e, split_and_strip bt "•" = t0 :: t1 :: rest →
      ParseInt t0 = .ok v0 → ParseInt t1 = .ok v1 →
      split_and_strip rt "•" = u0 :: u1 :: rest' → ParseInt u0 = .ok w0 →
      ParseInt u1 = .error e →
      (handleRow st "fouls/techs committed" bt rt).2 =
        some (parseIntMessage "red" "fouls/techs committed" u1 e)) := by
  refine ⟨?_, ?_, ?_, ?_⟩
  · intro t0 rest e hb h0
    rw [handleRow_fouls_panic, hb]
    unfold assignBreakdownAllianceMultipleFields
    simp only [multipleFieldValues_first_bad _ _ _ _ _ _ _ _ e h0]
  · intro t0 t1 rest v0 e hb h0 h1
    rw [handleRow_fouls_panic, hb]
    unfold assignBreakdownAllianceMultipleFields
    simp only [multipleFieldValues_second_bad _ _ _ _ _ _ _ _ _ _ v0 e h0 h1]
  · intro t0 t1 rest v0 v1 u0 rest' e hb h0 h1 hr hu
    rw [handleRow_fouls_panic, hb, hr]
    unfold assignBreakdownAllianceMultipleFields
    simp only [multipleFieldValues_both_ok _ _ _ _ _ _ _ _ _ v0 v1 h0 h1,
      multipleFieldValues_first_bad _ _ _ _ _ _ _ _ e hu]
  · intro t0 t1 rest v0 v1 u0 u1 rest' w0 e hb h0 h1 hr hu0 hu1
    rw [handleRow_fouls_panic, hb, hr]
    unfold assignBreakdownAllianceMultipleFields
    simp only [multipleFieldValues_both_ok _ _ _ _ _ _ _ _ _ v0 v1 h0 h1,
      multipleFieldValues_second_bad _ _ _ _ _ _ _ _ _ _ w0 e hu0 hu1]

theorem desc_blue (ctx : String) : "blue " ++ ctx = "blue" ++ " " ++ ctx := by
  rw [String.append_assoc]
  rfl

theorem desc_red (ctx : String) : "red " ++ ctx = "red" ++ " " ++ ctx := by
  rw [String.append_assoc]
  rfl

theorem occursIn_Join (m sep : String) (l : List String) (h : m ∈ l) :
    occursIn m (Join l sep) := by
  induction l with
  | nil => simp at h
  | cons a rest ih =>
    cases rest with
    | nil =>
      simp only [List.mem_singleton] at h
      subst h
      exact ⟨[], [], by simp [Join]⟩
    | cons b rest' =>
      simp only [List.mem_cons] at h
      rcases h with h | h
      · subst h
        unfold Join
        rw [String.append_assoc]
        exact occursIn_left _ _
      · unfold Join
        exact occursIn_trans _ _ _ (ih (by simpa using h)) (occursIn_right _ _)

/-- C9, as the code has it: for a row read as one integer a side (a direct field,
a phase-suffixed field, "final score", "ranking points", "autonomous points",
"teleop points", "foul points") whose cell for a side is not an integer, the
recorded message is "parse int", the side of the first bad cell, the context,
"failed:" and the text of strconv's error; the context is the API field name for
a direct field, the phase followed by the suffix for a phase-suffixed field, and
the row's normalized label for the five other rows. In a "fouls/techs committed"
row, whose cells are split at the bullet, the tokens are read in the order first
and second of the blue cell, then first and second of the red cell: when the
tokens before one of these four are integers and it is not, the row records the
same message, with the side of the cell that holds the token, the row's label and
the token. Such a message contains the side, the context and the offending text
in Go's quoted form, which contains the text itself when it has no double quote,
backslash or unprintable rune; and the aggregate error contains every recorded
message. -/
theorem int_row_error_message (st : RowState) (c0 c1 c2 : String) :
    (∀ ctx, intContext st.match_phase (ToLower (TrimSpace c0)) = some ctx →
      (∀ e, ParseInt (TrimSpace c1) = .error e →
        (processRow st [c0, c1, c2]).2 = some (parseIntMessage "blue" ctx (TrimSpace c1) e)) ∧
      (∀ b e, ParseInt (TrimSpace c1) = .ok b → ParseInt (TrimSpace c2) = .error e →
        (processRow st [c0, c1, c2]).2 = some (parseIntMessage "red" ctx (TrimSpace c2) e))) ∧
    (ToLower (TrimSpace c0) = "fouls/techs committed" →
      (∀ t0 rest e, split_and_strip (TrimSpace c1) "•" = t0 :: rest →
        ParseInt t0 = .error e →
        (processRow st [c0, c1, c2]).2 =
          some (parseIntMessage "blue" "fouls/techs committed" t0 e)) ∧
      (∀ t0 t1 rest v0 e, split_and_strip (TrimSpace c1) "•" = t0 :: t1 :: rest →
        ParseInt t0 = .ok v0 → ParseInt t1 = .error e →
        (processRow st [c0, c1, c2]).2 =
          some (parseIntMessage "blue" "fouls/techs committed" t1 e)) ∧
      (∀ t0 t1 rest v0 v1 u0 rest' e, split_and_strip (TrimSpace c1) "•" = t0 :: t1 :: rest →
        ParseInt t0 = .ok v0 → ParseInt t1 = .ok v1 →
        split_and_strip (TrimSpace c2) "•" = u0 :: rest' → ParseInt u0 = .error e →
        (processRow st [c0, c1, c2]).2 =
          some (parseIntMessage "red" "fouls/techs committed" u0 e)) ∧
      (∀ t0 t1 rest v0 v1 u0 u1 rest' w0 e,
        split_and_strip (TrimSpace c1) "•" = t0 :: t1 :: rest →
        ParseInt t0 = .ok v0 → ParseInt t1 = .ok v1 →
        split_and_strip (TrimSpace c2) "•" = u0 :: u1 :: rest' → ParseInt u0 = .ok w0 →
        ParseInt u1 = .error e →
        (processRow st [c0, c1, c2]).2 =
          some (parseIntMessage "red" "fouls/techs committed" u1 e))) ∧
    (∀ (side ctx text : String) (e : NumErr),
      occursIn side (parseIntMessage side ctx text e) ∧
      occursIn ctx (parseIntMessage side ctx text e) ∧
      occursIn (Quote text) (parseIntMessage side ctx text e) ∧
      (plainText text = true → occursIn text (parseIntMessage side ctx text e))) ∧
    (∀ (dom : List (List String)) (extra_raw : Option ExtraDoc) (playoff : Bool)
      (aggregate : String),
      (parseHTMLtoJSON2023 dom extra_raw playoff).err = some aggregate →
      ∀ m ∈ failureMessages (initState (loadExtraInfo extra_raw)) dom,
        occursIn m aggregate) := by
  refine ⟨?_, ?_, fun side ctx text e => message_names side ctx text e, ?_⟩
  · intro ctx hctx
    obtain ⟨h1, h2, h3⟩ := intContext_label _ _ _ hctx
    obtain ⟨k, hk⟩ := handleRow_int_row st _ (TrimSpace c1) (TrimSpace c2) ctx hctx
    rw [processRow_handle st c0 c1 c2 h1 h2 h3, hk]
    unfold parseIntMessage
    rw [← desc_blue, ← desc_red]
    exact ⟨fun e he => parseBoth_blue_error _ _ _ _ _ _ e he,
      fun b e hb he => parseBoth_red_error _ _ _ _ _ _ b e hb he⟩
  · intro hl
    rw [processRow_handle st c0 c1 c2 (by rw [hl]; decide) (by rw [hl]; decide)
      (by rw [hl]; decide), hl]
    exact handleRow_fouls_first_bad st _ _
  · intro dom extra_raw playoff aggregate herr m hm
    rw [parse_unfold, finish_err, rowFailures_messages] at herr
    split at herr
    · simp at herr
    · simp only [Option.some.injEq] at herr
      subst herr
      exact occursIn_trans _ _ _ (occursIn_Join m "\n" _ hm) (occursIn_right _ _)

/-! ## The other branches -/

theorem handleRow_teams (st : RowState) (bt rt : String) :
    handleRow st "teams" bt rt =
      ({ st with
          alliances :=
            assignTbaTeams st.alliances ⟨split_and_strip bt "\n", split_and_strip rt "\n"⟩ },
        none) := rfl

theorem handleRow_fouls (st : RowState) (bt rt : String) :
    handleRow st "fouls/techs committed" bt rt =
      ({ st with
          breakdown :=
            (assignBreakdownAllianceMultipleFields st.breakdown ["foulCount", "techFoulCount"]
              (parseIntWrapper "fouls/techs committed")
              ⟨split_and_strip bt "•", split_and_strip rt "•"⟩).1 },
        (assignBreakdownAllianceMultipleFields st.breakdown ["foulCount", "techFoulCount"]
          (parseIntWrapper "fouls/techs committed")
          ⟨split_and_strip bt "•", split_and_strip rt "•"⟩).2) := rfl

theorem handleRow_charge_station (st : RowState) (bt rt : String) :
    handleRow st "charge station" bt rt =
      (match matchPhaseWithEndGame st.match_phase with
       | .error r => (st, some r)
       | .ok phase =>
         ({ st with
            breakdown :=
              (assignBreakdownRobotFields st.breakdown (phase ++ "ChargeStationRobot")
                (identity_fn : String → String)
                ⟨split_and_strip bt "\n", split_and_strip rt "\n"⟩) }, none)) := rfl

theorem handleRow_fallback (st : RowState) (l bt rt : String)
    (h1 : tableGet simpleFields2023 l = none)
    (h2 : tableGet simpleMatchPhaseFields2023 l = none)
    (h3 : l ≠ "teams") (h4 : l ≠ "final score") (h5 : l ≠ "ranking points")
    (h6 : l ≠ "autonomous points") (h7 : l ≠ "teleop points") (h8 : l ≠ "foul points")
    (h9 : l ≠ "fouls/techs committed") (h10 : l ≠ "charge station") :
    handleRow st l bt rt =
      ({ st with
          breakdown :=
            { blue := mapSet st.breakdown.blue ("!" ++ l) (.str bt),
              red := mapSet st.breakdown.red ("!" ++ l) (.str rt) } }, none) := by
  unfold handleRow
  rw [h1, h2]
  simp [h3, h4, h5, h6, h7, h8, h9, h10]

theorem dropWhile_head_not (p : Char → Bool) (l : List Char) (x : Char)
    (h : (l.dropWhile p).head? = some x) : p x = false := by
  induction l with
  | nil => simp at h
  | cons a t ih =>
    by_cases hp : p a = true
    · rw [List.dropWhile_cons_of_pos hp] at h
      exact ih h
    · rw [List.dropWhile_cons_of_neg hp] at h
      simp only [List.head?_cons, Option.some.injEq] at h
      subst h
      simpa using hp

theorem head_append_some (a b : List Char) (x : Char) (h : a.head? = some x) :
    (a ++ b).head? = some x := by
  cases a with
  | nil => simp at h
  | cons c t => simpa using h

theorem TrimSpace_spec (s : String) : ∃ pre post : List Char,
    s.data = pre ++ (TrimSpace s).data ++ post ∧ (∀ x ∈ pre, isSpace x = true) ∧
    (∀ x ∈ post, isSpace x = true) ∧
    (∀ x, (TrimSpace s).data.head? = some x → isSpace x = false) ∧
    (∀ x, (TrimSpace s).data.getLast? = some x → isSpace x = false) := by
  have h2 : s.data.dropWhile isSpace =
      ((s.data.dropWhile isSpace).reverse.dropWhile isSpace).reverse ++
        ((s.data.dropWhile isSpace).reverse.takeWhile isSpace).reverse := by
    rw [← List.reverse_append, List.takeWhile_append_dropWhile, List.reverse_reverse]
  refine ⟨s.data.takeWhile isSpace,
    ((s.data.dropWhile isSpace).reverse.takeWhile isSpace).reverse, ?_, ?_, ?_, ?_, ?_⟩
  · show s.data = _ ++ ((s.data.dropWhile isSpace).reverse.dropWhile isSpace).reverse ++ _
    rw [List.append_assoc, ← h2, List.takeWhile_append_dropWhile]
  · intro x hx
    exact List.mem_takeWhile_imp hx
  · intro x hx
    exact List.mem_takeWhile_imp (List.mem_reverse.1 hx)
  · intro x hx
    have hx' : (((s.data.dropWhile isSpace).reverse.dropWhile isSpace).reverse).head? = some x := hx
    have := head_append_some _ ((s.data.dropWhile isSpace).reverse.takeWhile isSpace).reverse x hx'
    rw [← h2] at this
    exact dropWhile_head_not _ _ _ this
  · intro x hx
    have hx' : (((s.data.dropWhile isSpace).reverse.dropWhile isSpace).reverse).getLast? = some x := hx
    rw [List.getLast?_reverse] at hx'
    exact dropWhile_head_not _ _ _ hx'

/-- C11: a row of three cells whose normalized label is not empty, is not "match
score item", is a key of neither dispatch table and is none of the named special
rows records no error and stores, on each side, the side's trimmed cell text as a
string under the key "!" followed by the label; no other key of either breakdown
changes, and the alliance records and the score components stay as they were.
The trimmed text of a cell is the cell without the white space before and after
it: what is cut on either end is white space only, and what is left neither
starts nor ends with white space. The label is the trimmed text of the first
cell with every rune in lower case: ASCII capitals moved to their small letters,
the other ASCII runes kept, the runes above ASCII sent through the lower-case
table. -/
theorem unknown_row_passthrough (st : RowState) (c0 c1 c2 : String)
    (h1 : ToLower (TrimSpace c0) ≠ "") (h2 : ToLower (TrimSpace c0) ≠ "match score item")
    (h3 : tableGet simpleFields2023 (ToLower (TrimSpace c0)) = none)
    (h4 : tableGet simpleMatchPhaseFields2023 (ToLower (TrimSpace c0)) = none)
    (h5 : ToLower (TrimSpace c0) ∉ ["teams", "final score", "ranking points",
      "autonomous points", "teleop points", "foul points", "fouls/techs committed",
      "charge station"]) :
    (processRow st [c0, c1, c2]).2 = none ∧
    mapGet (processRow st [c0, c1, c2]).1.breakdown.blue ("!" ++ ToLower (TrimSpace c0)) =
      some (.str (TrimSpace c1)) ∧
    mapGet (processRow st [c0, c1, c2]).1.breakdown.red ("!" ++ ToLower (TrimSpace c0)) =
      some (.str (TrimSpace c2)) ∧
    (∀ (side : Side) (k : String), k ≠ "!" ++ ToLower (TrimSpace c0) →
      mapGet ((processRow st [c0, c1, c2]).1.breakdown.get side) k =
        mapGet (st.breakdown.get side) k) ∧
    (processRow st [c0, c1, c2]).1.alliances = st.alliances ∧
    (processRow st [c0, c1, c2]).1.scoreInfo = st.scoreInfo ∧
    (∀ c ∈ [c0, c1, c2], ∃ pre post : List Char,
      c.data = pre ++ (TrimSpace c).data ++ post ∧
      (∀ x ∈ pre, isSpace x = true) ∧ (∀ x ∈ post, isSpace x = true) ∧
      (∀ x, (TrimSpace c).data.head? = some x → isSpace x = false) ∧
      (∀ x, (TrimSpace c).data.getLast? = some x → isSpace x = false)) ∧
    (ToLower (TrimSpace c0)).data =
      (TrimSpace c0).data.map (fun x =>
        if x.toNat ≤ 0x7F then
          (if 65 ≤ x.toNat ∧ x.toNat ≤ 90 then Char.ofNat (x.toNat + 32) else x)
        else UnicodeTables.lower x) := by
  simp only [List.mem_cons, List.mem_singleton, List.not_mem_nil, or_false, not_or] at h5
  obtain ⟨a1, a2, a3, a4, a5, a6, a7, a8⟩ := h5
  rcases processRow_three_cases st c0 c1 c2 with ⟨hs, _⟩ | ⟨_, _, st1, hb, hal, hsc, _, hp⟩
  · rcases hs with hs | hs
    · exact absurd hs h1
    · exact absurd hs h2
  · rw [hp, handleRow_fallback st1 _ _ _ h3 h4 a1 a2 a3 a4 a5 a6 a7 a8, hb]
    refine ⟨rfl, mapGet_mapSet_self _ _ _, mapGet_mapSet_self _ _ _, ?_, hal, hsc,
      fun c _ => TrimSpace_spec c, rfl⟩
    intro side k hk
    exact sides_set_frame _ _ _ _ _ _ hk

/-- C13: in a state whose phase is None, a "charge station" row fails: the panic
"no active match phase: " is the one error recorded for it, both breakdowns, both
alliance records, the score components and the phase stay as they were, and the
loop goes on over the rows after it from that same state. -/
theorem charge_station_without_phase_fails (st : RowState) (errs : List String)
    (c0 c1 c2 : String) (rest : List (List String))
    (hphase : st.match_phase = "")
    (hl : ToLower (TrimSpace c0) = "charge station") :
    (processRow st [c0, c1, c2]).2 = some "no active match phase: " ∧
    (processRow st [c0, c1, c2]).1 = st ∧
    eachRow (st, errs) [c0, c1, c2] = (st, errs ++ ["no active match phase: "]) ∧
    runRows (st, errs) ([c0, c1, c2] :: rest) =
      runRows (st, errs ++ ["no active match phase: "]) rest := by
  have hp : processRow st [c0, c1, c2] = (st, some "no active match phase: ") := by
    rw [processRow_handle st c0 c1 c2 (by rw [hl]; decide) (by rw [hl]; decide)
      (by rw [hl]; decide), hl, handleRow_charge_station, hphase]
    rfl
  have he : eachRow (st, errs) [c0, c1, c2] = (st, errs ++ ["no active match phase: "]) := by
    unfold eachRow
    rw [hp]
  refine ⟨by rw [hp], by rw [hp], he, ?_⟩
  rw [runRows_cons, he]

theorem rowLabel_none_iff (columns : List String) :
    rowLabel columns = none ↔ columns.length ≠ 3 := by
  unfold rowLabel
  split
  · simp
  · rename_i h
    constructor
    · intro _ hlen
      match columns, hlen with
      | [a, b, c], _ => exact h a b c rfl
    · intro _
      rfl

/-- C15: a row that does not have exactly three cells, and a row of three cells
whose label, trimmed and lower-cased, is empty or "match score item", records no
error and leaves the phase, both breakdowns, both alliance records and the score
components as they were; the list of errors does not change either. -/
theorem skipped_rows_change_nothing (st : RowState) (errs : List String)
    (columns : List String)
    (h : columns.length ≠ 3 ∨
      ∃ c0 c1 c2, columns = [c0, c1, c2] ∧
        (ToLower (TrimSpace c0) = "" ∨ ToLower (TrimSpace c0) = "match score item")) :
    processRow st columns = (st, none) ∧ eachRow (st, errs) columns = (st, errs) := by
  have hp : processRow st columns = (st, none) := by
    rcases h with h | ⟨c0, c1, c2, hc, hl⟩
    · exact processRow_not_three st columns ((rowLabel_none_iff columns).2 h)
    · subst hc
      rw [processRow_three]
      simp [hl]
  refine ⟨hp, ?_⟩
  unfold eachRow
  rw [hp]

theorem label_cases (l : String) :
    (∃ api, tableGet simpleFields2023 l = some api) ∨
    (∃ suf, tableGet simpleMatchPhaseFields2023 l = some suf) ∨
    l = "teams" ∨ l = "final score" ∨ l = "ranking points" ∨ l = "autonomous points" ∨
    l = "teleop points" ∨ l = "foul points" ∨ l = "fouls/techs committed" ∨
    l = "charge station" ∨
    (tableGet simpleFields2023 l = none ∧ tableGet simpleMatchPhaseFields2023 l = none ∧
      l ≠ "teams" ∧ l ≠ "final score" ∧ l ≠ "ranking points" ∧ l ≠ "autonomous points" ∧
      l ≠ "teleop points" ∧ l ≠ "foul points" ∧ l ≠ "fouls/techs committed" ∧
      l ≠ "charge station") := by
  cases h1 : tableGet simpleFields2023 l with
  | some api => exact Or.inl ⟨api, rfl⟩
  | none =>
    cases h2 : tableGet simpleMatchPhaseFields2023 l with
    | some suf => exact Or.inr (Or.inl ⟨suf, rfl⟩)
    | none =>
      by_cases a1 : l = "teams"
      · simp [a1]
      by_cases a2 : l = "final score"
      · simp [a2]
      by_cases a3 : l = "ranking points"
      · simp [a3]
      by_cases a4 : l = "autonomous points"
      · simp [a4]
      by_cases a5 : l = "teleop points"
      · simp [a5]
      by_cases a6 : l = "foul points"
      · simp [a6]
      by_cases a7 : l = "fouls/techs committed"
      · simp [a7]
      by_cases a8 : l = "charge station"
      · simp [a8]
      simp [a1, a2, a3, a4, a5, a6, a7, a8]

theorem parseBoth_none_iff (st : RowState) (bt bd rt rd : String) (k : Int → Int → RowState) :
    (parseBoth st bt bd rt rd k).2 = none ↔
      ∃ b r, ParseInt bt = .ok b ∧ ParseInt rt = .ok r := by
  constructor
  · intro h
    obtain ⟨b, r, hb, hr, _⟩ := parseBoth_none _ _ _ _ _ _ h
    exact ⟨b, r, hb, hr⟩
  · rintro ⟨b, r, hb, hr⟩
    rw [parseBoth_ok _ _ _ _ _ _ b r hb hr]

/-- Whether a row other than "charge station" fails does not depend on the
phase. -/
theorem handleRow_phase_indep (st : RowState) (p l bt rt : String)
    (hl : l ≠ "charge station") :
    (handleRow st l bt rt).2 = none ↔
      (handleRow { st with match_phase := p } l bt rt).2 = none := by
  rcases label_cases l with ⟨api, h⟩ | ⟨suf, h⟩ | h | h | h | h | h | h | h | h |
    ⟨h1, h2, a1, a2, a3, a4, a5, a6, a7, a8⟩
  · rw [handleRow_simple _ _ _ _ _ h, handleRow_simple _ _ _ _ _ h, parseBoth_none_iff,
      parseBoth_none_iff]
  · rw [handleRow_phase_field _ _ _ _ _ h, handleRow_phase_field _ _ _ _ _ h,
      parseBoth_none_iff, parseBoth_none_iff]
  · subst h
    rw [handleRow_teams, handleRow_teams]
  · subst h
    rw [handleRow_final_score, handleRow_final_score, parseBoth_none_iff, parseBoth_none_iff]
  · subst h
    rw [handleRow_ranking_points, handleRow_ranking_points, parseBoth_none_iff,
      parseBoth_none_iff]
  · subst h
    rw [handleRow_autonomous_points, handleRow_autonomous_points, parseBoth_none_iff,
      parseBoth_none_iff]
  · subst h
    rw [handleRow_teleop_points, handleRow_teleop_points, parseBoth_none_iff,
      parseBoth_none_iff]
  · subst h
    rw [handleRow_foul_points, handleRow_foul_points, parseBoth_none_iff, parseBoth_none_iff]
  · subst h
    rw [handleRow_fouls, handleRow_fouls]
  · exact absurd h hl
  · rw [handleRow_fallback _ _ _ _ h1 h2 a1 a2 a3 a4 a5 a6 a7 a8,
      handleRow_fallback _ _ _ _ h1 h2 a1 a2 a3 a4 a5 a6 a7 a8]

theorem processRow_phase_indep (st : RowState) (p : String) (columns : List String)
    (hl : rowLabel columns ≠ some "charge station") :
    (processRow st columns).2 = none ↔
      (processRow { st with match_phase := p } columns).2 = none := by
  cases hrl : rowLabel columns with
  | none => rw [processRow_not_three _ _ hrl, processRow_not_three _ _ hrl]
  | some l =>
    obtain ⟨c0, c1, c2, hrow, hl'⟩ := rowLabel_some columns l hrl
    subst hrow
    have hne : ToLower (TrimSpace c0) ≠ "charge station" := by
      intro h
      apply hl
      rw [rowLabel_three, h]
    rw [processRow_three, processRow_three]
    by_cases hs : ToLower (TrimSpace c0) = "" ∨ ToLower (TrimSpace c0) = "match score item"
    · simp [hs]
    · simp only [hs, if_false]
      by_cases hm : ToLower (TrimSpace c0) = "mobility"
      · simp [hm]
      · simp only [hm, if_false]
        exact handleRow_phase_indep st p _ _ _ hne

theorem robotFields_three (m : Fields) (pre : String) (t1 t2 t3 : String) :
    robotFields m pre (identity_fn : String → String) [t1, t2, t3] 1 =
      mapSet (mapSet (mapSet m (pre ++ "1") (.str t1)) (pre ++ "2") (.str t2)) (pre ++ "3")
        (.str t3) := rfl

theorem robot_values (m : Fields) (pre t1 t2 t3 : String)
    (h12 : pre ++ "1" ≠ pre ++ "2") (h13 : pre ++ "1" ≠ pre ++ "3")
    (h23 : pre ++ "2" ≠ pre ++ "3") :
    mapGet (robotFields m pre (identity_fn : String → String) [t1, t2, t3] 1) (pre ++ "1") =
      some (.str t1) ∧
    mapGet (robotFields m pre (identity_fn : String → String) [t1, t2, t3] 1) (pre ++ "2") =
      some (.str t2) ∧
    mapGet (robotFields m pre (identity_fn : String → String) [t1, t2, t3] 1) (pre ++ "3") =
      some (.str t3) := by
  rw [robotFields_three]
  refine ⟨?_, ?_, ?_⟩
  · rw [mapGet_mapSet_ne _ _ _ _ h13, mapGet_mapSet_ne _ _ _ _ h12, mapGet_mapSet_self]
  · rw [mapGet_mapSet_ne _ _ _ _ h23, mapGet_mapSet_self]
  · rw [mapGet_mapSet_self]

theorem processRow_charge_station (st : RowState) (c0 c1 c2 pre : String)
    (hl : ToLower (TrimSpace c0) = "charge station")
    (hp : matchPhaseWithEndGame st.match_phase = .ok pre) :
    processRow st [c0, c1, c2] =
      ({ st with
          breakdown :=
            (assignBreakdownRobotFields st.breakdown (pre ++ "ChargeStationRobot")
              (identity_fn : String → String)
              ⟨split_and_strip (TrimSpace c1) "\n", split_and_strip (TrimSpace c2) "\n"⟩) },
        none) := by
  rw [processRow_handle st c0 c1 c2 (by rw [hl]; decide) (by rw [hl]; decide)
    (by rw [hl]; decide), hl, handleRow_charge_station, hp]

/-- C18: matchPhaseWithEndGame returns "endGame" in the phase Teleop, the phase name
itself in any other active phase, so "auto" in Auto, and fails in the phase None.
A "charge station" row is therefore handed to the per-robot writer with the prefix
"autoChargeStationRobot" in Auto and "endGameChargeStationRobot" in Teleop: no key
that is not this prefix followed by a number changes, and a cell of three tokens
leaves them under the prefix followed by 1, 2 and 3. -/
theorem charge_station_robot_keys (st : RowState) (c0 c1 c2 : String) :
    matchPhaseWithEndGame "teleop" = .ok "endGame" ∧
    matchPhaseWithEndGame "auto" = .ok "auto" ∧
    matchPhaseWithEndGame "" = .error "no active match phase: " ∧
    (∀ p : String, p ≠ "" → p ≠ "teleop" → matchPhaseWithEndGame p = .ok p) ∧
    (ToLower (TrimSpace c0) = "charge station" → st.match_phase = "auto" →
      processRow st [c0, c1, c2] =
        ({ st with
            breakdown :=
              (assignBreakdownRobotFields st.breakdown "autoChargeStationRobot"
                (identity_fn : String → String)
                ⟨split_and_strip (TrimSpace c1) "\n", split_and_strip (TrimSpace c2) "\n"⟩) },
          none) ∧
      (∀ (side : Side) (k : String), (∀ n : Nat, k ≠ "autoChargeStationRobot" ++ toString n) →
        mapGet ((processRow st [c0, c1, c2]).1.breakdown.get side) k =
          mapGet (st.breakdown.get side) k) ∧
      (∀ t1 t2 t3, split_and_strip (TrimSpace c1) "\n" = [t1, t2, t3] →
        mapGet (processRow st [c0, c1, c2]).1.breakdown.blue "autoChargeStationRobot1" =
          some (.str t1) ∧
        mapGet (processRow st [c0, c1, c2]).1.breakdown.blue "autoChargeStationRobot2" =
          some (.str t2) ∧
        mapGet (processRow st [c0, c1, c2]).1.breakdown.blue "autoChargeStationRobot3" =
          some (.str t3)) ∧
      (∀ t1 t2 t3, split_and_strip (TrimSpace c2) "\n" = [t1, t2, t3] →
        mapGet (processRow st [c0, c1, c2]).1.breakdown.red "autoChargeStationRobot1" =
          some (.str t1) ∧
        mapGet (processRow st [c0, c1, c2]).1.breakdown.red "autoChargeStationRobot2" =
          some (.str t2) ∧
        mapGet (processRow st [c0, c1, c2]).1.breakdown.red "autoChargeStationRobot3" =
          some (.str t3))) ∧
    (ToLower (TrimSpace c0) = "charge station" → st.match_phase = "teleop" →
      processRow st [c0, c1, c2] =
        ({ st with
            breakdown :=
              (assignBreakdownRobotFields st.breakdown "endGameChargeStationRobot"
                (identity_fn : String → String)
                ⟨split_and_strip (TrimSpace c1) "\n", split_and_strip (TrimSpace c2) "\n"⟩) },
          none) ∧
      (∀ (side : Side) (k : String),
        (∀ n : Nat, k ≠ "endGameChargeStationRobot" ++ toString n) →
        mapGet ((processRow st [c0, c1, c2]).1.breakdown.get side) k =
          mapGet (st.breakdown.get side) k) ∧
      (∀ t1 t2 t3, split_and_strip (TrimSpace c1) "\n" = [t1, t2, t3] →
        mapGet (processRow st [c0, c1, c2]).1.breakdown.blue "endGameChargeStationRobot1" =
          some (.str t1) ∧
        mapGet (processRow st [c0, c1, c2]).1.breakdown.blue "endGameChargeStationRobot2" =
          some (.str t2) ∧
        mapGet (processRow st [c0, c1, c2]).1.breakdown.blue "endGameChargeStationRobot3" =
          some (.str t3)) ∧
      (∀ t1 t2 t3, split_and_strip (TrimSpace c2) "\n" = [t1, t2, t3] →
        mapGet (processRow st [c0, c1, c2]).1.breakdown.red "endGameChargeStationRobot1" =
          some (.str t1) ∧
        mapGet (processRow st [c0, c1, c2]).1.breakdown.red "endGameChargeStationRobot2" =
          some (.str t2) ∧
        mapGet (processRow st [c0, c1, c2]).1.breakdown.red "endGameChargeStationRobot3" =
          some (.str t3))) := by
  refine ⟨rfl, rfl, rfl, ?_, ?_, ?_⟩
  · intro p h1 h2
    unfold matchPhaseWithEndGame validateMatchPhase
    simp [h1, h2]
  · intro hl hp
    have he := processRow_charge_station st c0 c1 c2 "auto" hl (by rw [hp]; rfl)
    rw [he]
    refine ⟨rfl, ?_, ?_, ?_⟩
    · intro side k hk
      cases side
      · exact robotFields_frame _ _ _ _ _ _ hk
      · exact robotFields_frame _ _ _ _ _ _ hk
    · intro t1 t2 t3 ht
      simp only [assignBreakdownRobotFields, ht]
      exact robot_values _ "autoChargeStationRobot" t1 t2 t3 (by decide) (by decide) (by decide)
    · intro t1 t2 t3 ht
      simp only [assignBreakdownRobotFields, ht]
      exact robot_values _ "autoChargeStationRobot" t1 t2 t3 (by decide) (by decide) (by decide)
  · intro hl hp
    have he := processRow_charge_station st c0 c1 c2 "endGame" hl (by rw [hp]; rfl)
    rw [he]
    refine ⟨rfl, ?_, ?_, ?_⟩
    · intro side k hk
      cases side
      · exact robotFields_frame _ _ _ _ _ _ hk
      · exact robotFields_frame _ _ _ _ _ _ hk
    · intro t1 t2 t3 ht
      simp only [assignBreakdownRobotFields, ht]
      exact robot_values _ "endGameChargeStationRobot" t1 t2 t3 (by decide) (by decide)
        (by decide)
    · intro t1 t2 t3 ht
      simp only [assignBreakdownRobotFields, ht]
      exact robot_values _ "endGameChargeStationRobot" t1 t2 t3 (by decide) (by decide)
        (by decide)

/-- C19: in the phase None a "game piece count" or "game piece points" row with
integer cells records no error and writes the two integers under the bare suffix,
"GamePieceCount" or "GamePiecePoints", with nothing in front of it; and for every
row other than "charge station", whether the row fails is the same in every
phase: the phase is checked for "charge station" rows only. -/
theorem game_piece_row_without_phase (st : RowState) (c0 c1 c2 suf : String) (b r : Int)
    (hphase : st.match_phase = "")
    (hs : tableGet simpleMatchPhaseFields2023 (ToLower (TrimSpace c0)) = some suf)
    (hb : ParseInt (TrimSpace c1) = .ok b) (hr : ParseInt (TrimSpace c2) = .ok r) :
    ((ToLower (TrimSpace c0) = "game piece count" ∧ suf = "GamePieceCount") ∨
      (ToLower (TrimSpace c0) = "game piece points" ∧ suf = "GamePiecePoints")) ∧
    (processRow st [c0, c1, c2]).2 = none ∧
    mapGet (processRow st [c0, c1, c2]).1.breakdown.blue suf = some (.int b) ∧
    mapGet (processRow st [c0, c1, c2]).1.breakdown.red suf = some (.int r) ∧
    (∀ (side : Side) (k : String), k ≠ suf →
      mapGet ((processRow st [c0, c1, c2]).1.breakdown.get side) k =
        mapGet (st.breakdown.get side) k) ∧
    (∀ (st' : RowState) (p : String) (columns : List String),
      rowLabel columns ≠ some "charge station" →
      ((processRow st' columns).2 = none ↔
        (processRow { st' with match_phase := p } columns).2 = none)) := by
  have h := processRow_phase_field st c0 c1 c2 suf hs
  rw [hphase] at h
  have he : "" ++ suf = suf := by
    apply String.ext
    simp [String.data_append]
  rw [he] at h
  obtain ⟨h1, h2, h3⟩ := h.2 b r hb hr
  exact ⟨tableGet_phase_cases _ _ hs, h1, h2, h3, h.1,
    fun st' p columns hl => processRow_phase_indep st' p columns hl⟩

/-! ## The text of an integer, and splitting at a rune -/

theorem parseUintLoop_digits (l : List Char) (n v : Nat) (h : parseUintLoop l n = .ok v) :
    ∀ c ∈ l, 48 ≤ c.toNat ∧ c.toNat ≤ 57 := by
  induction l generalizing n with
  | nil => simp
  | cons c cs ih =>
    unfold parseUintLoop at h
    split at h
    · rename_i hd
      split at h
      · simp at h
      · split at h
        · simp at h
        · intro x hx
          simp only [List.mem_cons] at hx
          rcases hx with hx | hx
          · subst hx; exact hd
          · exact ih _ h x hx
    · simp at h

theorem ParseUint_digits (l : List Char) (v : Nat) (h : ParseUint l = .ok v) :
    ∀ c ∈ l, 48 ≤ c.toNat ∧ c.toNat ≤ 57 := by
  unfold ParseUint at h
  split at h
  · simp at h
  · exact parseUintLoop_digits _ _ _ h

theorem ParseInt_chars (s : String) (v : Int) (h : ParseInt s = .ok v) :
    s.data ≠ [] ∧ ∀ c ∈ s.data, 43 ≤ c.toNat ∧ c.toNat ≤ 57 := by
  unfold ParseInt at h
  split at h
  · simp at h
  · rename_i c cs hdata
    simp only at h
    split at h
    · simp at h
    · rename_i un hun
      rw [hdata]
      refine ⟨by simp, ?_⟩
      have hd := ParseUint_digits _ _ hun
      by_cases hsign : c = '+' ∨ c = '-'
      · simp only [hsign, if_true] at hd
        intro x hx
        simp only [List.mem_cons] at hx
        rcases hx with hx | hx
        · subst hx
          rcases hsign with hs | hs <;> subst hs <;> decide
        · have := hd x hx
          omega
      · simp only [hsign, if_false] at hd
        intro x hx
        have := hd x hx
        omega

theorem splitLoop_cons_zero (sep : List Char) (c : Char) (cs acc : List Char) :
    splitLoop sep (c :: cs) acc 0 =
      (if sep.isPrefixOf (c :: cs) then
        ⟨acc.reverse⟩ :: splitLoop sep cs [] (sep.length - 1)
      else splitLoop sep cs (c :: acc) 0) := rfl

theorem splitLoop_no_sep (s : Char) (b acc : List Char) (h : ∀ c ∈ b, c ≠ s) :
    splitLoop [s] b acc 0 = [⟨acc.reverse ++ b⟩] := by
  induction b generalizing acc with
  | nil => simp [splitLoop]
  | cons c cs ih =>
    have hc : c ≠ s := h c (List.mem_cons_self _ _)
    have hc' : ¬ s = c := fun e => hc e.symm
    rw [splitLoop_cons_zero]
    simp only [List.isPrefixOf, hc', beq_iff_eq, Bool.false_and, Bool.and_true, if_false]
    rw [ih _ (fun x hx => h x (List.mem_cons_of_mem _ hx))]
    simp

theorem splitLoop_at_sep (s : Char) (a b acc : List Char) (h : ∀ c ∈ a, c ≠ s) :
    splitLoop [s] (a ++ s :: b) acc 0 = ⟨acc.reverse ++ a⟩ :: splitLoop [s] b [] 0 := by
  induction a generalizing acc with
  | nil =>
    simp only [List.nil_append, List.append_nil]
    rw [splitLoop_cons_zero]
    simp [List.isPrefixOf]
  | cons c cs ih =>
    have hc : c ≠ s := h c (List.mem_cons_self _ _)
    have hc' : ¬ s = c := fun e => hc e.symm
    rw [List.cons_append, splitLoop_cons_zero]
    simp only [List.isPrefixOf, hc', beq_iff_eq, Bool.false_and, Bool.and_true, if_false]
    rw [ih _ (fun x hx => h x (List.mem_cons_of_mem _ hx))]
    simp

theorem dropWhile_isSpace_self (l : List Char) (h : ∀ c ∈ l, isSpace c = false) :
    l.dropWhile isSpace = l := by
  cases l with
  | nil => rfl
  | cons c cs => simp [List.dropWhile, h c (List.mem_cons_self _ _)]

theorem TrimSpace_self (s : String) (h : ∀ c ∈ s.data, isSpace c = false) :
    TrimSpace s = s := by
  unfold TrimSpace
  rw [dropWhile_isSpace_self _ h,
    dropWhile_isSpace_self _ (fun c hc => h c (List.mem_reverse.1 hc)), List.reverse_reverse]

theorem intChar_not_space (c : Char) (h : 43 ≤ c.toNat ∧ c.toNat ≤ 57) : isSpace c = false := by
  unfold isSpace
  simp only [Bool.or_eq_false_iff, Bool.and_eq_false_iff, decide_eq_false_iff_not,
    beq_eq_false_iff_ne, ne_eq]
  omega

theorem intChar_not_bullet (c : Char) (h : 43 ≤ c.toNat ∧ c.toNat ≤ 57) : c ≠ '•' := by
  intro e
  subst e
  have : ('•' : Char).toNat = 8226 := by decide
  omega

theorem split_two_ints (a b : String) (va vb : Int) (ha : ParseInt a = .ok va)
    (hb : ParseInt b = .ok vb) : split_and_strip (a ++ "•" ++ b) "•" = [a, b] := by
  obtain ⟨ha0, hac⟩ := ParseInt_chars a va ha
  obtain ⟨hb0, hbc⟩ := ParseInt_chars b vb hb
  have hsplit : Split (a ++ "•" ++ b) "•" = [a, b] := by
    unfold Split
    have hd : (a ++ "•" ++ b).data = a.data ++ '•' :: b.data := by
      simp [String.data_append]
    have hs : ("•" : String).data = ['•'] := by decide
    rw [hd, hs, splitLoop_at_sep _ _ _ _ (fun c hc => intChar_not_bullet c (hac c hc)),
      splitLoop_no_sep _ _ _ (fun c hc => intChar_not_bullet c (hbc c hc))]
    simp
  have hta : TrimSpace a = a := TrimSpace_self a (fun c hc => intChar_not_space c (hac c hc))
  have htb : TrimSpace b = b := TrimSpace_self b (fun c hc => intChar_not_space c (hbc c hc))
  have hane : a ≠ "" := fun e => ha0 (by rw [e])
  have hbne : b ≠ "" := fun e => hb0 (by rw [e])
  unfold split_and_strip
  rw [hsplit]
  simp [hta, htb, List.dropWhile, hane, hbne]

theorem multipleFieldValues_two (row_name alliance f0 f1 t0 t1 : String) (v0 v1 : Int)
    (n : Nat) (h0 : ParseInt t0 = .ok v0) (h1 : ParseInt t1 = .ok v1) :
    multipleFieldValues (parseIntWrapper row_name) alliance [f0, f1] [t0, t1] 0 n =
      .ok [(f0, .int v0), (f1, .int v1)] := by
  have e0 : parseIntWrapper row_name t0 alliance = .ok v0 := (checkParseInt_ok _ _ _).2 h0
  have e1 : parseIntWrapper row_name t1 alliance = .ok v1 := (checkParseInt_ok _ _ _).2 h1
  simp [multipleFieldValues, e0, e1]

/-- C12: a "fouls/techs committed" row whose trimmed cell text is, on each side, two
integers separated by the bullet "•" records no error and leaves, on each side,
foulCount equal to the first integer of the side's cell and techFoulCount equal to
the second. -/
theorem fouls_techs_row_splits (st : RowState) (c0 c1 c2 bf bt rf rt : String)
    (vbf vbt vrf vrt : Int)
    (hl : ToLower (TrimSpace c0) = "fouls/techs committed")
    (hc1 : TrimSpace c1 = bf ++ "•" ++ bt) (hc2 : TrimSpace c2 = rf ++ "•" ++ rt)
    (hbf : ParseInt bf = .ok vbf) (hbt : ParseInt bt = .ok vbt)
    (hrf : ParseInt rf = .ok vrf) (hrt : ParseInt rt = .ok vrt) :
    (processRow st [c0, c1, c2]).2 = none ∧
    mapGet (processRow st [c0, c1, c2]).1.breakdown.blue "foulCount" = some (.int vbf) ∧
    mapGet (processRow st [c0, c1, c2]).1.breakdown.blue "techFoulCount" = some (.int vbt) ∧
    mapGet (processRow st [c0, c1, c2]).1.breakdown.red "foulCount" = some (.int vrf) ∧
    mapGet (processRow st [c0, c1, c2]).1.breakdown.red "techFoulCount" = some (.int vrt) := by
  have hassign : assignBreakdownAllianceMultipleFields st.breakdown
      ["foulCount", "techFoulCount"] (parseIntWrapper "fouls/techs committed")
      ⟨split_and_strip (TrimSpace c1) "•", split_and_strip (TrimSpace c2) "•"⟩ =
      ({ blue := mapSet (mapSet st.breakdown.blue "foulCount" (.int vbf)) "techFoulCount"
            (.int vbt),
         red := mapSet (mapSet st.breakdown.red "foulCount" (.int vrf)) "techFoulCount"
            (.int vrt) }, none) := by
    rw [hc1, hc2, split_two_ints bf bt vbf vbt hbf hbt, split_two_ints rf rt vrf vrt hrf hrt]
    unfold assignBreakdownAllianceMultipleFields
    simp only [multipleFieldValues_two _ _ _ _ _ _ _ _ _ hbf hbt,
      multipleFieldValues_two _ _ _ _ _ _ _ _ _ hrf hrt]
    rfl
  rw [processRow_handle st c0 c1 c2 (by rw [hl]; decide) (by rw [hl]; decide)
    (by rw [hl]; decide), hl, handleRow_fouls, hassign]
  refine ⟨rfl, ?_, ?_, ?_, ?_⟩
  · show mapGet (mapSet (mapSet st.breakdown.blue "foulCount" (.int vbf)) "techFoulCount"
      (.int vbt)) "foulCount" = _
    rw [mapGet_mapSet_ne _ _ _ _ (by decide), mapGet_mapSet_self]
  · exact mapGet_mapSet_self _ _ _
  · show mapGet (mapSet (mapSet st.breakdown.red "foulCount" (.int vrf)) "techFoulCount"
      (.int vrt)) "foulCount" = _
    rw [mapGet_mapSet_ne _ _ _ _ (by decide), mapGet_mapSet_self]
  · exact mapGet_mapSet_self _ _ _

theorem processRow_sentinel_ok (st : RowState) (c0 c1 c2 : String)
    (hl : ToLower (TrimSpace c0) = "autonomous points" ∨
      ToLower (TrimSpace c0) = "teleop points")
    (hok : (processRow st [c0, c1, c2]).2 = none) :
    ∃ b r, ParseInt (TrimSpace c1) = .ok b ∧ ParseInt (TrimSpace c2) = .ok r := by
  rcases hl with hl | hl
  · rw [processRow_handle st c0 c1 c2 (by rw [hl]; decide) (by rw [hl]; decide)
      (by rw [hl]; decide), hl, handleRow_autonomous_points] at hok
    exact (parseBoth_none_iff _ _ _ _ _ _).1 hok
  · rw [processRow_handle st c0 c1 c2 (by rw [hl]; decide) (by rw [hl]; decide)
      (by rw [hl]; decide), hl, handleRow_teleop_points] at hok
    exact (parseBoth_none_iff _ _ _ _ _ _).1 hok

/-- C17, as the code has it: a row moves the phase by its label alone. A row that is
none of the three sentinels leaves the phase as it was; a "mobility" row sets Auto,
an "autonomous points" row that is processed without error sets Teleop and a
"teleop points" row that is processed without error sets None, each of them
whatever the phase before; an "autonomous points" or "teleop points" row that
fails leaves the phase as it was. -/
theorem phase_moves_by_label (st : RowState) (columns : List String) :
    (isSentinel columns = false →
      (processRow st columns).1.match_phase = st.match_phase) ∧
    (rowLabel columns = some "mobility" →
      (processRow st columns).1.match_phase = "auto") ∧
    (rowLabel columns = some "autonomous points" →
      ((processRow st columns).2 = none → (processRow st columns).1.match_phase = "teleop") ∧
      ((processRow st columns).2 ≠ none →
        (processRow st columns).1.match_phase = st.match_phase)) ∧
    (rowLabel columns = some "teleop points" →
      ((processRow st columns).2 = none → (processRow st columns).1.match_phase = "") ∧
      ((processRow st columns).2 ≠ none →
        (processRow st columns).1.match_phase = st.match_phase)) := by
  have hfail : (processRow st columns).2 ≠ none →
      (processRow st columns).1.match_phase = st.match_phase := by
    intro h
    cases hp : (processRow st columns).2 with
    | none => exact absurd hp h
    | some r => rw [processRow_fail_state st columns r hp]
  refine ⟨processRow_phase_other st columns, ?_, ?_, ?_⟩
  · intro hl
    obtain ⟨c0, c1, c2, hrow, hl'⟩ := rowLabel_some columns _ hl
    subst hrow
    exact processRow_mobility st c0 c1 c2 hl'.symm
  · intro hl
    obtain ⟨c0, c1, c2, hrow, hl'⟩ := rowLabel_some columns _ hl
    subst hrow
    refine ⟨?_, hfail⟩
    intro hok
    obtain ⟨b, r, hb, hr⟩ := processRow_sentinel_ok st c0 c1 c2 (Or.inl hl'.symm) hok
    exact (processRow_autonomous_ok st c0 c1 c2 b r hl'.symm hb hr).2
  · intro hl
    obtain ⟨c0, c1, c2, hrow, hl'⟩ := rowLabel_some columns _ hl
    subst hrow
    refine ⟨?_, hfail⟩
    intro hok
    obtain ⟨b, r, hb, hr⟩ := processRow_sentinel_ok st c0 c1 c2 (Or.inr hl'.symm) hok
    exact (processRow_teleop_ok st c0 c1 c2 b r hl'.symm hb hr).2

theorem addManual_congr (b b' : Fields) (info : fmsScoreInfo2023)
    (extra extra' : extraMatchAllianceInfo2023) (playoff playoff' : Bool) (k : String)
    (hadj : mapGet b "adjustPoints" = mapGet b' "adjustPoints")
    (hk : mapGet b k = mapGet b' k) :
    mapGet (addManualFields2023 b info extra playoff) k =
      mapGet (addManualFields2023 b' info extra' playoff') k := by
  by_cases h : k = "adjustPoints"
  · subst h
    rw [addManual_adjust, addManual_adjust, hadj]
  · rw [addManual_other _ _ _ _ _ h, addManual_other _ _ _ _ _ h, hk]

/-- C20: for every table and supplemental document, the call in playoff mode and
the call outside it return the same error; one returns a record exactly when the
other does, and then the two records have the same alliances section and
breakdowns that hold the same value under every key other than rp,
cargoBonusRankingPoint and hangarBonusRankingPoint, adjustPoints and totalPoints
among them. -/
theorem playoff_flag_touches_three_keys (dom : List (List String))
    (extra_raw : Option ExtraDoc) :
    (parseHTMLtoJSON2023 dom extra_raw true).err =
      (parseHTMLtoJSON2023 dom extra_raw false).err ∧
    ((parseHTMLtoJSON2023 dom extra_raw true).json = none ↔
      (parseHTMLtoJSON2023 dom extra_raw false).json = none) ∧
    (∀ j1 j2, (parseHTMLtoJSON2023 dom extra_raw true).json = some j1 →
      (parseHTMLtoJSON2023 dom extra_raw false).json = some j2 →
      j1.alliances = j2.alliances ∧
      (∀ (side : Side) (k : String), k ≠ "rp" → k ≠ "cargoBonusRankingPoint" →
        k ≠ "hangarBonusRankingPoint" →
        mapGet (j1.score_breakdown.get side) k = mapGet (j2.score_breakdown.get side) k) ∧
      (∀ side : Side, mapGet (j1.score_breakdown.get side) "adjustPoints" =
        mapGet (j2.score_breakdown.get side) "adjustPoints") ∧
      (∀ side : Side, mapGet (j1.score_breakdown.get side) "totalPoints" =
        mapGet (j2.score_breakdown.get side) "totalPoints")) := by
  have hmain : ∀ j1 j2, (parseHTMLtoJSON2023 dom extra_raw true).json = some j1 →
      (parseHTMLtoJSON2023 dom extra_raw false).json = some j2 →
      j1.alliances = j2.alliances ∧
      (∀ (side : Side) (k : String), k ≠ "rp" → k ≠ "cargoBonusRankingPoint" →
        k ≠ "hangarBonusRankingPoint" →
        mapGet (j1.score_breakdown.get side) k = mapGet (j2.score_breakdown.get side) k) := by
    intro j1 j2 h1 h2
    rw [parse_unfold] at h1 h2
    obtain ⟨_, ha1, hb1⟩ := finish_json _ _ _ _ _ h1
    obtain ⟨_, ha2, hb2⟩ := finish_json _ _ _ _ _ h2
    refine ⟨by rw [ha1, ha2], ?_⟩
    intro side k k1 k2 k3
    rw [hb1 side, hb2 side]
    simp only [if_true, Bool.false_eq_true, if_false]
    exact addManual_congr _ _ _ _ _ _ _ k
      (playoffOverride_other _ _ _ (by decide) (by decide) (by decide))
      (playoffOverride_other _ _ _ k1 k2 k3)
  refine ⟨?_, ?_, ?_⟩
  · rw [parse_unfold, parse_unfold, finish_err, finish_err]
  · rw [parse_unfold, parse_unfold]
    unfold finish
    cases (List.map Prod.snd (rowFailures (initState (loadExtraInfo extra_raw)) dom)) <;> simp
  · intro j1 j2 h1 h2
    obtain ⟨ha, hk⟩ := hmain j1 j2 h1 h2
    exact ⟨ha, hk, fun side => hk side _ (by decide) (by decide) (by decide),
      fun side => hk side _ (by decide) (by decide) (by decide)⟩

/-! ## The alliance records -/

theorem handleRow_core (b : Sides Fields) (a a' : Sides Fields) (s : Sides fmsScoreInfo2023)
    (p l bt rt : String) :
    (handleRow ⟨b, a', s, p⟩ l bt rt).2 = (handleRow ⟨b, a, s, p⟩ l bt rt).2 ∧
    coreOf (handleRow ⟨b, a', s, p⟩ l bt rt).1 = coreOf (handleRow ⟨b, a, s, p⟩ l bt rt).1 := by
  unfold handleRow parseBoth
  simp only []
  repeat' split
  all_goals exact ⟨rfl, rfl⟩

theorem processRow_core (st st' : RowState) (columns : List String)
    (h : coreOf st' = coreOf st) :
    (processRow st' columns).2 = (processRow st columns).2 ∧
    coreOf (processRow st' columns).1 = coreOf (processRow st columns).1 := by
  obtain ⟨b, a, s, p⟩ := st
  obtain ⟨b', a', s', p'⟩ := st'
  simp only [coreOf, Prod.mk.injEq] at h
  obtain ⟨h1, h2, h3⟩ := h
  subst h1 h2 h3
  unfold processRow
  split
  · simp only []
    split
    · exact ⟨rfl, rfl⟩
    · split
      · exact handleRow_core _ _ _ _ _ _ _ _
      · exact handleRow_core _ _ _ _ _ _ _ _
  · exact ⟨rfl, rfl⟩

theorem runRows_core (st st' : RowState) (errs : List String) (dom : List (List String))
    (h : coreOf st' = coreOf st) :
    (runRows (st', errs) dom).2 = (runRows (st, errs) dom).2 ∧
    coreOf (runRows (st', errs) dom).1 = coreOf (runRows (st, errs) dom).1 := by
  induction dom generalizing st st' errs with
  | nil => exact ⟨rfl, h⟩
  | cons row rest ih =>
    rw [runRows_cons, runRows_cons]
    obtain ⟨h2, h1⟩ := processRow_core st st' row h
    have e1 : eachRow (st', errs) row = ((processRow st' row).1, (eachRow (st', errs) row).2) := by
      rw [← eachRow_fst st' errs row]
    have e2 : eachRow (st, errs) row = ((processRow st row).1, (eachRow (st, errs) row).2) := by
      rw [← eachRow_fst st errs row]
    rw [e1, e2, eachRow_snd, eachRow_snd, h2]
    exact ih _ _ _ h1

theorem handleRow_alliances_frame (st : RowState) (l bt rt : String) (side : Side)
    (k : String) (hk1 : k ≠ "teams") (hk2 : k ≠ "score") :
    mapGet ((handleRow st l bt rt).1.alliances.get side) k =
      mapGet (st.alliances.get side) k := by
  by_cases h1 : l = "teams"
  · subst h1
    rw [handleRow_teams]
    cases side <;> exact mapGet_mapSet_ne _ _ _ _ hk1
  · by_cases h2 : l = "final score"
    · subst h2
      rw [handleRow_final_score]
      unfold parseBoth
      repeat' split
      all_goals first
        | rfl
        | (cases side <;> exact mapGet_mapSet_ne _ _ _ _ hk2)
    · rw [(handleRow_meta_frame st l bt rt).2.2.2.2.2 h1 h2]

theorem processRow_alliances_frame (st : RowState) (columns : List String) (side : Side)
    (k : String) (hk1 : k ≠ "teams") (hk2 : k ≠ "score") :
    mapGet ((processRow st columns).1.alliances.get side) k =
      mapGet (st.alliances.get side) k := by
  cases hrl : rowLabel columns with
  | none => rw [processRow_not_three st columns hrl]
  | some l =>
    obtain ⟨c0, c1, c2, hrow, _⟩ := rowLabel_some columns l hrl
    subst hrow
    rcases processRow_three_cases st c0 c1 c2 with ⟨_, hp⟩ | ⟨_, _, st1, _, hal, _, _, hp⟩
    · rw [hp]
    · rw [hp, handleRow_alliances_frame st1 _ _ _ side k hk1 hk2, hal]

theorem runState_alliances_frame (st : RowState) (dom : List (List String)) (side : Side)
    (k : String) (hk1 : k ≠ "teams") (hk2 : k ≠ "score") :
    mapGet ((runState st dom).alliances.get side) k = mapGet (st.alliances.get side) k := by
  induction dom generalizing st with
  | nil => rfl
  | cons row rest ih =>
    rw [runState_cons, ih, processRow_alliances_frame st row side k hk1 hk2]

theorem finish_breakdown_indep (st st' : RowState) (errs : List String)
    (extra extra' : Sides extraMatchAllianceInfo2023) (playoff : Bool)
    (h : coreOf st' = coreOf st) :
    (finish st' errs extra' playoff).err = (finish st errs extra playoff).err ∧
    (finish st' errs extra' playoff).json.map (fun j => j.score_breakdown) =
      (finish st errs extra playoff).json.map (fun j => j.score_breakdown) := by
  obtain ⟨b, a, s, p⟩ := st
  obtain ⟨b', a', s', p'⟩ := st'
  simp only [coreOf, Prod.mk.injEq] at h
  obtain ⟨h1, h2, h3⟩ := h
  subst h1 h2 h3
  unfold finish
  simp only []
  split
  · exact ⟨rfl, rfl⟩
  · exact ⟨rfl, rfl⟩

/-- C16: for every table and playoff flag, two calls that differ in the
supplemental document alone (one of them may have none) return the same error and
the same score_breakdown on both sides; and in the record a call returns, each
side's surrogates and dqs are the lists the call's document gives for that side,
the empty lists when there is no document. -/
theorem supplemental_document_is_inert (dom : List (List String)) (playoff : Bool)
    (extra1 extra2 : Option ExtraDoc) :
    (parseHTMLtoJSON2023 dom extra1 playoff).err =
      (parseHTMLtoJSON2023 dom extra2 playoff).err ∧
    (parseHTMLtoJSON2023 dom extra1 playoff).json.map (fun j => j.score_breakdown) =
      (parseHTMLtoJSON2023 dom extra2 playoff).json.map (fun j => j.score_breakdown) ∧
    (∀ (extra_raw : Option ExtraDoc) (j : AllJson) (side : Side),
      (parseHTMLtoJSON2023 dom extra_raw playoff).json = some j →
      mapGet (j.alliances.get side) "surrogates" =
        some (.strs ((loadExtraInfo extra_raw).get side).Surrogates) ∧
      mapGet (j.alliances.get side) "dqs" =
        some (.strs ((loadExtraInfo extra_raw).get side).Dqs)) ∧
    (∀ side : Side, ((loadExtraInfo none).get side).Surrogates = [] ∧
      ((loadExtraInfo none).get side).Dqs = []) ∧
    (∀ blue red : extraMatchAllianceInfo2023,
      loadExtraInfo (some ⟨some blue, some red⟩) = ⟨blue, red⟩) := by
  refine ⟨?_, ?_, ?_, ?_, fun _ _ => rfl⟩
  · unfold parseHTMLtoJSON2023
    simp only []
    obtain ⟨h2, h1⟩ := runRows_core (initState (loadExtraInfo extra2))
      (initState (loadExtraInfo extra1)) [] dom rfl
    rw [h2]
    exact (finish_breakdown_indep _ _ _ _ _ playoff h1).1
  · unfold parseHTMLtoJSON2023
    simp only []
    obtain ⟨h2, h1⟩ := runRows_core (initState (loadExtraInfo extra2))
      (initState (loadExtraInfo extra1)) [] dom rfl
    rw [h2]
    exact (finish_breakdown_indep _ _ _ _ _ playoff h1).2
  · intro extra_raw j side hj
    rw [parse_unfold] at hj
    obtain ⟨_, ha, _⟩ := finish_json _ _ _ _ _ hj
    rw [ha]
    unfold stateAfter
    rw [runState_alliances_frame _ _ _ _ (by decide) (by decide),
      runState_alliances_frame _ _ _ _ (by decide) (by decide)]
    cases side <;> exact ⟨rfl, rfl⟩
  · intro side
    cases side <;> exact ⟨rfl, rfl⟩

/-! ## The score -/

theorem processRow_view_all {α : Type} (f : RowState → α) (L : String) (side : Side)
    (R : String → α → Prop) (hL1 : L ≠ "") (hL2 : L ≠ "match score item")
    (hphase : ∀ st st1 : RowState, st1.breakdown = st.breakdown →
      st1.alliances = st.alliances → f st1 = f st)
    (hframe : ∀ st l bt rt, l ≠ L → f (handleRow st l bt rt).1 = f st)
    (hbranch : ∀ st bt rt, (handleRow st L bt rt).2 = none →
      R (Sides.get (⟨bt, rt⟩ : Sides String) side) (f (handleRow st L bt rt).1)) :
    (∀ st row, (processRow st row).2 = none → rowLabel row ≠ some L →
      f (processRow st row).1 = f st) ∧
    (∀ st row, (processRow st row).2 = none → rowLabel row = some L →
      ∃ c, rowCell side row = some c ∧ R c (f (processRow st row).1)) := by
  constructor
  · intro st row _ hl
    cases hrl : rowLabel row with
    | none => rw [processRow_not_three st row hrl]
    | some l =>
      obtain ⟨c0, c1, c2, hrow, hl'⟩ := rowLabel_some row l hrl
      subst hrow
      rcases processRow_three_cases st c0 c1 c2 with ⟨_, hp⟩ | ⟨_, _, st1, hb, ha, _, _, hp⟩
      · rw [hp]
      · rw [hp, hframe, hphase st st1 hb ha]
        intro heq
        apply hl
        rw [rowLabel_three, heq]
  · intro st row hok hl
    obtain ⟨c0, c1, c2, hrow, hl'⟩ := rowLabel_some row L hl
    subst hrow
    refine ⟨_, rowCell_three side c0 c1 c2, ?_⟩
    rcases processRow_three_cases st c0 c1 c2 with ⟨hskip, _⟩ | ⟨_, _, st1, _, _, _, _, hp⟩
    · rcases hskip with h | h
      · exact absurd (hl'.trans h) hL1
      · exact absurd (hl'.trans h) hL2
    · rw [hp] at hok ⊢
      rw [← hl'] at hok ⊢
      exact hbranch st1 _ _ hok

theorem total_ne_phase_suffix (p suf : String)
    (h : suf = "GamePieceCount" ∨ suf = "GamePiecePoints") : "totalPoints" ≠ p ++ suf := by
  intro he
  have hl := congrArg String.length he
  rw [String.length_append] at hl
  rcases h with h | h <;> subst h
  · have h1 : "totalPoints".length = 11 := by decide
    have h2 : "GamePieceCount".length = 14 := by decide
    omega
  · have h1 : "totalPoints".length = 11 := by decide
    have h2 : "GamePiecePoints".length = 15 := by decide
    omega

theorem total_ne_robot (p : String) (n : Nat) :
    "totalPoints" ≠ p ++ "ChargeStationRobot" ++ toString n := by
  intro he
  have hl := congrArg String.length he
  rw [String.length_append, String.length_append] at hl
  have h1 : "totalPoints".length = 11 := by decide
  have h2 : "ChargeStationRobot".length = 18 := by decide
  omega

theorem total_ne_bang (l : String) : "totalPoints" ≠ "!" ++ l := by
  intro he
  have hd := congrArg String.data he
  rw [String.data_append] at hd
  have h1 : "totalPoints".data = 't' :: "otalPoints".data := by decide
  have h2 : "!".data = ['!'] := by decide
  rw [h1, h2] at hd
  simp at hd

theorem handleRow_total_frame (st : RowState) (l bt rt : String) (side : Side)
    (hl : l ≠ "final score") :
    mapGet ((handleRow st l bt rt).1.breakdown.get side) "totalPoints" =
      mapGet (st.breakdown.get side) "totalPoints" := by
  rcases handleRow_breakdown_frame st l bt rt side "totalPoints" with
    h | h | ⟨suf, hs, h⟩ | ⟨h, _⟩ | ⟨_, h⟩ | ⟨_, h⟩ | ⟨_, h⟩ | ⟨_, h⟩ | ⟨_, h⟩ | ⟨_, p, n, h⟩ | h
  · exact h
  · rcases tableGet_simple_cases _ _ h with ⟨_, h2⟩ | ⟨_, h2⟩ | ⟨_, h2⟩ | ⟨_, h2⟩ | ⟨_, h2⟩ <;>
      exact absurd h2 (by decide)
  · refine absurd h (total_ne_phase_suffix _ _ ?_)
    rcases tableGet_phase_cases _ _ hs with ⟨_, h2⟩ | ⟨_, h2⟩
    · exact Or.inl h2
    · exact Or.inr h2
  · exact absurd h hl
  · exact absurd h (by decide)
  · exact absurd h (by decide)
  · exact absurd h (by decide)
  · exact absurd h (by decide)
  · rcases h with h | h <;> exact absurd h (by decide)
  · exact absurd h (total_ne_robot p n)
  · exact absurd h (total_ne_bang l)

theorem handleRow_score_frame (st : RowState) (l bt rt : String) (side : Side)
    (hl : l ≠ "final score") :
    mapGet ((handleRow st l bt rt).1.alliances.get side) "score" =
      mapGet (st.alliances.get side) "score" := by
  by_cases h1 : l = "teams"
  · subst h1
    rw [handleRow_teams]
    cases side <;> exact mapGet_mapSet_ne _ _ _ _ (by decide)
  · rw [(handleRow_meta_frame st l bt rt).2.2.2.2.2 h1 hl]

theorem run_score (st : RowState) (dom : List (List String)) (side : Side)
    (h : rowFailures st dom = []) :
    (lastCell "final score" side dom = none →
      (mapGet ((runState st dom).alliances.get side) "score",
        mapGet ((runState st dom).breakdown.get side) "totalPoints") =
      (mapGet (st.alliances.get side) "score", mapGet (st.breakdown.get side) "totalPoints")) ∧
    (∀ c, lastCell "final score" side dom = some c →
      ∃ v, ParseInt c = .ok v ∧
        (mapGet ((runState st dom).alliances.get side) "score",
          mapGet ((runState st dom).breakdown.get side) "totalPoints") =
        (some (.int v), some (.int v))) := by
  have hv := processRow_view_all
    (fun s => (mapGet (s.alliances.get side) "score",
      mapGet (s.breakdown.get side) "totalPoints"))
    "final score" side
    (fun c x => ∃ v, ParseInt c = .ok v ∧ x = (some (.int v), some (.int v)))
    (by decide) (by decide)
    (fun st st1 hb ha => by simp only [hb, ha])
    (fun st l bt rt hl => by
      simp only [handleRow_total_frame st l bt rt side hl,
        handleRow_score_frame st l bt rt side hl])
    (fun st bt rt hok => by
      obtain ⟨b, r, hb, hr, he⟩ := parseBoth_none _ _ _ _ _ _ (by
        rw [← handleRow_final_score]; exact hok)
      rw [handleRow_final_score, he]
      cases side
      · exact ⟨b, hb, by
          simp only [Sides.get, mapGet_mapSet_self]⟩
      · exact ⟨r, hr, by
          simp only [Sides.get, mapGet_mapSet_self]⟩)
  exact last_writer
    (fun s => (mapGet (s.alliances.get side) "score",
      mapGet (s.breakdown.get side) "totalPoints"))
    "final score" side
    (fun c x => ∃ v, ParseInt c = .ok v ∧ x = (some (.int v), some (.int v)))
    hv.1 hv.2 st dom h

/-- C14: in a table that parses without error, each side's alliance score is -1
when the table has no "final score" row; otherwise it is the integer of the side's
cell in the last "final score" row, and the side's totalPoints in the breakdown is
the same integer. -/
theorem alliance_score_follows_final_score (dom : List (List String))
    (extra_raw : Option ExtraDoc) (playoff : Bool) (j : AllJson) (side : Side)
    (h : (parseHTMLtoJSON2023 dom extra_raw playoff).json = some j) :
    (lastCell "final score" side dom = none →
      mapGet (j.alliances.get side) "score" = some (.int (-1))) ∧
    (∀ c, lastCell "final score" side dom = some c →
      ∃ v, ParseInt c = .ok v ∧
        mapGet (j.alliances.get side) "score" = some (.int v) ∧
        mapGet (j.score_breakdown.get side) "totalPoints" = some (.int v)) := by
  rw [parse_unfold] at h
  obtain ⟨herrs, ha, hb⟩ := finish_json _ _ _ _ _ h
  have hnil : rowFailures (initState (loadExtraInfo extra_raw)) dom = [] := by
    simpa using herrs
  obtain ⟨h1, h2⟩ := run_score _ dom side hnil
  have hov : mapGet (j.score_breakdown.get side) "totalPoints" =
      mapGet ((stateAfter extra_raw dom).breakdown.get side) "totalPoints" := by
    rw [hb side, addManual_other _ _ _ _ _ (by decide)]
    cases playoff with
    | false => simp
    | true =>
      simp only [if_true]
      exact playoffOverride_other _ _ _ (by decide) (by decide) (by decide)
  constructor
  · intro hnone
    have := congrArg Prod.fst (h1 hnone)
    simp only at this
    rw [ha]
    unfold stateAfter
    rw [this]
    cases side <;> rfl
  · intro c hc
    obtain ⟨v, hv, he⟩ := h2 c hc
    refine ⟨v, hv, ?_, ?_⟩
    · have := congrArg Prod.fst he
      simp only at this
      rw [ha]
      exact this
    · have := congrArg Prod.snd he
      simp only at this
      rw [hov]
      exact this

end Parser

/-! ## Instances, at the tables of Unicode 15.0.0 -/

/-- C1, an instance: the table whose only row is "final score"
100/80 gives blue a breakdown without autoCargoLowerBlue. -/
theorem breakdown_has_no_defaults_witness :
    mapGet (Sides.get
      ({ blue := [("adjustPoints", .int 100), ("totalPoints", .int 100)],
         red := [("adjustPoints", .int 80), ("totalPoints", .int 80)] } : Sides Fields)
      Side.blue) "autoCargoLowerBlue" = none :=
  (breakdown_has_no_defaults [["final score", "100", "80"]] none false
    { alliances :=
        { blue := [("score", .int 100), ("teams", .strs ["", "", ""]),
            ("surrogates", .strs []), ("dqs", .strs [])],
          red := [("score", .int 80), ("teams", .strs ["", "", ""]),
            ("surrogates", .strs []), ("dqs", .strs [])] },
      score_breakdown :=
        { blue := [("adjustPoints", .int 100), ("totalPoints", .int 100)],
          red := [("adjustPoints", .int 80), ("totalPoints", .int 80)] } }
    Side.blue (by decide)).2 "autoCargoLowerBlue" (by decide) (by decide) (by decide)

/-- C1 fails as stated: the table whose only row is "final score" 100/80 parses
without error, and each side's breakdown holds totalPoints and adjustPoints and
nothing else; every other key of DEFAULT_BREAKDOWN_VALUES_2023, autoCargoLowerBlue
among them, is absent on both sides. -/
theorem defaults_are_not_overlaid :
    (parseHTMLtoJSON2023 [["final score", "100", "80"]] none false).err = none ∧
    ((parseHTMLtoJSON2023 [["final score", "100", "80"]] none false).json.map
        (fun j => j.score_breakdown)) =
      some { blue := [("adjustPoints", .int 100), ("totalPoints", .int 100)],
             red := [("adjustPoints", .int 80), ("totalPoints", .int 80)] } ∧
    mapGet DEFAULT_BREAKDOWN_VALUES_2023 "autoCargoLowerBlue" = some (.int 0) ∧
    (∀ e ∈ DEFAULT_BREAKDOWN_VALUES_2023, e.1 ≠ "totalPoints" → e.1 ≠ "adjustPoints" →
      mapGet [("adjustPoints", .int 100), ("totalPoints", .int 100)] e.1 = none ∧
      mapGet [("adjustPoints", .int 80), ("totalPoints", .int 80)] e.1 = none) := by
  refine ⟨by decide, by decide, by decide, by decide⟩

/-- C6, an instance: a "link points" row whose blue cell parses and whose red cell does
not fails and writes a value for neither side. -/
theorem failed_row_writes_nothing_witness :
    (processRow (initState (loadExtraInfo none)) ["link points", "1", "x"]).2 =
        some "parse int red linkPoints failed: strconv.ParseInt: parsing \"x\": invalid syntax" ∧
    ((processRow (initState (loadExtraInfo none)) ["link points", "1", "x"]).1 =
        initState (loadExtraInfo none) ∧
      eachRow (initState (loadExtraInfo none), []) ["link points", "1", "x"] =
        (initState (loadExtraInfo none),
          [] ++ ["parse int red linkPoints failed: strconv.ParseInt: parsing \"x\": invalid syntax"])) :=
  ⟨by decide, failed_row_writes_nothing _ [] _ _ (by decide)⟩

/-- C8, an instance: a table whose "link points" row holds the text "x" fails on that
row alone, and the same table without the row parses without error. -/
theorem failing_rows_are_isolated_witness :
    (parseHTMLtoJSON2023
        [["final score", "100", "80"], ["link points", "x", "5"], ["ranking points", "1", "2"]]
        none false).err =
      some "Parse error (1):\nparse int blue linkPoints failed: strconv.ParseInt: parsing \"x\": invalid syntax" ∧
    okRows (initState (loadExtraInfo none))
        [["final score", "100", "80"], ["link points", "x", "5"], ["ranking points", "1", "2"]] =
      [["final score", "100", "80"], ["ranking points", "1", "2"]] ∧
    (parseHTMLtoJSON2023
        (okRows (initState (loadExtraInfo none))
          [["final score", "100", "80"], ["link points", "x", "5"], ["ranking points", "1", "2"]])
        none false).err = none :=
  ⟨by decide, by decide,
    (failing_rows_are_isolated
      [["final score", "100", "80"], ["link points", "x", "5"], ["ranking points", "1", "2"]]
      none false).1⟩

/-- C10, an instance: in playoff mode a table with the row "ranking points" 3/4 returns
rp = 0 for blue. -/
theorem playoff_forces_rp_and_badges_witness :
    (parseHTMLtoJSON2023 [["ranking points", "3", "4"]] none true).json =
      some
        { alliances := ⟨initAlliance makeExtraMatchAllianceInfo2023,
            initAlliance makeExtraMatchAllianceInfo2023⟩,
          score_breakdown :=
            { blue := [("adjustPoints", .int 0), ("hangarBonusRankingPoint", .bool false),
                ("cargoBonusRankingPoint", .bool false), ("rp", .int 0)],
              red := [("adjustPoints", .int 0), ("hangarBonusRankingPoint", .bool false),
                ("cargoBonusRankingPoint", .bool false), ("rp", .int 0)] } } ∧
    mapGet (Sides.get
      ({ blue := [("adjustPoints", .int 0), ("hangarBonusRankingPoint", .bool false),
            ("cargoBonusRankingPoint", .bool false), ("rp", .int 0)],
         red := [("adjustPoints", .int 0), ("hangarBonusRankingPoint", .bool false),
            ("cargoBonusRankingPoint", .bool false), ("rp", .int 0)] } : Sides Fields)
      Side.blue) "rp" = some (.int 0) :=
  ⟨by decide,
    (playoff_forces_rp_and_badges [["ranking points", "3", "4"]] none
      { alliances := ⟨initAlliance makeExtraMatchAllianceInfo2023,
          initAlliance makeExtraMatchAllianceInfo2023⟩,
        score_breakdown :=
          { blue := [("adjustPoints", .int 0), ("hangarBonusRankingPoint", .bool false),
              ("cargoBonusRankingPoint", .bool false), ("rp", .int 0)],
            red := [("adjustPoints", .int 0), ("hangarBonusRankingPoint", .bool false),
              ("cargoBonusRankingPoint", .bool false), ("rp", .int 0)] } }
      Side.blue (by decide)).1⟩

/-- C3, an instance: the row "Link Points" with the cells " 7 " and "-2" leaves
linkPoints = 7 for blue and linkPoints = -2 for red. -/
theorem direct_field_row_writes_both_sides_witness :
    mapGet (processRow (initState (loadExtraInfo none)) ["Link Points", " 7 ", "-2"]).1.breakdown.blue
        "linkPoints" = some (.int 7) ∧
    mapGet (processRow (initState (loadExtraInfo none)) ["Link Points", " 7 ", "-2"]).1.breakdown.red
        "linkPoints" = some (.int (-2)) :=
  (direct_field_row_writes_both_sides (initState (loadExtraInfo none)) "Link Points" " 7 " "-2"
    "linkPoints" 7 (-2) (by decide) (by decide) (by decide)).2.2

/-- C5, an instance: the table whose only row is "final score" 100/80 gives blue
adjustPoints = 100; and a table with "final score" 0/0 and "autonomous points"
5/0 gives blue the negative adjustPoints = -5. -/
theorem adjustPoints_resolved_witness :
    (∃ total auto teleop fouls : Int,
      cellIs (lastCell "final score" Side.blue [["final score", "100", "80"]]) 0 total ∧
      cellIs (lastCell "autonomous points" Side.blue [["final score", "100", "80"]]) 0 auto ∧
      cellIs (lastCell "teleop points" Side.blue [["final score", "100", "80"]]) 0 teleop ∧
      cellIs (lastCell "foul points" Side.blue [["final score", "100", "80"]]) 0 fouls ∧
      (lastCell "adjustments" Side.blue [["final score", "100", "80"]] = none →
        mapGet [("adjustPoints", Value.int 100), ("totalPoints", Value.int 100)] "adjustPoints" =
          some (.int (subInt (subInt (subInt total auto) teleop) fouls)) ∧
        (-2 ^ 63 ≤ total - auto - teleop - fouls → total - auto - teleop - fouls < 2 ^ 63 →
          mapGet [("adjustPoints", Value.int 100), ("totalPoints", Value.int 100)]
            "adjustPoints" = some (.int (total - auto - teleop - fouls)))) ∧
      (∀ c, lastCell "adjustments" Side.blue [["final score", "100", "80"]] = some c →
        ∃ v, ParseInt c = .ok v ∧
          mapGet [("adjustPoints", Value.int 100), ("totalPoints", Value.int 100)]
            "adjustPoints" = some (.int v))) ∧
    ((parseHTMLtoJSON2023 [["final score", "100", "80"]] none false).json.map
        (fun j => mapGet j.score_breakdown.blue "adjustPoints")) = some (some (.int 100)) ∧
    ((parseHTMLtoJSON2023 [["final score", "0", "0"], ["autonomous points", "5", "0"]] none
        false).json.map
        (fun j => mapGet j.score_breakdown.blue "adjustPoints")) = some (some (.int (-5))) :=
  ⟨adjustPoints_resolved [["final score", "100", "80"]] none false
      { alliances :=
          { blue := [("score", .int 100), ("teams", .strs ["", "", ""]),
              ("surrogates", .strs []), ("dqs", .strs [])],
            red := [("score", .int 80), ("teams", .strs ["", "", ""]),
              ("surrogates", .strs []), ("dqs", .strs [])] },
        score_breakdown :=
          { blue := [("adjustPoints", .int 100), ("totalPoints", .int 100)],
            red := [("adjustPoints", .int 80), ("totalPoints", .int 80)] } }
      Side.blue (by decide),
    by decide, by decide⟩

/-- C4, an instance: in the table header, "Mobility", "game piece count", "Autonomous
Points", "game piece points", "Teleop Points" the phase is None, Auto, Teleop and
None again, and the "game piece points" row 3/4 is written under
teleopGamePiecePoints. -/
theorem phase_sequence_witness :
    (stateAfter none [["Match Score Item", "Blue", "Red"]]).match_phase = "" ∧
    (stateAfter none ([["Match Score Item", "Blue", "Red"]] ++ ["Mobility", "Yes", "No"] ::
      [["game piece count", "1", "2"]])).match_phase = "auto" ∧
    (stateAfter none ([["Match Score Item", "Blue", "Red"]] ++ ["Mobility", "Yes", "No"] ::
      ([["game piece count", "1", "2"]] ++ ["Autonomous Points", "5", "6"] ::
        [["game piece points", "3", "4"]]))).match_phase = "teleop" ∧
    (stateAfter none ([["Match Score Item", "Blue", "Red"]] ++ ["Mobility", "Yes", "No"] ::
      ([["game piece count", "1", "2"]] ++ ["Autonomous Points", "5", "6"] ::
        ([["game piece points", "3", "4"]] ++ [["Teleop Points", "7", "8"]])))).match_phase =
          "" ∧
    mapGet (processRow
        (stateAfter none ([["Match Score Item", "Blue", "Red"]] ++ ["Mobility", "Yes", "No"] ::
          ([["game piece count", "1", "2"]] ++ ["Autonomous Points", "5", "6"] :: [])))
        ["game piece points", "3", "4"]).1.breakdown.blue ("teleop" ++ "GamePiecePoints") =
      some (.int 3) :=
  have T := phase_sequence none [["Match Score Item", "Blue", "Red"]]
    [["game piece count", "1", "2"]] [["game piece points", "3", "4"]]
    "Mobility" "Yes" "No" "Autonomous Points" "5" "6" "Teleop Points" "7" "8" 5 6 7 8
    (by decide) (by decide) (by decide) (by decide) (by decide) (by decide) (by decide)
    (by decide) (by decide)
  ⟨T.1 (by decide) _ (List.prefix_refl _), T.2.1 _ (List.prefix_refl _),
    T.2.2.1 _ (List.prefix_refl _),
    T.2.2.2.1,
    ((T.2.2.2.2.2 [] [] "game piece points" "3" "4" "GamePiecePoints" rfl (by decide)).2 3 4
      (by decide) (by decide)).2.1⟩

/-- C4 fails as worded when a phase row comes before "mobility": in the table
"autonomous points" 1/2, "mobility", "autonomous points" 3/4, "teleop points" 5/6,
which holds the three rows in order with no phase row between them, the phase
before the "mobility" row is Teleop, not None; from the "mobility" row on it is
Auto, Teleop and None as stated. -/
theorem phase_before_mobility_not_none :
    isSentinel ["autonomous points", "1", "2"] = true ∧
    (stateAfter none [["autonomous points", "1", "2"]]).match_phase = "teleop" ∧
    (stateAfter none [["autonomous points", "1", "2"]]).match_phase ≠ "" ∧
    (stateAfter none [["autonomous points", "1", "2"], ["mobility", "Yes", "No"]]).match_phase =
      "auto" ∧
    (stateAfter none [["autonomous points", "1", "2"], ["mobility", "Yes", "No"],
      ["autonomous points", "3", "4"]]).match_phase = "teleop" ∧
    (stateAfter none [["autonomous points", "1", "2"], ["mobility", "Yes", "No"],
      ["autonomous points", "3", "4"], ["teleop points", "5", "6"]]).match_phase = "" ∧
    (parseHTMLtoJSON2023 [["autonomous points", "1", "2"], ["mobility", "Yes", "No"],
      ["autonomous points", "3", "4"], ["teleop points", "5", "6"]] none false).err = none := by
  decide

set_option maxRecDepth 8000 in
/-- C9, an instance: the row "Link Points" with the blue cell "x"
records a message that names blue, the API field linkPoints and the text "x"; a
"fouls/techs committed" row 2•x / 0•3 records the message of the blue token "x"
under the row's label; and a "final score" row whose blue cell holds the
zero-width space U+200B between 1 and 2 records the text with that rune escaped. -/
theorem int_row_error_message_witness :
    (processRow (initState (loadExtraInfo none)) ["Link Points", "x", "1"]).2 =
      some (parseIntMessage "blue" "linkPoints" (TrimSpace "x") NumErr.syntax_) ∧
    parseIntMessage "blue" "linkPoints" "x" NumErr.syntax_ =
      "parse int blue linkPoints failed: strconv.ParseInt: parsing \"x\": invalid syntax" ∧
    occursIn "x" (parseIntMessage "blue" "linkPoints" "x" NumErr.syntax_) ∧
    (processRow (initState (loadExtraInfo none)) ["Fouls/Techs Committed", "2•x", "0•3"]).2 =
      some (parseIntMessage "blue" "fouls/techs committed" "x" NumErr.syntax_) ∧
    parseIntMessage "blue" "fouls/techs committed" "x" NumErr.syntax_ =
      "parse int blue fouls/techs committed failed: strconv.ParseInt: parsing \"x\": invalid syntax" ∧
    (processRow (initState (loadExtraInfo none)) ["final score", "1\u200b2", "3"]).2 =
      some "parse int blue final score failed: strconv.ParseInt: parsing \"1\\u200b2\": invalid syntax" ∧
    plainText "1\u200b2" = false :=
  ⟨((int_row_error_message (initState (loadExtraInfo none)) "Link Points" "x" "1").1
      "linkPoints" (by decide)).1 NumErr.syntax_ (by decide),
    by decide,
    ((int_row_error_message (initState (loadExtraInfo none)) "Link Points" "x" "1").2.2.1
      "blue" "linkPoints" "x" NumErr.syntax_).2.2.2 (by decide),
    ((int_row_error_message (initState (loadExtraInfo none)) "Fouls/Techs Committed" "2•x"
      "0•3").2.1 (by decide)).2.1 "2" "x" [] 2 NumErr.syntax_ (by decide) (by decide)
      (by decide),
    by decide, by decide, by decide⟩

set_option maxRecDepth 8000 in
/-- C9 fails as stated: the row "link points" with the blue cell "x" records a
message that names the API field linkPoints and not the row's label; the row
"final score" with the blue cell 1"2 records a message that holds the text only in
quoted form; and a "charge station" row outside any phase records a message that
does not name the row. -/
theorem error_message_omits_label :
    (processRow (initState (loadExtraInfo none)) ["link points", "x", "1"]).2 =
      some "parse int blue linkPoints failed: strconv.ParseInt: parsing \"x\": invalid syntax" ∧
    ¬ occursIn "link points"
      "parse int blue linkPoints failed: strconv.ParseInt: parsing \"x\": invalid syntax" ∧
    (parseHTMLtoJSON2023 [["link points", "x", "1"]] none false).err =
      some "Parse error (1):\nparse int blue linkPoints failed: strconv.ParseInt: parsing \"x\": invalid syntax" ∧
    ¬ occursIn "link points"
      "Parse error (1):\nparse int blue linkPoints failed: strconv.ParseInt: parsing \"x\": invalid syntax" ∧
    (processRow (initState (loadExtraInfo none)) ["final score", "1\"2", "3"]).2 =
      some "parse int blue final score failed: strconv.ParseInt: parsing \"1\\\"2\": invalid syntax" ∧
    ¬ occursIn "1\"2"
      "parse int blue final score failed: strconv.ParseInt: parsing \"1\\\"2\": invalid syntax" ∧
    (parseHTMLtoJSON2023 [["charge station", "Docked", "None"]] none false).err =
      some "Parse error (1):\nno active match phase: " ∧
    ¬ occursIn "charge station" "Parse error (1):\nno active match phase: " := by
  refine ⟨by decide, by decide, by decide, by decide, by decide, by decide, by decide,
    by decide⟩

/-- C11, an instance: the row "widget count" with the cells "3" and "5" stores the
strings "3" and "5" under "!widget count"; so does the row whose cells are
"  Widget COUNT", " 3 " and "5" between a tab and a line end, the white space cut
and the capitals lowered; and the label "ÉCLAIR Ñ" gives the key "!éclair ñ". -/
theorem unknown_row_passthrough_witness :
    mapGet (processRow (initState (loadExtraInfo none))
        ["widget count", "3", "5"]).1.breakdown.blue ("!" ++ ToLower (TrimSpace "widget count")) =
      some (.str (TrimSpace "3")) ∧
    mapGet (processRow (initState (loadExtraInfo none))
        ["widget count", "3", "5"]).1.breakdown.red ("!" ++ ToLower (TrimSpace "widget count")) =
      some (.str (TrimSpace "5")) ∧
    "!" ++ ToLower (TrimSpace "widget count") = "!widget count" ∧
    Value.str (TrimSpace "3") = Value.str "3" ∧ Value.str "3" ≠ Value.int 3 ∧
    mapGet (processRow (initState (loadExtraInfo none))
        ["  Widget COUNT\n", " 3 ", "\t5\r\n"]).1.breakdown.blue
        ("!" ++ ToLower (TrimSpace "  Widget COUNT\n")) = some (.str (TrimSpace " 3 ")) ∧
    "!" ++ ToLower (TrimSpace "  Widget COUNT\n") = "!widget count" ∧
    TrimSpace " 3 " = "3" ∧ TrimSpace "\t5\r\n" = "5" ∧
    (processRow (initState (loadExtraInfo none))
        ["  Widget COUNT\n", " 3 ", "\t5\r\n"]).1.breakdown =
      { blue := [("!widget count", .str "3")], red := [("!widget count", .str "5")] } ∧
    (processRow (initState (loadExtraInfo none)) [" ÉCLAIR Ñ ", "3 ", " 5"]).1.breakdown =
      { blue := [("!éclair ñ", .str "3")], red := [("!éclair ñ", .str "5")] } :=
  ⟨(unknown_row_passthrough (initState (loadExtraInfo none)) "widget count" "3" "5"
      (by decide) (by decide) (by decide) (by decide) (by decide)).2.1,
    (unknown_row_passthrough (initState (loadExtraInfo none)) "widget count" "3" "5"
      (by decide) (by decide) (by decide) (by decide) (by decide)).2.2.1,
    by decide, by decide, by decide,
    (unknown_row_passthrough (initState (loadExtraInfo none)) "  Widget COUNT\n" " 3 "
      "\t5\r\n" (by decide) (by decide) (by decide) (by decide) (by decide)).2.1,
    by decide, by decide, by decide, by decide, by decide⟩

/-- C13, an instance: as the first row of a table, "Charge Station" fails, and the
"final score" row after it is still processed. -/
theorem charge_station_without_phase_fails_witness :
    (processRow (initState (loadExtraInfo none)) ["Charge Station", "Docked", "None"]).2 =
      some "no active match phase: " ∧
    runRows (initState (loadExtraInfo none), [])
        (["Charge Station", "Docked", "None"] :: [["final score", "100", "80"]]) =
      runRows (initState (loadExtraInfo none), [] ++ ["no active match phase: "])
        [["final score", "100", "80"]] ∧
    mapGet (runRows (initState (loadExtraInfo none), [])
        (["Charge Station", "Docked", "None"] :: [["final score", "100", "80"]])).1.breakdown.blue
      "totalPoints" = some (.int 100) :=
  ⟨(charge_station_without_phase_fails (initState (loadExtraInfo none)) []
      "Charge Station" "Docked" "None" [["final score", "100", "80"]] rfl (by decide)).1,
    (charge_station_without_phase_fails (initState (loadExtraInfo none)) []
      "Charge Station" "Docked" "None" [["final score", "100", "80"]] rfl (by decide)).2.2.2,
    by decide⟩

/-- C15, an instance: a header row of one cell and the row "Match Score Item" leave
the initial state as it is. -/
theorem skipped_rows_change_nothing_witness :
    (processRow (initState (loadExtraInfo none)) ["Qualification 12"] =
        (initState (loadExtraInfo none), none) ∧
      eachRow (initState (loadExtraInfo none), []) ["Qualification 12"] =
        (initState (loadExtraInfo none), [])) ∧
    (processRow (initState (loadExtraInfo none)) [" Match Score Item ", "Blue", "Red"] =
        (initState (loadExtraInfo none), none) ∧
      eachRow (initState (loadExtraInfo none), []) [" Match Score Item ", "Blue", "Red"] =
        (initState (loadExtraInfo none), [])) :=
  ⟨skipped_rows_change_nothing (initState (loadExtraInfo none)) [] ["Qualification 12"]
      (Or.inl (by decide)),
    skipped_rows_change_nothing (initState (loadExtraInfo none)) []
      [" Match Score Item ", "Blue", "Red"]
      (Or.inr ⟨" Match Score Item ", "Blue", "Red", rfl, Or.inr (by decide)⟩)⟩

/-- C18, an instance: after "autonomous points" the row "Charge Station" with the
blue cell "Docked", "None", "Engaged" on three lines leaves "Engaged" under
endGameChargeStationRobot3. -/
theorem charge_station_robot_keys_witness :
    (runState (initState (loadExtraInfo none)) [["autonomous points", "1", "2"]]).match_phase =
      "teleop" ∧
    mapGet (processRow
        (runState (initState (loadExtraInfo none)) [["autonomous points", "1", "2"]])
        ["Charge Station", "Docked\nNone\nEngaged", "None\nNone\nNone"]).1.breakdown.blue
      "endGameChargeStationRobot3" = some (.str "Engaged") :=
  ⟨by decide,
    (((charge_station_robot_keys
        (runState (initState (loadExtraInfo none)) [["autonomous points", "1", "2"]])
        "Charge Station" "Docked\nNone\nEngaged" "None\nNone\nNone").2.2.2.2.2
      (by decide) (by decide)).2.2.1 "Docked" "None" "Engaged" (by decide)).2.2⟩

/-- C19, an instance: as the first row of a table, "game piece count" 4/6 is
written under GamePieceCount. -/
theorem game_piece_row_without_phase_witness :
    (processRow (initState (loadExtraInfo none)) ["game piece count", "4", "6"]).2 = none ∧
    mapGet (processRow (initState (loadExtraInfo none))
      ["game piece count", "4", "6"]).1.breakdown.blue "GamePieceCount" = some (.int 4) ∧
    mapGet (processRow (initState (loadExtraInfo none))
      ["game piece count", "4", "6"]).1.breakdown.red "GamePieceCount" = some (.int 6) :=
  ⟨(game_piece_row_without_phase (initState (loadExtraInfo none)) "game piece count" "4" "6"
      "GamePieceCount" 4 6 rfl (by decide) (by decide) (by decide)).2.1,
    (game_piece_row_without_phase (initState (loadExtraInfo none)) "game piece count" "4" "6"
      "GamePieceCount" 4 6 rfl (by decide) (by decide) (by decide)).2.2.1,
    (game_piece_row_without_phase (initState (loadExtraInfo none)) "game piece count" "4" "6"
      "GamePieceCount" 4 6 rfl (by decide) (by decide) (by decide)).2.2.2.1⟩

/-- C12, an instance: the cell text "2•1" gives blue foulCount = 2 and
techFoulCount = 1. -/
theorem fouls_techs_row_splits_witness :
    mapGet (processRow (initState (loadExtraInfo none))
      ["Fouls/Techs Committed", "2•1", "0•3"]).1.breakdown.blue "foulCount" = some (.int 2) ∧
    mapGet (processRow (initState (loadExtraInfo none))
      ["Fouls/Techs Committed", "2•1", "0•3"]).1.breakdown.blue "techFoulCount" =
        some (.int 1) :=
  ⟨(fouls_techs_row_splits (initState (loadExtraInfo none)) "Fouls/Techs Committed" "2•1" "0•3"
      "2" "1" "0" "3" 2 1 0 3 (by decide) (by decide) (by decide) (by decide) (by decide)
      (by decide) (by decide)).2.1,
    (fouls_techs_row_splits (initState (loadExtraInfo none)) "Fouls/Techs Committed" "2•1" "0•3"
      "2" "1" "0" "3" 2 1 0 3 (by decide) (by decide) (by decide) (by decide) (by decide)
      (by decide) (by decide)).2.2.1⟩

/-- C17, an instance: the row "Mobility" sets the phase Auto from the phase
None. -/
theorem phase_moves_by_label_witness :
    (processRow (initState (loadExtraInfo none)) ["Mobility", "Yes", "No"]).1.match_phase =
      "auto" :=
  (phase_moves_by_label (initState (loadExtraInfo none)) ["Mobility", "Yes", "No"]).2.1
    (by decide)

/-- C17 fails as stated: from the phase None an "autonomous points" row sets the
phase Teleop, which is not the successor of None; from Teleop a "mobility" row sets
Auto; and from Auto a "teleop points" row sets None. -/
theorem phase_skips_the_cycle :
    (initState (loadExtraInfo none)).match_phase = "" ∧
    (processRow (initState (loadExtraInfo none))
      ["autonomous points", "1", "2"]).1.match_phase = "teleop" ∧
    (processRow
      (processRow (initState (loadExtraInfo none)) ["autonomous points", "1", "2"]).1
      ["mobility", "Yes", "No"]).1.match_phase = "auto" ∧
    (processRow (initState (loadExtraInfo none)) ["mobility", "Yes", "No"]).1.match_phase =
      "auto" ∧
    (processRow
      (processRow (initState (loadExtraInfo none)) ["mobility", "Yes", "No"]).1
      ["teleop points", "1", "2"]).1.match_phase = "" := by
  refine ⟨by decide, by decide, by decide, by decide, by decide⟩

/-- C20, an instance: for the table "final score" 100/80, "ranking points" 3/4 the
two modes agree on adjustPoints and totalPoints and differ on rp. -/
theorem playoff_flag_touches_three_keys_witness :
    (parseHTMLtoJSON2023 [["final score", "100", "80"], ["ranking points", "3", "4"]] none
        true).err =
      (parseHTMLtoJSON2023 [["final score", "100", "80"], ["ranking points", "3", "4"]] none
        false).err ∧
    ((parseHTMLtoJSON2023 [["final score", "100", "80"], ["ranking points", "3", "4"]] none
        true).json.map (fun j => (mapGet j.score_breakdown.blue "adjustPoints",
          mapGet j.score_breakdown.blue "totalPoints", mapGet j.score_breakdown.blue "rp"))) =
      some (some (.int 100), some (.int 100), some (.int 0)) ∧
    ((parseHTMLtoJSON2023 [["final score", "100", "80"], ["ranking points", "3", "4"]] none
        false).json.map (fun j => (mapGet j.score_breakdown.blue "adjustPoints",
          mapGet j.score_breakdown.blue "totalPoints", mapGet j.score_breakdown.blue "rp"))) =
      some (some (.int 100), some (.int 100), some (.int 3)) :=
  ⟨(playoff_flag_touches_three_keys
      [["final score", "100", "80"], ["ranking points", "3", "4"]] none).1,
    by decide, by decide⟩

/-- C16, an instance: with a document that names surrogates and a penalty for blue,
the table "final score" 100/80 returns the same breakdown as without a document,
and blue's surrogates are the document's. -/
theorem supplemental_document_is_inert_witness :
    (parseHTMLtoJSON2023 [["final score", "100", "80"]]
        (some ⟨some ⟨["frc1"], ["frc2"], true, false⟩, none⟩) false).json.map
        (fun j => j.score_breakdown) =
      (parseHTMLtoJSON2023 [["final score", "100", "80"]] none false).json.map
        (fun j => j.score_breakdown) ∧
    (parseHTMLtoJSON2023 [["final score", "100", "80"]]
        (some ⟨some ⟨["frc1"], ["frc2"], true, false⟩, none⟩) false).json.map
        (fun j => (mapGet j.alliances.blue "surrogates", mapGet j.alliances.blue "dqs",
          mapGet j.alliances.red "surrogates")) =
      some (some (.strs ["frc2"]), some (.strs ["frc1"]), some (.strs [])) :=
  ⟨(supplemental_document_is_inert [["final score", "100", "80"]] false
      (some ⟨some ⟨["frc1"], ["frc2"], true, false⟩, none⟩) none).2.1,
    by decide⟩

/-- C14, an instance: the empty table leaves blue's score at -1, and a table with
two "final score" rows gives blue the score and the totalPoints of the last
one. -/
theorem alliance_score_follows_final_score_witness :
    mapGet (Sides.get
      ({ blue := initAlliance makeExtraMatchAllianceInfo2023,
         red := initAlliance makeExtraMatchAllianceInfo2023 } : Sides Fields) Side.blue)
      "score" = some (.int (-1)) ∧
    (parseHTMLtoJSON2023 [["final score", "100", "80"], ["final score", "90", "70"]] none
        false).json.map
        (fun j => (mapGet j.alliances.blue "score", mapGet j.score_breakdown.blue "totalPoints")) =
      some (some (.int 90), some (.int 90)) :=
  ⟨(alliance_score_follows_final_score [] none false
      { alliances := ⟨initAlliance makeExtraMatchAllianceInfo2023,
          initAlliance makeExtraMatchAllianceInfo2023⟩,
        score_breakdown := ⟨[("adjustPoints", .int 0)], [("adjustPoints", .int 0)]⟩ }
      Side.blue (by decide)).1 (by decide),
    by decide⟩

end FmsParser
